import Mathlib

/-!
Gas oven controller (ptx_oven_controller): shallow embedding and verified properties.

The definitions below embed `ptx_oven_control.cpp`, `ptx_oven_config.cpp`, `ptx_actuator.cpp`,
`ptx_sensor_filter.cpp` and the output side of `api.cpp`.

Conventions of the embedding:

* C `float` values are carried as rationals (`ℚ`). The single-precision results that decide
  the heating state are rounded to binary32 (round to nearest, ties to even) by
  `round_binary32`: the quotient `signal_mv / vref_mv` and the stored result of
  `387.5 * x - 48.75` in `ptx_compute_temperature`, and the two thresholds
  `temp_target_c - temp_delta_c` and `temp_target_c + temp_delta_c` in `ptx_update_heating`.
  The expression `387.5 * x - 48.75` has `double` literals and is exact in an IEEE binary64
  `double` for a binary32 `x`, so its only rounding is the conversion to `float`.
  The range tests against `0.10f * vref_mv` and `0.90f * vref_mv` and the tests of
  `vref_mv / 1000.0f` against the reference range are evaluated exactly. Readings are whole
  millivolts below `2^16`; for them the rounded products separate the same readings as
  `0.10 * vref_mv` and `0.90 * vref_mv` (`low_test_binary32`, `high_test_binary32`), and the
  rounded quotient compares as the exact one with every threshold that is a binary32 number
  and a whole number of millivolts, such as 4.5 V and 5.5 V (`vref_test_binary32`).
  Infinities and NaN have no counterpart: a threshold beyond the binary32 range is a finite
  number of the same sign, outside the range `[-10, 300]` of the computed temperatures.
* `uint32_t` / `uint16_t` / `uint8_t` values are natural numbers. Where the source does
  arithmetic that can wrap (`now_ms - start_ms`, `pti_ignition_attempt++`) the reduction
  modulo `2^32` resp. `2^8` is written out.
* The file-scope `static` variables of `ptx_oven_control.cpp`, the two function-scope statics of
  `ptx_apply_outputs`, the three output pins and the emitted log lines form one record `Oven`
  that every operation takes and returns.
* `ptx_oven_get_config()` is an argument `cfg` of every operation that reads the configuration.
* Log lines are recorded by kind; their formatted text is not modelled.
-/

namespace PtxOven

/-! ## Types of `ptx_oven_control.h`, `ptx_oven_config.h`, `ptx_sensor_filter.h`, `api.h` -/

/-- Heating state `ptx_heating_state_t`: a C enum, carried as its integer value so that a value
that is none of the four enumerators can be represented. -/
abbrev ptx_heating_state_t := Nat

/-- Enumerator `PTX_HEATING_STATE_IDLE = 0`: outputs off, waiting for heat demand. -/
abbrev PTX_HEATING_STATE_IDLE : ptx_heating_state_t := 0
/-- Enumerator `PTX_HEATING_STATE_IGNITING`: igniter phase after gas turns on. -/
abbrev PTX_HEATING_STATE_IGNITING : ptx_heating_state_t := 1
/-- Enumerator `PTX_HEATING_STATE_HEATING`: post-ignition, igniter off. -/
abbrev PTX_HEATING_STATE_HEATING : ptx_heating_state_t := 2
/-- Enumerator `PTX_HEATING_STATE_LOCKOUT`: safety lockout. -/
abbrev PTX_HEATING_STATE_LOCKOUT : ptx_heating_state_t := 3

/-- Public status snapshot `ptx_oven_status_t`. -/
structure ptx_oven_status_t where
  vref_volts : ℚ
  signal_volts : ℚ
  temperature_c : ℚ
  door_open : Bool
  gas_on : Bool
  igniter_on : Bool
  state : ptx_heating_state_t
  vref_fault : Bool
  signal_fault : Bool
  sensor_fault : Bool
  ignition_attempt : Nat
  ignition_lockout : Bool
  deriving DecidableEq

/-- Configuration record `ptx_oven_config_t`. -/
structure ptx_oven_config_t where
  ignition_duration_ms : Nat
  periodic_log_ms : Nat
  sensor_fault_window_ms : Nat
  auto_resume_delay_ms : Nat
  vref_min_v : ℚ
  vref_max_v : ℚ
  temp_target_c : ℚ
  temp_delta_c : ℚ
  max_ignition_attempts : Nat
  iteration_period : Nat
  deriving DecidableEq

/-- Filtered reading `ptx_sensor_reading_t`. -/
structure ptx_sensor_reading_t where
  vref_mv : Nat
  signal_mv : Nat
  valid : Bool
  deriving DecidableEq

/-- Output selector `output_t` of `api.h`. -/
inductive output_t where
  | GAS_VALVE
  | SYS_LED_STATUS
  | IGNITER
  deriving DecidableEq

/-- Levels of the three output pins (D2 gas valve, D6 status LED, D7 igniter). -/
structure Port where
  gas_valve : Bool
  sys_led : Bool
  igniter : Bool
  deriving DecidableEq

/-- Kinds of log line emitted through `PTX_LOGF` in `ptx_oven_control.cpp`. -/
inductive LogMsg where
  | sensor_fault_error
  | shutdown
  | ignite_start (attempt : Nat)
  | ignition_assumed_success
  | heat_off
  | invalid_state (st : Nat)
  | status_line
  | fault_line
  | oven_control_init
  deriving DecidableEq

/-- What one control-loop iteration obtains from its environment: the value of `millis()` and
the two `read_voltage` results (each a `uint16_t` number of millivolts). -/
structure TickInput where
  millis : Nat
  vref_mv : Nat
  signal_mv : Nat
  deriving DecidableEq

/-- All mutable state touched by `ptx_oven_control.cpp`: its file-scope statics (same names),
the statics of `ptx_apply_outputs`, the output pins and the log. -/
structure Oven where
  pti_status : ptx_oven_status_t
  pti_ignition_start_ms : Nat
  pti_last_log_ms : Nat
  pti_last_sys_led_status_ms : Nat
  pti_out_of_range_since_ms : Nat
  pti_valid_since_ms : Nat
  pti_ignition_attempt : Nat
  pti_purge_start_ms : Nat
  pti_temp_at_ignition_start : ℚ
  sys_led_status : Bool
  sys_led_last_toggle_ms : Nat
  port : Port
  log : List LogMsg
  deriving DecidableEq

/-! ## Machine arithmetic -/

/-- Subtraction of two `uint32_t` values as the C expression `(uint32_t)(a - b)` computes it. -/
def u32_sub (a b : Nat) : Nat :=
  (a % 4294967296 + (4294967296 - b % 4294967296)) % 4294967296

/-- Post-increment of a `uint8_t`: `x++` wraps from 255 to 0. -/
def u8_incr (x : Nat) : Nat :=
  (x + 1) % 256

/-- Nearest integer to a rational, a tie going to the even neighbour. -/
def round_half_even (r : ℚ) : ℤ :=
  if r - ⌊r⌋ < 1 / 2 then ⌊r⌋
  else if 1 / 2 < r - ⌊r⌋ then ⌊r⌋ + 1
  else if ⌊r⌋ % 2 = 0 then ⌊r⌋
  else ⌊r⌋ + 1

/-- Binary32 exponent of a rational: the `e` with `2^e <= |x| < 2^(e+1)`, not below the
exponent -126 of the subnormal numbers (for `x = 0`, which rounds to 0 at any exponent, the
value is 0). -/
def binary32_exponent (x : ℚ) : ℤ :=
  max (Int.log 2 |x|) (-126)

/-- Spacing of the binary32 numbers around `x`: 24 significant bits. -/
def binary32_ulp (x : ℚ) : ℚ :=
  (2 : ℚ) ^ (binary32_exponent x - 23)

/-- Result of a `float` operation whose exact value is `x`: the nearest binary32 number, ties to
the even significand (IEEE 754 default rounding). -/
def round_binary32 (x : ℚ) : ℚ :=
  (round_half_even (x / binary32_ulp x) : ℚ) * binary32_ulp x

/-- Blink period `FAST_BLINK_MS` used while a fault or the open door is reported. -/
def FAST_BLINK_MS : Nat := 500

/-- Blink period `SLOW_BLINK_MS` used in normal operation. -/
def SLOW_BLINK_MS : Nat := 3000

/-! ## `ptx_oven_config.cpp` -/

/-- Static initialiser of `pti_oven_config`: the configuration in force at start-up. -/
def pti_oven_config : ptx_oven_config_t :=
  { ignition_duration_ms := 5000
    periodic_log_ms := 1000
    sensor_fault_window_ms := 1000
    auto_resume_delay_ms := 3000
    vref_min_v := 4.5
    vref_max_v := 5.5
    temp_target_c := 180
    temp_delta_c := 5
    max_ignition_attempts := 3
    iteration_period := 100 }

/-- Function `ptx_oven_get_config`: read access to the current configuration. -/
def ptx_oven_get_config (c : ptx_oven_config_t) : ptx_oven_config_t :=
  c

/-- Function `ptx_oven_set_config`: replace the configuration unless the pointer is `NULL`
(`none`). -/
def ptx_oven_set_config (config : Option ptx_oven_config_t) (c : ptx_oven_config_t) :
    ptx_oven_config_t :=
  match config with
  | some n => n
  | none => c

/-- Function `ptx_oven_reset_config_to_defaults`: assigns every field. -/
def ptx_oven_reset_config_to_defaults (c : ptx_oven_config_t) : ptx_oven_config_t :=
  { c with
    ignition_duration_ms := 5000
    periodic_log_ms := 1000
    sensor_fault_window_ms := 1000
    auto_resume_delay_ms := 3000
    vref_min_v := 4.5
    vref_max_v := 5.5
    temp_target_c := 180
    temp_delta_c := 2
    max_ignition_attempts := 3
    iteration_period := 100 }

/-- Function `ptx_oven_set_ignition_duration_ms`. -/
def ptx_oven_set_ignition_duration_ms (duration_ms : Nat) (c : ptx_oven_config_t) :
    ptx_oven_config_t :=
  { c with ignition_duration_ms := duration_ms }

/-- Function `ptx_oven_set_periodic_log_ms`. -/
def ptx_oven_set_periodic_log_ms (interval_ms : Nat) (c : ptx_oven_config_t) :
    ptx_oven_config_t :=
  { c with periodic_log_ms := interval_ms }

/-- Function `ptx_oven_set_sensor_fault_window_ms`. -/
def ptx_oven_set_sensor_fault_window_ms (window_ms : Nat) (c : ptx_oven_config_t) :
    ptx_oven_config_t :=
  { c with sensor_fault_window_ms := window_ms }

/-- Function `ptx_oven_set_auto_resume_delay_ms`. -/
def ptx_oven_set_auto_resume_delay_ms (delay_ms : Nat) (c : ptx_oven_config_t) :
    ptx_oven_config_t :=
  { c with auto_resume_delay_ms := delay_ms }

/-- Function `ptx_oven_set_vref_range_v`: stores both bounds as given. -/
def ptx_oven_set_vref_range_v (min_v max_v : ℚ) (c : ptx_oven_config_t) : ptx_oven_config_t :=
  { c with vref_min_v := min_v, vref_max_v := max_v }

/-- Function `ptx_oven_set_temp_target_c`. -/
def ptx_oven_set_temp_target_c (target_c : ℚ) (c : ptx_oven_config_t) : ptx_oven_config_t :=
  { c with temp_target_c := target_c }

/-- Function `ptx_oven_set_temp_delta_c`: stores the half-band as given. -/
def ptx_oven_set_temp_delta_c (delta_c : ℚ) (c : ptx_oven_config_t) : ptx_oven_config_t :=
  { c with temp_delta_c := delta_c }

/-- Function `ptx_oven_set_max_ignition_attempts`: values outside 1..5 are ignored. -/
def ptx_oven_set_max_ignition_attempts (attempts : Nat) (c : ptx_oven_config_t) :
    ptx_oven_config_t :=
  if attempts > 0 ∧ attempts ≤ 5 then { c with max_ignition_attempts := attempts } else c

/-- Function `ptx_oven_get_max_ignition_attempts`. -/
def ptx_oven_get_max_ignition_attempts (c : ptx_oven_config_t) : Nat :=
  c.max_ignition_attempts

/-! ## `api.cpp` (output side) and `ptx_actuator.cpp` -/

/-- Function `set_output`: write one output pin. -/
def set_output (output : output_t) (output_state : Bool) (p : Port) : Port :=
  match output with
  | output_t.GAS_VALVE => { p with gas_valve := output_state }
  | output_t.SYS_LED_STATUS => { p with sys_led := output_state }
  | output_t.IGNITER => { p with igniter := output_state }

/-- Function `read_output`: read back the level of a pin configured as an output. -/
def read_output (output : output_t) (p : Port) : Bool :=
  match output with
  | output_t.GAS_VALVE => p.gas_valve
  | output_t.SYS_LED_STATUS => p.sys_led
  | output_t.IGNITER => p.igniter

/-- Function `ptx_actuator_init`: both actuators off. -/
def ptx_actuator_init (p : Port) : Port :=
  set_output output_t.IGNITER false (set_output output_t.GAS_VALVE false p)

/-- Function `ptx_actuator_set_gas`. -/
def ptx_actuator_set_gas (enable : Bool) (p : Port) : Port :=
  set_output output_t.GAS_VALVE (if enable then true else false) p

/-- Function `ptx_actuator_set_igniter`. -/
def ptx_actuator_set_igniter (enable : Bool) (p : Port) : Port :=
  set_output output_t.IGNITER (if enable then true else false) p

/-- Function `ptx_actuator_get_gas_state`. -/
def ptx_actuator_get_gas_state (p : Port) : Bool :=
  read_output output_t.GAS_VALVE p

/-- Function `ptx_actuator_get_igniter_state`. -/
def ptx_actuator_get_igniter_state (p : Port) : Bool :=
  read_output output_t.IGNITER p

/-! ## `ptx_sensor_filter.cpp` -/

/-- Function `ptx_sensor_filter_update`: the filter stage passes the raw values through. -/
def ptx_sensor_filter_update (raw_vref_mv raw_signal_mv : Nat) : ptx_sensor_reading_t :=
  { vref_mv := raw_vref_mv, signal_mv := raw_signal_mv, valid := true }

/-- Function `ptx_sensor_filter_read_and_update`: read both channels and filter them. -/
def ptx_sensor_filter_read_and_update (inp : TickInput) : ptx_sensor_reading_t :=
  ptx_sensor_filter_update inp.vref_mv inp.signal_mv

/-! ## `ptx_oven_control.cpp` -/

/-- Function `ptx_read_door_open`. -/
def ptx_read_door_open (s : Oven) : Bool :=
  s.pti_status.door_open

/-- Function `ptx_eval_sensor_faults_with_timing`: instantaneous fault flags. -/
def ptx_eval_sensor_faults_with_timing (cfg : ptx_oven_config_t) (_now_ms : Nat)
    (vref_mv signal_mv : ℚ) (s : Oven) : Oven :=
  let st1 : ptx_oven_status_t :=
    { s.pti_status with vref_volts := vref_mv / 1000, signal_volts := signal_mv / 1000 }
  let vref_bad : Bool :=
    decide (st1.vref_volts < cfg.vref_min_v) || decide (st1.vref_volts > cfg.vref_max_v)
  let lo : ℚ := 0.10 * vref_mv
  let hi : ℚ := 0.90 * vref_mv
  let signal_bad : Bool := decide (signal_mv < lo) || decide (signal_mv > hi)
  let st2 : ptx_oven_status_t := { st1 with vref_fault := vref_bad, signal_fault := signal_bad }
  let out_of_range : Bool := vref_bad || signal_bad
  if out_of_range then
    { s with pti_status := { st2 with sensor_fault := true }
             log := s.log ++ [LogMsg.sensor_fault_error] }
  else
    { s with pti_status := { st2 with sensor_fault := false }
             pti_valid_since_ms := 0 }

/-- Function `ptx_compute_temperature`: linear map with saturation at both ends. The quotient
`x` is a `float` and is rounded to binary32; `387.5 * x - 48.75` is evaluated in `double` and
rounded to binary32 when it is stored in the `float` variable `temperature`. -/
def ptx_compute_temperature (vref_mv signal_mv : ℚ) : ℚ :=
  let low : ℚ := 0.10 * vref_mv
  let high : ℚ := 0.90 * vref_mv
  if signal_mv ≤ low then -10
  else if signal_mv ≥ high then 300
  else
    let x : ℚ := round_binary32 (signal_mv / vref_mv)
    round_binary32 (387.5 * x - 48.75)

/-- Function `ptx_apply_outputs`: drive gas and igniter pins, blink the status LED. -/
def ptx_apply_outputs (now_ms : Nat) (s : Oven) : Oven :=
  let p1 := ptx_actuator_set_gas s.pti_status.gas_on s.port
  let p2 := ptx_actuator_set_igniter s.pti_status.igniter_on p1
  let blink_interval : Nat :=
    if s.pti_status.door_open || s.pti_status.vref_fault ||
        s.pti_status.signal_fault || s.pti_status.sensor_fault
    then FAST_BLINK_MS else SLOW_BLINK_MS
  if u32_sub now_ms s.sys_led_last_toggle_ms ≥ blink_interval then
    { s with sys_led_status := !s.sys_led_status
             port := set_output output_t.SYS_LED_STATUS (!s.sys_led_status) p2
             sys_led_last_toggle_ms := now_ms }
  else
    { s with port := p2 }

/-- Function `ptx_update_heating`: the heating state machine (flame detection compiled out).
The thresholds `temp_on` and `temp_off` are `float` results, rounded to binary32, and are
compared with the `float` temperature of the status. -/
def ptx_update_heating (cfg : ptx_oven_config_t) (now_ms : Nat) (s : Oven) : Oven :=
  if s.pti_status.door_open || s.pti_status.sensor_fault then
    let lg := if s.pti_status.gas_on || s.pti_status.igniter_on
      then s.log ++ [LogMsg.shutdown] else s.log
    { s with pti_status := { s.pti_status with gas_on := false, igniter_on := false,
                                               state := PTX_HEATING_STATE_IDLE }
             pti_ignition_attempt := 0
             log := lg }
  else
    let temp_on : ℚ := round_binary32 (cfg.temp_target_c - cfg.temp_delta_c)
    let temp_off : ℚ := round_binary32 (cfg.temp_target_c + cfg.temp_delta_c)
    if s.pti_status.state = PTX_HEATING_STATE_IDLE then
      if s.pti_status.temperature_c ≤ temp_on then
        { s with pti_ignition_attempt := u8_incr s.pti_ignition_attempt
                 pti_status := { s.pti_status with gas_on := true, igniter_on := true,
                                                   state := PTX_HEATING_STATE_IGNITING }
                 pti_ignition_start_ms := now_ms
                 pti_temp_at_ignition_start := s.pti_status.temperature_c
                 log := s.log ++ [LogMsg.ignite_start (u8_incr s.pti_ignition_attempt)] }
      else s
    else if s.pti_status.state = PTX_HEATING_STATE_IGNITING then
      if u32_sub now_ms s.pti_ignition_start_ms ≥ cfg.ignition_duration_ms then
        { s with pti_status := { s.pti_status with igniter_on := false,
                                                   state := PTX_HEATING_STATE_HEATING }
                 pti_ignition_attempt := 0
                 log := s.log ++ [LogMsg.ignition_assumed_success] }
      else s
    else if s.pti_status.state = PTX_HEATING_STATE_HEATING then
      if s.pti_status.temperature_c ≥ temp_off then
        { s with pti_status := { s.pti_status with gas_on := false, igniter_on := false,
                                                   state := PTX_HEATING_STATE_IDLE }
                 pti_ignition_attempt := 0
                 log := s.log ++ [LogMsg.heat_off] }
      else s
    else if s.pti_status.state = PTX_HEATING_STATE_LOCKOUT then
      s
    else
      { s with log := s.log ++ [LogMsg.invalid_state s.pti_status.state] }

/-- Function `ptx_oven_run_log`: rate-limited status log. -/
def ptx_oven_run_log (cfg : ptx_oven_config_t) (now_ms : Nat) (s : Oven) : Oven :=
  if u32_sub now_ms s.pti_last_log_ms < cfg.periodic_log_ms then s
  else
    { s with pti_last_log_ms := now_ms
             log := s.log ++ [LogMsg.status_line, LogMsg.fault_line] }

/-- Function `ptx_oven_control_init`. -/
def ptx_oven_control_init (s : Oven) : Oven :=
  { s with
    pti_status :=
      { vref_volts := 0
        signal_volts := 0
        temperature_c := -10
        door_open := false
        gas_on := false
        igniter_on := false
        state := PTX_HEATING_STATE_IDLE
        vref_fault := false
        signal_fault := false
        sensor_fault := false
        ignition_attempt := 0
        ignition_lockout := false }
    pti_ignition_start_ms := 0
    pti_last_log_ms := 0
    pti_ignition_attempt := 0
    pti_temp_at_ignition_start := 0
    port := ptx_actuator_init s.port
    log := s.log ++ [LogMsg.oven_control_init] }

/-- Function `ptx_oven_control_update`: one control-loop iteration. -/
def ptx_oven_control_update (cfg : ptx_oven_config_t) (inp : TickInput) (s : Oven) : Oven :=
  let now : Nat := inp.millis % 4294967296
  let filtered := ptx_sensor_filter_read_and_update inp
  let vref_mv : ℚ := (filtered.vref_mv : ℚ)
  let signal_mv : ℚ := (filtered.signal_mv : ℚ)
  let s1 := ptx_eval_sensor_faults_with_timing cfg now vref_mv signal_mv s
  let s2 : Oven := { s1 with pti_status := { s1.pti_status with door_open := ptx_read_door_open s1 } }
  let s3 : Oven :=
    { s2 with pti_status :=
        { s2.pti_status with temperature_c := ptx_compute_temperature vref_mv signal_mv } }
  let s4 := ptx_update_heating cfg now s3
  let s5 := ptx_apply_outputs now s4
  let s6 := ptx_oven_run_log cfg now s5
  { s6 with pti_status := { s6.pti_status with ignition_attempt := s6.pti_ignition_attempt } }

/-- Function `ptx_oven_set_door_state`: called from the door interrupt handler. -/
def ptx_oven_set_door_state ( open_ : Bool) (s : Oven) : Oven :=
  { s with pti_status := { s.pti_status with door_open := open_ } }

/-- Function `ptx_oven_get_status`. -/
def ptx_oven_get_status (s : Oven) : ptx_oven_status_t :=
  s.pti_status


/-! ## `tests/test_oven_control.cpp` -/

/-- Function `mv_for_temp` of `tests/test_oven_control.cpp`: the signal in millivolts that the
tests feed to obtain a temperature. The conversion `(uint16_t)(val + 0.5f)` keeps the integer
part of a non-negative value, reduced to 16 bits. -/
def mv_for_temp (vref_mv temp_c : ℚ) : Nat :=
  let val : ℚ := ((temp_c + 10.0) / 310.0) * (0.80 * vref_mv) + 0.10 * vref_mv
  ⌊val + 0.5⌋₊ % 65536

/-! ## The calibration line in exact arithmetic -/

/-- The map of `ptx_compute_temperature` with the quotient and the linear expression evaluated
in exact arithmetic: the calibration line `387.5 * (signal_mv / vref_mv) - 48.75` of the
specification, saturated at -10 and 300 by the same two tests. -/
def ptx_compute_temperature_exact (vref_mv signal_mv : ℚ) : ℚ :=
  let low : ℚ := 0.10 * vref_mv
  let high : ℚ := 0.90 * vref_mv
  if signal_mv ≤ low then -10
  else if signal_mv ≥ high then 300
  else
    let x : ℚ := signal_mv / vref_mv
    387.5 * x - 48.75

/-! ## Auxiliary definitions used by the proofs -/

/-- State handed to `ptx_update_heating` inside `ptx_oven_control_update`: the oven after the
fault evaluation, the door read-back and the temperature computation of this tick. -/
def sensed (cfg : ptx_oven_config_t) (inp : TickInput) (s : Oven) : Oven :=
  let now : Nat := inp.millis % 4294967296
  let s1 := ptx_eval_sensor_faults_with_timing cfg now (inp.vref_mv : ℚ) (inp.signal_mv : ℚ) s
  let s2 : Oven := { s1 with pti_status := { s1.pti_status with door_open := ptx_read_door_open s1 } }
  { s2 with pti_status :=
      { s2.pti_status with
        temperature_c := ptx_compute_temperature (inp.vref_mv : ℚ) (inp.signal_mv : ℚ) } }

/-- Value of the statics when the program is loaded (C zero-initialisation), pins low. -/
def oven_boot : Oven :=
  { pti_status :=
      { vref_volts := 0, signal_volts := 0, temperature_c := 0, door_open := false,
        gas_on := false, igniter_on := false, state := PTX_HEATING_STATE_IDLE,
        vref_fault := false, signal_fault := false, sensor_fault := false,
        ignition_attempt := 0, ignition_lockout := false }
    pti_ignition_start_ms := 0
    pti_last_log_ms := 0
    pti_last_sys_led_status_ms := 0
    pti_out_of_range_since_ms := 0
    pti_valid_since_ms := 0
    pti_ignition_attempt := 0
    pti_purge_start_ms := 0
    pti_temp_at_ignition_start := 0
    sys_led_status := false
    sys_led_last_toggle_ms := 0
    port := { gas_valve := false, sys_led := false, igniter := false }
    log := [] }

/-- Runs of the controller: `ptx_oven_control_init` from any prior contents of the statics,
followed by any interleaving of control-loop iterations (with any configuration, clock value and
readings), door notifications and further initialisations. -/
inductive Reachable : Oven → Prop where
  | init (s0 : Oven) : Reachable (ptx_oven_control_init s0)
  | update (cfg : ptx_oven_config_t) (inp : TickInput) (s : Oven) :
      Reachable s → Reachable (ptx_oven_control_update cfg inp s)
  | door (b : Bool) (s : Oven) : Reachable s → Reachable (ptx_oven_set_door_state b s)

/-- Relation between heating state and commands that every run maintains. -/
def Consistent (s : Oven) : Prop :=
  s.pti_status.ignition_attempt = s.pti_ignition_attempt ∧
  ((s.pti_status.state = PTX_HEATING_STATE_IDLE ∧ s.pti_status.gas_on = false ∧
      s.pti_status.igniter_on = false ∧ s.pti_ignition_attempt = 0) ∨
   (s.pti_status.state = PTX_HEATING_STATE_IGNITING ∧ s.pti_status.gas_on = true ∧
      s.pti_status.igniter_on = true ∧ s.pti_ignition_attempt = 1) ∨
   (s.pti_status.state = PTX_HEATING_STATE_HEATING ∧ s.pti_status.gas_on = true ∧
      s.pti_status.igniter_on = false ∧ s.pti_ignition_attempt = 0))

/-- One call of the public configuration interface of `ptx_oven_config.h`, with its arguments. -/
inductive ConfigCall where
  | set_config (config : Option ptx_oven_config_t)
  | reset_config_to_defaults
  | set_ignition_duration_ms (duration_ms : Nat)
  | set_periodic_log_ms (interval_ms : Nat)
  | set_sensor_fault_window_ms (window_ms : Nat)
  | set_auto_resume_delay_ms (delay_ms : Nat)
  | set_vref_range_v (min_v max_v : ℚ)
  | set_temp_target_c (target_c : ℚ)
  | set_temp_delta_c (delta_c : ℚ)
  | set_max_ignition_attempts (attempts : Nat)

/-- Effect of one configuration call on the stored configuration. -/
def ConfigCall.run (k : ConfigCall) (c : ptx_oven_config_t) : ptx_oven_config_t :=
  match k with
  | ConfigCall.set_config config => ptx_oven_set_config config c
  | ConfigCall.reset_config_to_defaults => ptx_oven_reset_config_to_defaults c
  | ConfigCall.set_ignition_duration_ms d => ptx_oven_set_ignition_duration_ms d c
  | ConfigCall.set_periodic_log_ms n => ptx_oven_set_periodic_log_ms n c
  | ConfigCall.set_sensor_fault_window_ms w => ptx_oven_set_sensor_fault_window_ms w c
  | ConfigCall.set_auto_resume_delay_ms d => ptx_oven_set_auto_resume_delay_ms d c
  | ConfigCall.set_vref_range_v lo hi => ptx_oven_set_vref_range_v lo hi c
  | ConfigCall.set_temp_target_c t => ptx_oven_set_temp_target_c t c
  | ConfigCall.set_temp_delta_c d => ptx_oven_set_temp_delta_c d c
  | ConfigCall.set_max_ignition_attempts a => ptx_oven_set_max_ignition_attempts a c

/-- Configuration in force after a sequence of calls made from start-up. -/
def config_after (calls : List ConfigCall) : ptx_oven_config_t :=
  calls.foldl (fun c k => k.run c) pti_oven_config

/-- The arguments of a call are themselves in range: a replacement configuration has
`vref_min_v < vref_max_v`, `temp_delta_c >= 0` and `max_ignition_attempts` in 1..5; a reference
range has `min_v < max_v`; a half-band is non-negative. The other calls carry no condition. -/
def ConfigCall.args_in_range (k : ConfigCall) : Prop :=
  match k with
  | ConfigCall.set_config (some n) =>
      n.vref_min_v < n.vref_max_v ∧ 0 ≤ n.temp_delta_c ∧
        1 ≤ n.max_ignition_attempts ∧ n.max_ignition_attempts ≤ 5
  | ConfigCall.set_vref_range_v lo hi => lo < hi
  | ConfigCall.set_temp_delta_c d => 0 ≤ d
  | _ => True

/-! ## Concrete inputs and states used to instantiate the theorems -/

/-- Reading of 160 °C at `vref = 5000 mV` (signal 2694 mV), clock at 0 ms. -/
def tick_160 : TickInput := { millis := 0, vref_mv := 5000, signal_mv := 2694 }

/-- Same reading as `tick_160`, clock at 4999 ms. -/
def tick_160_4999 : TickInput := { millis := 4999, vref_mv := 5000, signal_mv := 2694 }

/-- Same reading as `tick_160`, clock at 5000 ms. -/
def tick_160_5000 : TickInput := { millis := 5000, vref_mv := 5000, signal_mv := 2694 }

/-- Reading of 186 °C at `vref = 5000 mV` (signal 3029 mV), clock at 5100 ms. -/
def tick_186 : TickInput := { millis := 5100, vref_mv := 5000, signal_mv := 3029 }

/-- The oven right after `ptx_oven_control_init` at boot. -/
def oven_idle : Oven := ptx_oven_control_init oven_boot

/-- The oven after one tick at 160 °C from `oven_idle`: ignition has started. -/
def oven_igniting : Oven := ptx_oven_control_update pti_oven_config tick_160 oven_idle

/-- The oven after a second tick 5000 ms later: ignition has completed. -/
def oven_heating : Oven := ptx_oven_control_update pti_oven_config tick_160_5000 oven_igniting

/-- Reading of 186 °C at `vref = 5000 mV`, clock at 0 ms. -/
def tick_186_0 : TickInput := { millis := 0, vref_mv := 5000, signal_mv := 3029 }

/-- Same reading as `tick_186_0`, clock at 700 ms. -/
def tick_186_700 : TickInput := { millis := 700, vref_mv := 5000, signal_mv := 3029 }

/-- Configuration with target 300 °C and a zero hysteresis half-band, set through the setters. -/
def cfg_zero_band : ptx_oven_config_t :=
  ptx_oven_set_temp_delta_c 0 (ptx_oven_set_temp_target_c 300 pti_oven_config)

/-- Reading at the sensing ceiling (signal at 90 % of `vref = 5000 mV`, 300 °C), clock 5100 ms. -/
def tick_300_5100 : TickInput := { millis := 5100, vref_mv := 5000, signal_mv := 4500 }

/-- Same reading as `tick_300_5100`, clock at 5200 ms. -/
def tick_300_5200 : TickInput := { millis := 5200, vref_mv := 5000, signal_mv := 4500 }

/-- Reading of 186 °C at `vref = 5000 mV`, clock at 100 ms. -/
def tick_186_100 : TickInput := { millis := 100, vref_mv := 5000, signal_mv := 3029 }

/-- Same reading as `tick_186_100`, clock at 1000 ms. -/
def tick_186_1000 : TickInput := { millis := 1000, vref_mv := 5000, signal_mv := 3029 }

/-- Reading of 186 °C at `vref = 5000 mV`, clock at 5200 ms. -/
def tick_186_5200 : TickInput := { millis := 5200, vref_mv := 5000, signal_mv := 3029 }

/-- An igniting oven whose ignition started 296 ms before the 32-bit clock wraps. -/
def oven_igniting_late : Oven := { oven_igniting with pti_ignition_start_ms := 4294967000 }

/-- Reading of 160 °C taken 5000 ms after the start time of `oven_igniting_late`: the clock has
wrapped and reads 4704 ms. -/
def tick_160_wrapped : TickInput := { millis := 4704, vref_mv := 5000, signal_mv := 2694 }

/-- The start-up configuration with other values in the three fields the control never reads. -/
def cfg_other_unused : ptx_oven_config_t :=
  { pti_oven_config with
    sensor_fault_window_ms := 0, auto_resume_delay_ms := 0, max_ignition_attempts := 1 }

/-- The idle oven with another attempt counter and the lockout flag set. -/
def oven_idle_other : Oven :=
  { oven_idle with
    pti_ignition_attempt := 7
    pti_status := { oven_idle.pti_status with ignition_lockout := true } }

/-- An oven whose heating state holds the value 4, which is none of the four enumerators;
everything else as after initialisation. -/
def oven_invalid : Oven :=
  { oven_idle with pti_status := { oven_idle.pti_status with state := 4 } }

/-- Start-up configuration with the target set to 212 °C through the setter (half-band 5 °C). -/
def cfg_target_212 : ptx_oven_config_t :=
  ptx_oven_set_temp_target_c 212 pti_oven_config

/-- Reading 5000 mV / 3300 mV, which lies on the calibration line at exactly 207 °C; clock at
0 ms. -/
def tick_207 : TickInput := { millis := 0, vref_mv := 5000, signal_mv := 3300 }

/-- Start-up configuration with the target set to 175 °C through the setter (half-band 5 °C). -/
def cfg_target_175 : ptx_oven_config_t :=
  ptx_oven_set_temp_target_c 175 pti_oven_config

/-- Reading 4960 mV / 2928 mV, which lies on the calibration line at exactly 180 °C; clock at
5100 ms. -/
def tick_180 : TickInput := { millis := 5100, vref_mv := 4960, signal_mv := 2928 }

/-- Configuration with target 176 °C and half-band `2^-20` °C (about 0.00000095), set through
the setters: a positive binary32 number smaller than half the spacing `2^-16` of the binary32
numbers around 176. -/
def cfg_thin_band : ptx_oven_config_t :=
  ptx_oven_set_temp_delta_c (1 / 1048576) (ptx_oven_set_temp_target_c 176 pti_oven_config)

/-- Reading 5000 mV / 2900 mV, which lies on the calibration line at exactly 176 °C; clock at
0 ms. -/
def tick_176_0 : TickInput := { millis := 0, vref_mv := 5000, signal_mv := 2900 }

/-- Same reading as `tick_176_0`, clock at 5100 ms. -/
def tick_176_5100 : TickInput := { millis := 5100, vref_mv := 5000, signal_mv := 2900 }

/-- Same reading as `tick_176_0`, clock at 5200 ms. -/
def tick_176_5200 : TickInput := { millis := 5200, vref_mv := 5000, signal_mv := 2900 }

/-- Configuration with the target set to the binary32 number nearest to 170.7 (the value of the
literal `170.7f`, `11186995 / 65536`) and the half-band set to 2 °C. -/
def cfg_target_170_7 : ptx_oven_config_t :=
  ptx_oven_set_temp_delta_c 2 (ptx_oven_set_temp_target_c (11186995 / 65536) pti_oven_config)

/-- Reading 5169 mV / 2954 mV, about 172.69999 °C on the calibration line; clock at 5100 ms. -/
def tick_172_7 : TickInput := { millis := 5100, vref_mv := 5169, signal_mv := 2954 }

/-! ## Rounding to binary32 -/

theorem round_half_even_spec (r : ℚ) :
    |r - round_half_even r| < 1 / 2 ∨
      (|r - round_half_even r| = 1 / 2 ∧ round_half_even r % 2 = 0) := by
  have h0 : (0 : ℚ) ≤ r - ⌊r⌋ := by linarith [Int.floor_le r]
  have h1 : r - ⌊r⌋ < 1 := by linarith [Int.lt_floor_add_one r]
  unfold round_half_even
  split_ifs with c1 c2 c3
  · left; rw [abs_of_nonneg h0]; exact c1
  · left
    push_cast
    rw [abs_lt]; constructor <;> linarith
  · right
    have hd : r - ⌊r⌋ = 1 / 2 := le_antisymm (not_lt.mp c2) (not_lt.mp c1)
    exact ⟨by rw [abs_of_nonneg h0]; exact hd, c3⟩
  · right
    have hd : r - ⌊r⌋ = 1 / 2 := le_antisymm (not_lt.mp c2) (not_lt.mp c1)
    refine ⟨?_, by omega⟩
    push_cast
    have : r - (⌊r⌋ + 1) = -(1 / 2) := by linarith
    rw [this, abs_neg]; norm_num

theorem round_half_even_unique (r : ℚ) (n : ℤ)
    (h : |r - n| < 1 / 2 ∨ (|r - n| = 1 / 2 ∧ n % 2 = 0)) : round_half_even r = n := by
  rcases le_total (n : ℚ) r with hle | hle
  · have habs : |r - n| = r - n := abs_of_nonneg (by linarith)
    have hfl : ⌊r⌋ = n := by
      rw [Int.floor_eq_iff]
      rcases h with h | ⟨h, _⟩ <;> rw [habs] at h <;> constructor <;> linarith
    unfold round_half_even
    rw [hfl]
    rcases h with h | ⟨h, hev⟩
    · rw [habs] at h; rw [if_pos h]
    · rw [habs] at h
      rw [if_neg (by linarith), if_neg (by linarith), if_pos hev]
  · have habs : |r - n| = n - r := by rw [abs_of_nonpos (by linarith)]; ring
    rcases eq_or_lt_of_le hle with heq | hlt
    · have hfl : ⌊r⌋ = n := by rw [heq]; exact Int.floor_intCast n
      unfold round_half_even
      rw [hfl, if_pos (by rw [heq]; norm_num)]
    · have hfl : ⌊r⌋ = n - 1 := by
        rw [Int.floor_eq_iff]
        push_cast
        rcases h with h | ⟨h, _⟩ <;> rw [habs] at h <;> constructor <;> linarith
      unfold round_half_even
      rw [hfl]
      push_cast
      rcases h with h | ⟨h, hev⟩
      · rw [habs] at h
        rw [if_neg (by linarith), if_pos (by linarith)]; ring
      · rw [habs] at h
        rw [if_neg (by linarith), if_neg (by linarith), if_neg (by omega)]; ring

theorem round_half_even_intCast (n : ℤ) : round_half_even (n : ℚ) = n :=
  round_half_even_unique _ n (Or.inl (by simp))

theorem round_half_even_neg (r : ℚ) : round_half_even (-r) = -round_half_even r := by
  apply round_half_even_unique
  have h := round_half_even_spec r
  have e : |(-r) - ((-round_half_even r : ℤ) : ℚ)| = |r - round_half_even r| := by
    push_cast
    rw [← abs_neg]; congr 1; ring
  rw [e]
  rcases h with h | ⟨h, hev⟩
  · exact Or.inl h
  · exact Or.inr ⟨h, by omega⟩

theorem round_half_even_mono {r1 r2 : ℚ} (h : r1 ≤ r2) :
    round_half_even r1 ≤ round_half_even r2 := by
  by_contra hlt
  push_neg at hlt
  have h1 := round_half_even_spec r1
  have h2 := round_half_even_spec r2
  have hc : (round_half_even r2 : ℚ) + 1 ≤ round_half_even r1 := by exact_mod_cast hlt
  have a1 : |r1 - round_half_even r1| ≤ 1 / 2 := by
    rcases h1 with h1 | ⟨h1, _⟩
    · exact le_of_lt h1
    · exact le_of_eq h1
  have a2 : |r2 - round_half_even r2| ≤ 1 / 2 := by
    rcases h2 with h2 | ⟨h2, _⟩
    · exact le_of_lt h2
    · exact le_of_eq h2
  rw [abs_le] at a1 a2
  have e1 : r1 - round_half_even r1 = -(1 / 2) := by linarith
  have e2 : r2 - round_half_even r2 = 1 / 2 := by linarith
  have e3 : (round_half_even r1 : ℚ) = round_half_even r2 + 1 := by linarith
  have e3i : round_half_even r1 = round_half_even r2 + 1 := by exact_mod_cast e3
  rcases h1 with h1 | ⟨_, hev1⟩
  · rw [e1, abs_neg, abs_of_pos (by norm_num : (0:ℚ) < 1 / 2)] at h1; exact lt_irrefl _ h1
  · rcases h2 with h2 | ⟨_, hev2⟩
    · rw [e2, abs_of_pos (by norm_num : (0:ℚ) < 1 / 2)] at h2; exact lt_irrefl _ h2
    · omega

theorem round_half_even_abs_le (r : ℚ) : |r - round_half_even r| ≤ 1 / 2 := by
  rcases round_half_even_spec r with h | ⟨h, _⟩
  · exact le_of_lt h
  · exact le_of_eq h


theorem binary32_ulp_pos (x : ℚ) : 0 < binary32_ulp x := by
  unfold binary32_ulp
  exact zpow_pos (by norm_num) _

theorem binary32_exponent_neg (x : ℚ) : binary32_exponent (-x) = binary32_exponent x := by
  unfold binary32_exponent
  rw [abs_neg]

theorem binary32_ulp_neg (x : ℚ) : binary32_ulp (-x) = binary32_ulp x := by
  unfold binary32_ulp
  rw [binary32_exponent_neg]

theorem round_binary32_neg (x : ℚ) : round_binary32 (-x) = -round_binary32 x := by
  unfold round_binary32
  rw [binary32_ulp_neg, neg_div, round_half_even_neg]
  push_cast
  ring

theorem round_binary32_zero : round_binary32 0 = 0 := by
  unfold round_binary32
  rw [zero_div]
  have h : round_half_even 0 = 0 := by
    have := round_half_even_intCast 0
    simpa using this
  rw [h]; simp

theorem round_binary32_nonneg {x : ℚ} (hx : 0 ≤ x) : 0 ≤ round_binary32 x := by
  unfold round_binary32
  have h0 : (0 : ℚ) ≤ x / binary32_ulp x := div_nonneg hx (le_of_lt (binary32_ulp_pos x))
  have h1 : round_half_even 0 ≤ round_half_even (x / binary32_ulp x) := round_half_even_mono h0
  have h2 : round_half_even 0 = 0 := by
    have := round_half_even_intCast 0
    simpa using this
  rw [h2] at h1
  have h3 : (0 : ℚ) ≤ (round_half_even (x / binary32_ulp x) : ℚ) := by exact_mod_cast h1
  exact mul_nonneg h3 (le_of_lt (binary32_ulp_pos x))

theorem two_zpow_log_le {x : ℚ} (hx : 0 < x) : (2 : ℚ) ^ Int.log 2 x ≤ x := by
  have h := Int.zpow_log_le_self (b := 2) (by norm_num) hx
  simpa using h

theorem lt_two_zpow_log_succ (x : ℚ) : x < (2 : ℚ) ^ (Int.log 2 x + 1) := by
  have h := Int.lt_zpow_succ_log_self (b := 2) (by norm_num) x
  simpa using h

theorem int_log_two_eq {x : ℚ} (e : ℤ) (h1 : (2 : ℚ) ^ e ≤ x) (h2 : x < (2 : ℚ) ^ (e + 1)) :
    Int.log 2 x = e := by
  have hx : 0 < x := lt_of_lt_of_le (zpow_pos (by norm_num) _) h1
  have a : e ≤ Int.log 2 x := by
    rw [← Int.zpow_le_iff_le_log (by norm_num) hx]
    simpa using h1
  have b : Int.log 2 x < e + 1 := by
    rw [← Int.lt_zpow_iff_log_lt (by norm_num) hx]
    simpa using h2
  omega

theorem binary32_exponent_eq (x : ℚ) (e : ℤ) (h1 : (2 : ℚ) ^ e ≤ |x|)
    (h2 : |x| < (2 : ℚ) ^ (e + 1)) (hmin : -126 ≤ e) : binary32_exponent x = e := by
  unfold binary32_exponent
  rw [int_log_two_eq e h1 h2]
  exact max_eq_left hmin

theorem round_binary32_eq (x : ℚ) (e n : ℤ) (h1 : (2 : ℚ) ^ e ≤ |x|)
    (h2 : |x| < (2 : ℚ) ^ (e + 1)) (hmin : -126 ≤ e)
    (hn : |x / (2 : ℚ) ^ (e - 23) - n| < 1 / 2) :
    round_binary32 x = n * (2 : ℚ) ^ (e - 23) := by
  unfold round_binary32 binary32_ulp
  rw [binary32_exponent_eq x e h1 h2 hmin, round_half_even_unique _ n (Or.inl hn)]

theorem binary32_exponent_mono {x y : ℚ} (hx : 0 < x) (hxy : x ≤ y) :
    binary32_exponent x ≤ binary32_exponent y := by
  unfold binary32_exponent
  have hy : 0 < y := lt_of_lt_of_le hx hxy
  rw [abs_of_pos hx, abs_of_pos hy]
  exact max_le_max (Int.log_mono_right hx hxy) (le_refl _)

theorem two_pow_mul_zpow (k : ℕ) (a b : ℤ) (h : (k : ℤ) + a = b) :
    (((2 : ℤ) ^ k : ℤ) : ℚ) * (2 : ℚ) ^ a = (2 : ℚ) ^ b := by
  rw [Int.cast_pow, Int.cast_ofNat, ← zpow_natCast, ← zpow_add₀ (by norm_num : (2 : ℚ) ≠ 0), h]

theorem round_binary32_mono_pos {x y : ℚ} (hx : 0 < x) (hxy : x ≤ y) :
    round_binary32 x ≤ round_binary32 y := by
  have hy : 0 < y := lt_of_lt_of_le hx hxy
  have he := binary32_exponent_mono hx hxy
  have two_pos : ∀ k : ℤ, (0 : ℚ) < (2 : ℚ) ^ k := fun k => zpow_pos (by norm_num) k
  rcases eq_or_lt_of_le he with heq | hlt
  · unfold round_binary32 binary32_ulp
    rw [heq]
    have hu := two_pos (binary32_exponent y - 23)
    have hdiv : x / (2 : ℚ) ^ (binary32_exponent y - 23) ≤ y / (2 : ℚ) ^ (binary32_exponent y - 23) :=
      div_le_div_of_nonneg_right hxy (le_of_lt hu)
    have hr := round_half_even_mono hdiv
    have hrq : (round_half_even (x / (2 : ℚ) ^ (binary32_exponent y - 23)) : ℚ) ≤
        round_half_even (y / (2 : ℚ) ^ (binary32_exponent y - 23)) := by exact_mod_cast hr
    exact mul_le_mul_of_nonneg_right hrq (le_of_lt hu)
  · -- the two numbers lie in different binades: a power of two separates the results
    have hylog : binary32_exponent y = Int.log 2 y := by
      unfold binary32_exponent at hlt ⊢
      rw [abs_of_pos hy] at hlt ⊢
      apply max_eq_left
      by_contra hc
      push_neg at hc
      rw [max_eq_right (le_of_lt hc)] at hlt
      have : (-126 : ℤ) ≤ max (Int.log 2 |x|) (-126) := le_max_right _ _
      omega
    have hxlog : Int.log 2 x ≤ binary32_exponent x := by
      unfold binary32_exponent
      rw [abs_of_pos hx]
      exact le_max_left _ _
    have hylow : (2 : ℚ) ^ binary32_exponent y ≤ y := by
      rw [hylog]; exact two_zpow_log_le hy
    have hxup : x ≤ (2 : ℚ) ^ binary32_exponent y := by
      have h1 := lt_two_zpow_log_succ x
      have h2 : (2 : ℚ) ^ (Int.log 2 x + 1) ≤ (2 : ℚ) ^ binary32_exponent y :=
        zpow_le_zpow_right₀ (by norm_num) (by omega)
      linarith
    have hmid_y : (2 : ℚ) ^ binary32_exponent y ≤ round_binary32 y := by
      unfold round_binary32 binary32_ulp
      have hu := two_pos (binary32_exponent y - 23)
      have hq : (((2 : ℤ) ^ 23 : ℤ) : ℚ) ≤ y / (2 : ℚ) ^ (binary32_exponent y - 23) := by
        rw [le_div_iff₀ hu]
        have : (((2 : ℤ) ^ 23 : ℤ) : ℚ) * (2 : ℚ) ^ (binary32_exponent y - 23) =
            (2 : ℚ) ^ binary32_exponent y := two_pow_mul_zpow 23 _ _ (by push_cast; ring)
        rw [this]; exact hylow
      have hr := round_half_even_mono hq
      rw [round_half_even_intCast] at hr
      have hrq : (((2 : ℤ) ^ 23 : ℤ) : ℚ) ≤
          round_half_even (y / (2 : ℚ) ^ (binary32_exponent y - 23)) := by exact_mod_cast hr
      have hm := mul_le_mul_of_nonneg_right hrq (le_of_lt hu)
      have : (((2 : ℤ) ^ 23 : ℤ) : ℚ) * (2 : ℚ) ^ (binary32_exponent y - 23) =
          (2 : ℚ) ^ binary32_exponent y := two_pow_mul_zpow 23 _ _ (by push_cast; ring)
      rw [this] at hm
      exact hm
    have hmid_x : round_binary32 x ≤ (2 : ℚ) ^ binary32_exponent y := by
      unfold round_binary32 binary32_ulp
      have hu := two_pos (binary32_exponent x - 23)
      obtain ⟨k, hk⟩ : ∃ k : ℕ, (k : ℤ) = binary32_exponent y - (binary32_exponent x - 23) :=
        ⟨(binary32_exponent y - (binary32_exponent x - 23)).toNat, Int.toNat_of_nonneg (by omega)⟩
      have hpow : (((2 : ℤ) ^ k : ℤ) : ℚ) * (2 : ℚ) ^ (binary32_exponent x - 23) =
          (2 : ℚ) ^ binary32_exponent y := two_pow_mul_zpow k _ _ (by rw [hk]; ring)
      have hq : x / (2 : ℚ) ^ (binary32_exponent x - 23) ≤ (((2 : ℤ) ^ k : ℤ) : ℚ) := by
        rw [div_le_iff₀ hu, hpow]; exact hxup
      have hr := round_half_even_mono hq
      rw [round_half_even_intCast] at hr
      have hrq : (round_half_even (x / (2 : ℚ) ^ (binary32_exponent x - 23)) : ℚ) ≤
          (((2 : ℤ) ^ k : ℤ) : ℚ) := by exact_mod_cast hr
      have hm := mul_le_mul_of_nonneg_right hrq (le_of_lt hu)
      rw [hpow] at hm
      exact hm
    exact le_trans hmid_x hmid_y

theorem round_binary32_mono {x y : ℚ} (hxy : x ≤ y) : round_binary32 x ≤ round_binary32 y := by
  rcases lt_trichotomy 0 x with hx | hx | hx
  · exact round_binary32_mono_pos hx hxy
  · rw [← hx, round_binary32_zero]
    exact round_binary32_nonneg (by linarith)
  · rcases le_or_lt 0 y with hy | hy
    · have h1 : round_binary32 x ≤ 0 := by
        have := round_binary32_nonneg (x := -x) (by linarith)
        rw [round_binary32_neg] at this
        linarith
      exact le_trans h1 (round_binary32_nonneg hy)
    · have := round_binary32_mono_pos (x := -y) (y := -x) (by linarith) (by linarith)
      rw [round_binary32_neg, round_binary32_neg] at this
      linarith

theorem round_binary32_abs_sub_le (x : ℚ) : |round_binary32 x - x| ≤ binary32_ulp x / 2 := by
  unfold round_binary32
  have hu := binary32_ulp_pos x
  have h := round_half_even_abs_le (x / binary32_ulp x)
  have e : (round_half_even (x / binary32_ulp x) : ℚ) * binary32_ulp x - x =
      -((x / binary32_ulp x - round_half_even (x / binary32_ulp x)) * binary32_ulp x) := by
    field_simp
    ring
  rw [e, abs_neg, abs_mul, abs_of_pos hu]
  calc |x / binary32_ulp x - ↑(round_half_even (x / binary32_ulp x))| * binary32_ulp x
      ≤ 1 / 2 * binary32_ulp x := mul_le_mul_of_nonneg_right h (le_of_lt hu)
    _ = binary32_ulp x / 2 := by ring

theorem binary32_ulp_le (x : ℚ) (k : ℤ) (hk : -125 ≤ k) (h0 : x ≠ 0) (hx : |x| < (2 : ℚ) ^ k) :
    binary32_ulp x ≤ (2 : ℚ) ^ (k - 24) := by
  unfold binary32_ulp binary32_exponent
  apply zpow_le_zpow_right₀ (by norm_num)
  have hpos : 0 < |x| := abs_pos.mpr h0
  have hlog : Int.log 2 |x| < k := by
    rw [← Int.lt_zpow_iff_log_lt (by norm_num) hpos]
    simpa using hx
  have : max (Int.log 2 |x|) (-126) ≤ k - 1 := max_le (by omega) (by omega)
  omega

theorem round_binary32_error (x : ℚ) (k : ℤ) (hk : -125 ≤ k) (hx : |x| < (2 : ℚ) ^ k) :
    |round_binary32 x - x| ≤ (2 : ℚ) ^ (k - 25) := by
  rcases eq_or_ne x 0 with h0 | h0
  · rw [h0, round_binary32_zero]
    simp only [sub_zero, abs_zero]
    exact le_of_lt (zpow_pos (by norm_num) _)
  · have h1 := round_binary32_abs_sub_le x
    have h2 := binary32_ulp_le x k hk h0 hx
    have h3 : (2 : ℚ) ^ (k - 24) = 2 * (2 : ℚ) ^ (k - 25) := by
      rw [show k - 24 = 1 + (k - 25) by ring, zpow_add₀ (by norm_num : (2 : ℚ) ≠ 0), zpow_one]
    linarith

/-! ## Binary32 values at the concrete inputs -/

theorem round_binary32_175 : round_binary32 175 = 175 := by
  rw [round_binary32_eq 175 7 11468800 (by norm_num [abs_of_pos, abs_of_neg])
    (by norm_num [abs_of_pos, abs_of_neg]) (by norm_num) (by norm_num [abs_lt])]
  norm_num

theorem round_binary32_185 : round_binary32 185 = 185 := by
  rw [round_binary32_eq 185 7 12124160 (by norm_num [abs_of_pos, abs_of_neg])
    (by norm_num [abs_of_pos, abs_of_neg]) (by norm_num) (by norm_num [abs_lt])]
  norm_num

theorem round_binary32_300 : round_binary32 300 = 300 := by
  rw [round_binary32_eq 300 8 9830400 (by norm_num [abs_of_pos, abs_of_neg])
    (by norm_num [abs_of_pos, abs_of_neg]) (by norm_num) (by norm_num [abs_lt])]
  norm_num

theorem round_binary32_tenth : round_binary32 (1 / 10) = 13421773 / 134217728 := by
  rw [round_binary32_eq (1 / 10) (-4) 13421773 (by norm_num [abs_of_pos, abs_of_neg])
    (by norm_num [abs_of_pos, abs_of_neg]) (by norm_num) (by norm_num [abs_lt])]
  norm_num

theorem round_binary32_nine_tenths : round_binary32 (9 / 10) = 7549747 / 8388608 := by
  rw [round_binary32_eq (9 / 10) (-1) 15099494 (by norm_num [abs_of_pos, abs_of_neg])
    (by norm_num [abs_of_pos, abs_of_neg]) (by norm_num) (by norm_num [abs_lt])]
  norm_num

theorem round_binary32_neg_ten : round_binary32 (-10) = -10 := by
  rw [round_binary32_eq (-10) 3 (-10485760) (by norm_num [abs_of_pos, abs_of_neg])
    (by norm_num [abs_of_pos, abs_of_neg]) (by norm_num) (by norm_num [abs_lt])]
  norm_num

theorem quotient_5000_2694 : round_binary32 (1347 / 2500) = 2259891 / 4194304 := by
  rw [round_binary32_eq (1347 / 2500) (-1) 9039564 (by norm_num [abs_of_pos, abs_of_neg])
    (by norm_num [abs_of_pos, abs_of_neg]) (by norm_num) (by norm_num [abs_lt])]
  norm_num

theorem linear_5000_2694 : round_binary32 (1342470885 / 8388608) = 5244027 / 32768 := by
  rw [round_binary32_eq (1342470885 / 8388608) 7 10488054 (by norm_num [abs_of_pos, abs_of_neg])
    (by norm_num [abs_of_pos, abs_of_neg]) (by norm_num) (by norm_num [abs_lt])]
  norm_num

theorem temperature_5000_2694 : ptx_compute_temperature 5000 2694 = 5244027 / 32768 := by
  unfold ptx_compute_temperature
  norm_num [quotient_5000_2694, linear_5000_2694]

theorem quotient_5000_3029 : round_binary32 (3029 / 5000) = 10163637 / 16777216 := by
  rw [round_binary32_eq (3029 / 5000) (-1) 10163637 (by norm_num [abs_of_pos, abs_of_neg])
    (by norm_num [abs_of_pos, abs_of_neg]) (by norm_num) (by norm_num [abs_lt])]
  norm_num

theorem linear_5000_3029 : round_binary32 (6241040115 / 33554432) = 12189531 / 65536 := by
  rw [round_binary32_eq (6241040115 / 33554432) 7 12189531 (by norm_num [abs_of_pos, abs_of_neg])
    (by norm_num [abs_of_pos, abs_of_neg]) (by norm_num) (by norm_num [abs_lt])]
  norm_num

theorem temperature_5000_3029 : ptx_compute_temperature 5000 3029 = 12189531 / 65536 := by
  unfold ptx_compute_temperature
  norm_num [quotient_5000_3029, linear_5000_3029]


theorem round_binary32_207 : round_binary32 207 = 207 := by
  rw [round_binary32_eq 207 7 13565952 (by norm_num [abs_of_pos, abs_of_neg])
    (by norm_num [abs_of_pos, abs_of_neg]) (by norm_num) (by norm_num [abs_lt])]
  norm_num

theorem round_binary32_217 : round_binary32 217 = 217 := by
  rw [round_binary32_eq 217 7 14221312 (by norm_num [abs_of_pos, abs_of_neg])
    (by norm_num [abs_of_pos, abs_of_neg]) (by norm_num) (by norm_num [abs_lt])]
  norm_num

theorem round_binary32_170 : round_binary32 170 = 170 := by
  rw [round_binary32_eq 170 7 11141120 (by norm_num [abs_of_pos, abs_of_neg])
    (by norm_num [abs_of_pos, abs_of_neg]) (by norm_num) (by norm_num [abs_lt])]
  norm_num

theorem round_binary32_180 : round_binary32 180 = 180 := by
  rw [round_binary32_eq 180 7 11796480 (by norm_num [abs_of_pos, abs_of_neg])
    (by norm_num [abs_of_pos, abs_of_neg]) (by norm_num) (by norm_num [abs_lt])]
  norm_num

theorem round_binary32_176_below : round_binary32 (184549375 / 1048576) = 176 := by
  rw [round_binary32_eq (184549375 / 1048576) 7 11534336 (by norm_num [abs_of_pos, abs_of_neg])
    (by norm_num [abs_of_pos, abs_of_neg]) (by norm_num) (by norm_num [abs_lt])]
  norm_num

theorem round_binary32_176_above : round_binary32 (184549377 / 1048576) = 176 := by
  rw [round_binary32_eq (184549377 / 1048576) 7 11534336 (by norm_num [abs_of_pos, abs_of_neg])
    (by norm_num [abs_of_pos, abs_of_neg]) (by norm_num) (by norm_num [abs_lt])]
  norm_num

theorem round_binary32_168_7 : round_binary32 (11055923 / 65536) = 11055923 / 65536 := by
  rw [round_binary32_eq (11055923 / 65536) 7 11055923 (by norm_num [abs_of_pos, abs_of_neg])
    (by norm_num [abs_of_pos, abs_of_neg]) (by norm_num) (by norm_num [abs_lt])]
  norm_num

theorem round_binary32_172_7 : round_binary32 (11318067 / 65536) = 11318067 / 65536 := by
  rw [round_binary32_eq (11318067 / 65536) 7 11318067 (by norm_num [abs_of_pos, abs_of_neg])
    (by norm_num [abs_of_pos, abs_of_neg]) (by norm_num) (by norm_num [abs_lt])]
  norm_num

theorem quotient_5000_3300 : round_binary32 (33 / 50) = 11072963 / 16777216 := by
  rw [round_binary32_eq (33 / 50) (-1) 11072963 (by norm_num [abs_of_pos, abs_of_neg])
    (by norm_num [abs_of_pos, abs_of_neg]) (by norm_num) (by norm_num [abs_lt])]
  norm_num

theorem linear_5000_3300 : round_binary32 (6945767765 / 33554432) = 13565953 / 65536 := by
  rw [round_binary32_eq (6945767765 / 33554432) 7 13565953 (by norm_num [abs_of_pos, abs_of_neg])
    (by norm_num [abs_of_pos, abs_of_neg]) (by norm_num) (by norm_num [abs_lt])]
  norm_num

theorem temperature_5000_3300 : ptx_compute_temperature 5000 3300 = 13565953 / 65536 := by
  unfold ptx_compute_temperature
  norm_num [quotient_5000_3300, linear_5000_3300]

theorem quotient_4960_2928 : round_binary32 (183 / 310) = 9903969 / 16777216 := by
  rw [round_binary32_eq (183 / 310) (-1) 9903969 (by norm_num [abs_of_pos, abs_of_neg])
    (by norm_num [abs_of_pos, abs_of_neg]) (by norm_num) (by norm_num [abs_lt])]
  norm_num

theorem linear_4960_2928 : round_binary32 (6039797415 / 33554432) = 11796479 / 65536 := by
  rw [round_binary32_eq (6039797415 / 33554432) 7 11796479 (by norm_num [abs_of_pos, abs_of_neg])
    (by norm_num [abs_of_pos, abs_of_neg]) (by norm_num) (by norm_num [abs_lt])]
  norm_num

theorem temperature_4960_2928 : ptx_compute_temperature 4960 2928 = 11796479 / 65536 := by
  unfold ptx_compute_temperature
  norm_num [quotient_4960_2928, linear_4960_2928]

theorem quotient_5000_2900 : round_binary32 (29 / 50) = 9730785 / 16777216 := by
  rw [round_binary32_eq (29 / 50) (-1) 9730785 (by norm_num [abs_of_pos, abs_of_neg])
    (by norm_num [abs_of_pos, abs_of_neg]) (by norm_num) (by norm_num [abs_lt])]
  norm_num

theorem linear_5000_2900 : round_binary32 (5905579815 / 33554432) = 176 := by
  rw [round_binary32_eq (5905579815 / 33554432) 7 11534336 (by norm_num [abs_of_pos, abs_of_neg])
    (by norm_num [abs_of_pos, abs_of_neg]) (by norm_num) (by norm_num [abs_lt])]
  norm_num

theorem temperature_5000_2900 : ptx_compute_temperature 5000 2900 = 176 := by
  unfold ptx_compute_temperature
  norm_num [quotient_5000_2900, linear_5000_2900]

theorem quotient_5169_2954 : round_binary32 (2954 / 5169) = 2396977 / 4194304 := by
  rw [round_binary32_eq (2954 / 5169) (-1) 9587908 (by norm_num [abs_of_pos, abs_of_neg])
    (by norm_num [abs_of_pos, abs_of_neg]) (by norm_num) (by norm_num [abs_lt])]
  norm_num

theorem linear_5169_2954 : round_binary32 (1448712535 / 8388608) = 11318067 / 65536 := by
  rw [round_binary32_eq (1448712535 / 8388608) 7 11318067 (by norm_num [abs_of_pos, abs_of_neg])
    (by norm_num [abs_of_pos, abs_of_neg]) (by norm_num) (by norm_num [abs_lt])]
  norm_num

theorem temperature_5169_2954 : ptx_compute_temperature 5169 2954 = 11318067 / 65536 := by
  unfold ptx_compute_temperature
  norm_num [quotient_5169_2954, linear_5169_2954]

theorem round_binary32_4_5 : round_binary32 (9 / 2) = 9 / 2 := by
  rw [round_binary32_eq (9 / 2) 2 9437184 (by norm_num [abs_of_pos, abs_of_neg])
    (by norm_num [abs_of_pos, abs_of_neg]) (by norm_num) (by norm_num [abs_lt])]
  norm_num

theorem round_binary32_5_5 : round_binary32 (11 / 2) = 11 / 2 := by
  rw [round_binary32_eq (11 / 2) 2 11534336 (by norm_num [abs_of_pos, abs_of_neg])
    (by norm_num [abs_of_pos, abs_of_neg]) (by norm_num) (by norm_num [abs_lt])]
  norm_num

/-! ## The range tests in binary32 -/

theorem abs_lt_ulp_mul (p : ℚ) : |p| < binary32_ulp p * 16777216 := by
  have h1 := lt_two_zpow_log_succ |p|
  have h2 : Int.log 2 |p| ≤ binary32_exponent p := le_max_left _ _
  have h3 : (2 : ℚ) ^ (Int.log 2 |p| + 1) ≤ (2 : ℚ) ^ (binary32_exponent p + 1) :=
    zpow_le_zpow_right₀ (by norm_num) (by omega)
  have h4 : (2 : ℚ) ^ (binary32_exponent p + 1) = binary32_ulp p * 16777216 := by
    unfold binary32_ulp
    rw [show binary32_exponent p + 1 = (binary32_exponent p - 23) + 24 by ring,
      zpow_add₀ (by norm_num : (2 : ℚ) ≠ 0)]
    norm_num
  linarith

theorem binary32_exponent_lt (p : ℚ) (k : ℤ) (hk : -126 < k) (h0 : p ≠ 0)
    (hp : |p| < (2 : ℚ) ^ k) : binary32_exponent p < k := by
  unfold binary32_exponent
  have hpos : 0 < |p| := abs_pos.mpr h0
  have hlog : Int.log 2 |p| < k := by
    rw [← Int.lt_zpow_iff_log_lt (by norm_num) hpos]
    simpa using hp
  exact max_lt hlog hk

theorem round_binary32_of_near_multiple (p t : ℚ) (N : ℤ) (ht : t = N * binary32_ulp p)
    (hclose : |p - t| < binary32_ulp p / 2) : round_binary32 p = t := by
  unfold round_binary32
  have hu := binary32_ulp_pos p
  have hN : round_half_even (p / binary32_ulp p) = N := by
    apply round_half_even_unique
    left
    have e : p / binary32_ulp p - N = (p - t) / binary32_ulp p := by
      rw [ht]
      field_simp
      ring
    rw [e, abs_div, abs_of_pos hu, div_lt_iff₀ hu]
    linarith
  rw [hN, ht]

theorem nat_multiple_of_ulp (p : ℚ) (M : ℕ) (he : binary32_exponent p ≤ 23) :
    ∃ N : ℤ, (M : ℚ) = N * binary32_ulp p := by
  obtain ⟨k, hk⟩ : ∃ k : ℕ, (k : ℤ) = 23 - binary32_exponent p :=
    ⟨(23 - binary32_exponent p).toNat, Int.toNat_of_nonneg (by omega)⟩
  refine ⟨(M : ℤ) * 2 ^ k, ?_⟩
  unfold binary32_ulp
  push_cast
  rw [mul_assoc, ← zpow_natCast, ← zpow_add₀ (by norm_num : (2 : ℚ) ≠ 0), hk]
  simp

theorem round_binary32_tenth_mul (m : ℕ) (hm : m < 6554) :
    round_binary32 (round_binary32 (1 / 10) * ((10 * m : ℕ) : ℚ)) = m := by
  rw [round_binary32_tenth]
  rcases Nat.eq_zero_or_pos m with h0 | hpos
  · subst h0
    simp [round_binary32_zero]
  · have hmq : (0 : ℚ) < (m : ℚ) := by exact_mod_cast hpos
    have hmb : (m : ℚ) < 6554 := by exact_mod_cast hm
    obtain ⟨p, hp⟩ : ∃ p : ℚ, p = 13421773 / 134217728 * ((10 * m : ℕ) : ℚ) := ⟨_, rfl⟩
    have hpv : p = m + m / 67108864 := by
      rw [hp]
      push_cast
      ring
    rw [← hp]
    have hp0 : 0 < p := by rw [hpv]; positivity
    have habs : |p| = p := abs_of_pos hp0
    have he : binary32_exponent p < 13 := by
      apply binary32_exponent_lt p 13 (by norm_num) (ne_of_gt hp0)
      rw [habs, hpv]
      norm_num
      linarith
    obtain ⟨N, hN⟩ := nat_multiple_of_ulp p m (by omega)
    apply round_binary32_of_near_multiple p m N hN
    have hlt := abs_lt_ulp_mul p
    rw [habs] at hlt
    have hd : |p - m| = m / 67108864 := by
      rw [hpv, abs_of_nonneg (by
        have : (0 : ℚ) ≤ m / 67108864 := by positivity
        linarith)]
      ring
    rw [hd]
    have : (0 : ℚ) ≤ m / 67108864 := by positivity
    linarith

theorem round_binary32_nine_tenths_mul (m : ℕ) (hm : m < 6554) :
    round_binary32 (round_binary32 (9 / 10) * ((10 * m : ℕ) : ℚ)) = ((9 * m : ℕ) : ℚ) := by
  rw [round_binary32_nine_tenths]
  rcases Nat.eq_zero_or_pos m with h0 | hpos
  · subst h0
    simp [round_binary32_zero]
  · have hmq : (0 : ℚ) < (m : ℚ) := by exact_mod_cast hpos
    have hmb : (m : ℚ) < 6554 := by exact_mod_cast hm
    obtain ⟨p, hp⟩ : ∃ p : ℚ, p = 7549747 / 8388608 * ((10 * m : ℕ) : ℚ) := ⟨_, rfl⟩
    have hpv : p = 9 * m - m / 4194304 := by
      rw [hp]
      push_cast
      ring
    rw [← hp]
    have hfrac : (m : ℚ) / 4194304 ≤ m := by
      rw [div_le_iff₀ (by norm_num)]
      linarith
    have hp0 : 0 < p := by rw [hpv]; linarith
    have habs : |p| = p := abs_of_pos hp0
    have he : binary32_exponent p < 16 := by
      apply binary32_exponent_lt p 16 (by norm_num) (ne_of_gt hp0)
      rw [habs, hpv]
      norm_num
      have : (0 : ℚ) ≤ m / 4194304 := by positivity
      linarith
    obtain ⟨N, hN⟩ := nat_multiple_of_ulp p (9 * m) (by omega)
    apply round_binary32_of_near_multiple p ((9 * m : ℕ) : ℚ) N hN
    have hlt := abs_lt_ulp_mul p
    rw [habs] at hlt
    have hd : |p - ((9 * m : ℕ) : ℚ)| = m / 4194304 := by
      have : p - ((9 * m : ℕ) : ℚ) = -(m / 4194304) := by
        rw [hpv]
        push_cast
        ring
      rw [this, abs_neg, abs_of_nonneg (by positivity)]
    rw [hd]
    linarith

theorem integer_tests_of_near (w : ℕ) (L : ℚ)
    (hexact : w % 10 = 0 → L = (w : ℚ) / 10)
    (hnear : |L - (w : ℚ) / 10| < 1 / 10) (s : ℕ) :
    ((s : ℚ) < L ↔ (s : ℚ) < (w : ℚ) / 10) ∧ ((s : ℚ) ≤ L ↔ (s : ℚ) ≤ (w : ℚ) / 10) ∧
    (L < (s : ℚ) ↔ (w : ℚ) / 10 < (s : ℚ)) ∧ (L ≤ (s : ℚ) ↔ (w : ℚ) / 10 ≤ (s : ℚ)) := by
  by_cases h0 : w % 10 = 0
  · rw [hexact h0]
    exact ⟨Iff.rfl, Iff.rfl, Iff.rfl, Iff.rfl⟩
  · obtain ⟨q, r, hw, hr1, hr2⟩ : ∃ q r : ℕ, w = 10 * q + r ∧ 1 ≤ r ∧ r ≤ 9 :=
      ⟨w / 10, w % 10, by omega, by omega, by omega⟩
    have hx : (w : ℚ) / 10 = q + r / 10 := by
      rw [hw]
      push_cast
      ring
    have hr1q : (1 : ℚ) ≤ r := by exact_mod_cast hr1
    have hr2q : (r : ℚ) ≤ 9 := by exact_mod_cast hr2
    rw [abs_lt] at hnear
    rw [hx] at hnear ⊢
    have hL1 : (q : ℚ) < L := by linarith
    have hL2 : L < q + 1 := by linarith
    rcases Nat.lt_or_ge q s with hs | hs
    · have hsq : (q : ℚ) + 1 ≤ s := by exact_mod_cast hs
      refine ⟨⟨fun h => ?_, fun h => ?_⟩, ⟨fun h => ?_, fun h => ?_⟩,
        ⟨fun _ => ?_, fun _ => ?_⟩, ⟨fun _ => ?_, fun _ => ?_⟩⟩ <;> linarith
    · have hsq : (s : ℚ) ≤ q := by exact_mod_cast hs
      refine ⟨⟨fun _ => ?_, fun _ => ?_⟩, ⟨fun _ => ?_, fun _ => ?_⟩,
        ⟨fun h => ?_, fun h => ?_⟩, ⟨fun h => ?_, fun h => ?_⟩⟩ <;> linarith


/-- The test of a reading against `0.10f * vref_mv`: for whole-millivolt readings below `2^16`
the binary32 product separates the same signal readings as the exact product. -/
theorem low_test_binary32 (v s : ℕ) (hv : v < 65536) :
    ((s : ℚ) < round_binary32 (round_binary32 (1 / 10) * (v : ℚ)) ↔
      (s : ℚ) < 0.10 * (v : ℚ)) ∧
    ((s : ℚ) ≤ round_binary32 (round_binary32 (1 / 10) * (v : ℚ)) ↔
      (s : ℚ) ≤ 0.10 * (v : ℚ)) := by
  have hx : (0.10 : ℚ) * (v : ℚ) = (v : ℚ) / 10 := by
    norm_num
    ring
  rw [hx]
  have hvq : (v : ℚ) < 65536 := by exact_mod_cast hv
  have hv0 : (0 : ℚ) ≤ (v : ℚ) := Nat.cast_nonneg v
  have hexact : v % 10 = 0 →
      round_binary32 (round_binary32 (1 / 10) * (v : ℚ)) = (v : ℚ) / 10 := by
    intro h0
    obtain ⟨m, hm⟩ : ∃ m : ℕ, v = 10 * m := ⟨v / 10, by omega⟩
    have hm2 : m < 6554 := by omega
    have h := round_binary32_tenth_mul m hm2
    rw [← hm] at h
    rw [h, hm]
    push_cast
    ring
  have hnear : |round_binary32 (round_binary32 (1 / 10) * (v : ℚ)) - (v : ℚ) / 10| < 1 / 10 := by
    rw [round_binary32_tenth]
    have hp : |(13421773 / 134217728 : ℚ) * (v : ℚ)| < (2 : ℚ) ^ (13 : ℤ) := by
      rw [abs_of_nonneg (by positivity)]
      norm_num
      linarith
    have e := round_binary32_error ((13421773 / 134217728 : ℚ) * (v : ℚ)) 13 (by norm_num) hp
    norm_num at e
    rw [abs_le] at e
    rw [abs_lt]
    constructor <;> linarith
  obtain ⟨a, b, _, _⟩ := integer_tests_of_near v _ hexact hnear s
  exact ⟨a, b⟩

/-- The test of a reading against `0.90f * vref_mv`: for whole-millivolt readings below `2^16`
the binary32 product separates the same signal readings as the exact product. -/
theorem high_test_binary32 (v s : ℕ) (hv : v < 65536) :
    (round_binary32 (round_binary32 (9 / 10) * (v : ℚ)) < (s : ℚ) ↔
      0.90 * (v : ℚ) < (s : ℚ)) ∧
    (round_binary32 (round_binary32 (9 / 10) * (v : ℚ)) ≤ (s : ℚ) ↔
      0.90 * (v : ℚ) ≤ (s : ℚ)) := by
  have hx : (0.90 : ℚ) * (v : ℚ) = ((9 * v : ℕ) : ℚ) / 10 := by
    push_cast
    norm_num
    ring
  rw [hx]
  have hvq : (v : ℚ) < 65536 := by exact_mod_cast hv
  have hv0 : (0 : ℚ) ≤ (v : ℚ) := Nat.cast_nonneg v
  have hexact : (9 * v) % 10 = 0 →
      round_binary32 (round_binary32 (9 / 10) * (v : ℚ)) = ((9 * v : ℕ) : ℚ) / 10 := by
    intro h0
    obtain ⟨m, hm⟩ : ∃ m : ℕ, v = 10 * m := ⟨v / 10, by omega⟩
    have hm2 : m < 6554 := by omega
    have h := round_binary32_nine_tenths_mul m hm2
    rw [← hm] at h
    rw [h, hm]
    push_cast
    ring
  have hnear : |round_binary32 (round_binary32 (9 / 10) * (v : ℚ)) - ((9 * v : ℕ) : ℚ) / 10|
      < 1 / 10 := by
    rw [round_binary32_nine_tenths]
    have hp : |(7549747 / 8388608 : ℚ) * (v : ℚ)| < (2 : ℚ) ^ (16 : ℤ) := by
      rw [abs_of_nonneg (by positivity)]
      norm_num
      linarith
    have e := round_binary32_error ((7549747 / 8388608 : ℚ) * (v : ℚ)) 16 (by norm_num) hp
    norm_num at e
    rw [abs_le] at e
    rw [abs_lt]
    push_cast
    constructor <;> linarith
  obtain ⟨_, _, c, d⟩ := integer_tests_of_near (9 * v) _ hexact hnear s
  exact ⟨c, d⟩

/-- The test of `vref_mv / 1000.0f` against a threshold that is a binary32 number and a whole
number of millivolts: for readings below `2^16` the binary32 quotient compares with the
threshold as the exact quotient does. -/
theorem vref_test_binary32 (c : ℚ) (k : ℤ) (hk : c = (k : ℚ) / 1000)
    (hc : round_binary32 c = c) (v : ℕ) (hv : v < 65536) :
    (round_binary32 ((v : ℚ) / 1000) < c ↔ (v : ℚ) / 1000 < c) ∧
    (round_binary32 ((v : ℚ) / 1000) > c ↔ (v : ℚ) / 1000 > c) := by
  have hvq : (v : ℚ) < 65536 := by exact_mod_cast hv
  have hv0 : (0 : ℚ) ≤ (v : ℚ) := Nat.cast_nonneg v
  have hp : |(v : ℚ) / 1000| < (2 : ℚ) ^ (7 : ℤ) := by
    rw [abs_of_nonneg (by positivity)]
    norm_num
    linarith
  have e := round_binary32_error ((v : ℚ) / 1000) 7 (by norm_num) hp
  norm_num at e
  rw [abs_le] at e
  constructor
  · constructor
    · intro h
      by_contra hge
      push_neg at hge
      have := round_binary32_mono hge
      rw [hc] at this
      linarith
    · intro h
      have hlt : (v : ℤ) < k := by
        have : (v : ℚ) < (k : ℚ) := by
          rw [hk] at h
          linarith
        exact_mod_cast this
      have hle : ((v : ℤ) : ℚ) + 1 ≤ (k : ℚ) := by exact_mod_cast hlt
      have hvc : ((v : ℤ) : ℚ) = (v : ℚ) := by push_cast; rfl
      rw [hk]
      linarith
  · constructor
    · intro h
      by_contra hle
      push_neg at hle
      have := round_binary32_mono hle
      rw [hc] at this
      linarith
    · intro h
      have hlt : k < (v : ℤ) := by
        have : (k : ℚ) < (v : ℚ) := by
          rw [hk] at h
          linarith
        exact_mod_cast this
      have hle : (k : ℚ) + 1 ≤ ((v : ℤ) : ℚ) := by exact_mod_cast hlt
      have hvc : ((v : ℤ) : ℚ) = (v : ℚ) := by push_cast; rfl
      rw [hk]
      linarith

/-- The start-up reference range 4.5 V to 5.5 V consists of such thresholds. -/
theorem vref_test_binary32_startup (v : ℕ) (hv : v < 65536) :
    (round_binary32 ((v : ℚ) / 1000) < pti_oven_config.vref_min_v ↔
      (v : ℚ) / 1000 < pti_oven_config.vref_min_v) ∧
    (round_binary32 ((v : ℚ) / 1000) > pti_oven_config.vref_max_v ↔
      (v : ℚ) / 1000 > pti_oven_config.vref_max_v) := by
  have h1 : pti_oven_config.vref_min_v = ((4500 : ℤ) : ℚ) / 1000 := by
    norm_num [pti_oven_config]
  have h2 : pti_oven_config.vref_max_v = ((5500 : ℤ) : ℚ) / 1000 := by
    norm_num [pti_oven_config]
  have r1 : round_binary32 pti_oven_config.vref_min_v = pti_oven_config.vref_min_v := by
    norm_num [pti_oven_config, round_binary32_4_5]
  have r2 : round_binary32 pti_oven_config.vref_max_v = pti_oven_config.vref_max_v := by
    norm_num [pti_oven_config, round_binary32_5_5]
  exact ⟨(vref_test_binary32 _ 4500 h1 r1 v hv).1, (vref_test_binary32 _ 5500 h2 r2 v hv).2⟩

/-! ## Distance between the binary32 temperature and the calibration line -/

theorem temperature_rounding_error (vref_mv signal_mv : ℚ) :
    |ptx_compute_temperature vref_mv signal_mv -
      ptx_compute_temperature_exact vref_mv signal_mv| ≤ 1 / 32768 := by
  unfold ptx_compute_temperature ptx_compute_temperature_exact
  dsimp only
  split_ifs with h1 h2
  · norm_num
  · norm_num
  · have hlo : 0.10 * vref_mv < signal_mv := not_le.mp h1
    have hhi : signal_mv < 0.90 * vref_mv := not_le.mp h2
    have hv : 0 < vref_mv := by linarith
    have hx1 : (1 / 10 : ℚ) ≤ signal_mv / vref_mv := by
      rw [le_div_iff₀ hv]
      linarith
    have hx2 : signal_mv / vref_mv ≤ (9 / 10 : ℚ) := by
      rw [div_le_iff₀ hv]
      linarith
    have hq1 := round_binary32_mono hx1
    rw [round_binary32_tenth] at hq1
    have hq2 := round_binary32_mono hx2
    rw [round_binary32_nine_tenths] at hq2
    have hxabs : |signal_mv / vref_mv| < (2 : ℚ) ^ (0 : ℤ) := by
      rw [abs_lt]
      constructor <;> norm_num <;> linarith
    have e1 := round_binary32_error (signal_mv / vref_mv) 0 (by norm_num) hxabs
    have hyabs : |387.5 * round_binary32 (signal_mv / vref_mv) - 48.75| < (2 : ℚ) ^ (9 : ℤ) := by
      rw [abs_lt]
      constructor <;> norm_num <;> linarith
    have e2 := round_binary32_error (387.5 * round_binary32 (signal_mv / vref_mv) - 48.75) 9
      (by norm_num) hyabs
    norm_num at e1 e2
    rw [abs_le] at e1 e2 ⊢
    constructor <;> linarith

/-! ## Frame lemmas -/

theorem u32_sub_cast (a b : Nat) :
    ((u32_sub a b : Nat) : ℤ) = ((a : ℤ) - (b : ℤ)) % 4294967296 := by
  unfold u32_sub
  omega

theorem u32_sub_self (a : Nat) : u32_sub a a = 0 := by
  unfold u32_sub
  omega

theorem apply_outputs_status (now : Nat) (s : Oven) :
    (ptx_apply_outputs now s).pti_status = s.pti_status := by
  unfold ptx_apply_outputs
  dsimp only
  split_ifs <;> rfl

theorem apply_outputs_attempt (now : Nat) (s : Oven) :
    (ptx_apply_outputs now s).pti_ignition_attempt = s.pti_ignition_attempt := by
  unfold ptx_apply_outputs
  dsimp only
  split_ifs <;> rfl

theorem apply_outputs_start (now : Nat) (s : Oven) :
    (ptx_apply_outputs now s).pti_ignition_start_ms = s.pti_ignition_start_ms := by
  unfold ptx_apply_outputs
  dsimp only
  split_ifs <;> rfl

theorem apply_outputs_gas_pin (now : Nat) (s : Oven) :
    (ptx_apply_outputs now s).port.gas_valve = s.pti_status.gas_on := by
  unfold ptx_apply_outputs
  dsimp only
  split_ifs <;> simp [set_output, ptx_actuator_set_gas, ptx_actuator_set_igniter]

theorem apply_outputs_igniter_pin (now : Nat) (s : Oven) :
    (ptx_apply_outputs now s).port.igniter = s.pti_status.igniter_on := by
  unfold ptx_apply_outputs
  dsimp only
  split_ifs <;> simp [set_output, ptx_actuator_set_gas, ptx_actuator_set_igniter]

theorem run_log_status (cfg : ptx_oven_config_t) (now : Nat) (s : Oven) :
    (ptx_oven_run_log cfg now s).pti_status = s.pti_status := by
  unfold ptx_oven_run_log
  split_ifs <;> rfl

theorem run_log_attempt (cfg : ptx_oven_config_t) (now : Nat) (s : Oven) :
    (ptx_oven_run_log cfg now s).pti_ignition_attempt = s.pti_ignition_attempt := by
  unfold ptx_oven_run_log
  split_ifs <;> rfl

theorem run_log_start (cfg : ptx_oven_config_t) (now : Nat) (s : Oven) :
    (ptx_oven_run_log cfg now s).pti_ignition_start_ms = s.pti_ignition_start_ms := by
  unfold ptx_oven_run_log
  split_ifs <;> rfl

theorem run_log_port (cfg : ptx_oven_config_t) (now : Nat) (s : Oven) :
    (ptx_oven_run_log cfg now s).port = s.port := by
  unfold ptx_oven_run_log
  split_ifs <;> rfl

/-- The update is the heating decision on the sensed state, followed by steps that leave the
status alone, followed by the copy of the attempt counter into the status. -/
theorem update_status (cfg : ptx_oven_config_t) (inp : TickInput) (s : Oven) :
    (ptx_oven_control_update cfg inp s).pti_status =
      { (ptx_update_heating cfg (inp.millis % 4294967296) (sensed cfg inp s)).pti_status with
        ignition_attempt :=
          (ptx_update_heating cfg (inp.millis % 4294967296)
            (sensed cfg inp s)).pti_ignition_attempt } := by
  show ({ (ptx_oven_run_log cfg _ (ptx_apply_outputs _ _)).pti_status with
            ignition_attempt := _ } : ptx_oven_status_t) = _
  rw [run_log_status, apply_outputs_status, run_log_attempt, apply_outputs_attempt]
  rfl

theorem update_attempt (cfg : ptx_oven_config_t) (inp : TickInput) (s : Oven) :
    (ptx_oven_control_update cfg inp s).pti_ignition_attempt =
      (ptx_update_heating cfg (inp.millis % 4294967296)
        (sensed cfg inp s)).pti_ignition_attempt := by
  show (ptx_oven_run_log cfg _ (ptx_apply_outputs _ _)).pti_ignition_attempt = _
  rw [run_log_attempt, apply_outputs_attempt]
  rfl

theorem update_start (cfg : ptx_oven_config_t) (inp : TickInput) (s : Oven) :
    (ptx_oven_control_update cfg inp s).pti_ignition_start_ms =
      (ptx_update_heating cfg (inp.millis % 4294967296)
        (sensed cfg inp s)).pti_ignition_start_ms := by
  show (ptx_oven_run_log cfg _ (ptx_apply_outputs _ _)).pti_ignition_start_ms = _
  rw [run_log_start, apply_outputs_start]
  rfl

theorem update_port_gas (cfg : ptx_oven_config_t) (inp : TickInput) (s : Oven) :
    (ptx_oven_control_update cfg inp s).port.gas_valve =
      (ptx_update_heating cfg (inp.millis % 4294967296)
        (sensed cfg inp s)).pti_status.gas_on := by
  show (ptx_oven_run_log cfg _ (ptx_apply_outputs _ _)).port.gas_valve = _
  rw [run_log_port, apply_outputs_gas_pin]
  rfl

theorem update_port_igniter (cfg : ptx_oven_config_t) (inp : TickInput) (s : Oven) :
    (ptx_oven_control_update cfg inp s).port.igniter =
      (ptx_update_heating cfg (inp.millis % 4294967296)
        (sensed cfg inp s)).pti_status.igniter_on := by
  show (ptx_oven_run_log cfg _ (ptx_apply_outputs _ _)).port.igniter = _
  rw [run_log_port, apply_outputs_igniter_pin]
  rfl

/-! ## The sensed state -/

theorem sensed_door (cfg : ptx_oven_config_t) (inp : TickInput) (s : Oven) :
    (sensed cfg inp s).pti_status.door_open = s.pti_status.door_open := by
  unfold sensed ptx_eval_sensor_faults_with_timing ptx_read_door_open
  dsimp only
  split_ifs <;> rfl

theorem sensed_gas (cfg : ptx_oven_config_t) (inp : TickInput) (s : Oven) :
    (sensed cfg inp s).pti_status.gas_on = s.pti_status.gas_on := by
  unfold sensed ptx_eval_sensor_faults_with_timing ptx_read_door_open
  dsimp only
  split_ifs <;> rfl

theorem sensed_igniter (cfg : ptx_oven_config_t) (inp : TickInput) (s : Oven) :
    (sensed cfg inp s).pti_status.igniter_on = s.pti_status.igniter_on := by
  unfold sensed ptx_eval_sensor_faults_with_timing ptx_read_door_open
  dsimp only
  split_ifs <;> rfl

theorem sensed_state (cfg : ptx_oven_config_t) (inp : TickInput) (s : Oven) :
    (sensed cfg inp s).pti_status.state = s.pti_status.state := by
  unfold sensed ptx_eval_sensor_faults_with_timing ptx_read_door_open
  dsimp only
  split_ifs <;> rfl

theorem sensed_attempt (cfg : ptx_oven_config_t) (inp : TickInput) (s : Oven) :
    (sensed cfg inp s).pti_ignition_attempt = s.pti_ignition_attempt := by
  unfold sensed ptx_eval_sensor_faults_with_timing ptx_read_door_open
  dsimp only
  split_ifs <;> rfl

theorem sensed_start (cfg : ptx_oven_config_t) (inp : TickInput) (s : Oven) :
    (sensed cfg inp s).pti_ignition_start_ms = s.pti_ignition_start_ms := by
  unfold sensed ptx_eval_sensor_faults_with_timing ptx_read_door_open
  dsimp only
  split_ifs <;> rfl

theorem sensed_temperature (cfg : ptx_oven_config_t) (inp : TickInput) (s : Oven) :
    (sensed cfg inp s).pti_status.temperature_c =
      ptx_compute_temperature (inp.vref_mv : ℚ) (inp.signal_mv : ℚ) := by
  unfold sensed
  rfl

theorem sensed_vref_fault (cfg : ptx_oven_config_t) (inp : TickInput) (s : Oven) :
    (sensed cfg inp s).pti_status.vref_fault =
      (decide ((inp.vref_mv : ℚ) / 1000 < cfg.vref_min_v) ||
        decide ((inp.vref_mv : ℚ) / 1000 > cfg.vref_max_v)) := by
  unfold sensed ptx_eval_sensor_faults_with_timing ptx_read_door_open
  dsimp only
  split_ifs <;> rfl

theorem sensed_signal_fault (cfg : ptx_oven_config_t) (inp : TickInput) (s : Oven) :
    (sensed cfg inp s).pti_status.signal_fault =
      (decide ((inp.signal_mv : ℚ) < 0.10 * (inp.vref_mv : ℚ)) ||
        decide ((inp.signal_mv : ℚ) > 0.90 * (inp.vref_mv : ℚ))) := by
  unfold sensed ptx_eval_sensor_faults_with_timing ptx_read_door_open
  dsimp only
  split_ifs <;> rfl

theorem sensed_sensor_fault (cfg : ptx_oven_config_t) (inp : TickInput) (s : Oven) :
    (sensed cfg inp s).pti_status.sensor_fault =
      ((decide ((inp.vref_mv : ℚ) / 1000 < cfg.vref_min_v) ||
          decide ((inp.vref_mv : ℚ) / 1000 > cfg.vref_max_v)) ||
        (decide ((inp.signal_mv : ℚ) < 0.10 * (inp.vref_mv : ℚ)) ||
          decide ((inp.signal_mv : ℚ) > 0.90 * (inp.vref_mv : ℚ)))) := by
  unfold sensed ptx_eval_sensor_faults_with_timing ptx_read_door_open
  dsimp only
  split_ifs with h
  · exact h.symm
  · exact (Bool.eq_false_iff.mpr h).symm


/-! ## Branches of the heating decision -/

theorem heating_override (cfg : ptx_oven_config_t) (now : Nat) (t : Oven)
    (h : t.pti_status.door_open = true ∨ t.pti_status.sensor_fault = true) :
    ptx_update_heating cfg now t =
      { t with pti_status := { t.pti_status with gas_on := false, igniter_on := false,
                                                 state := PTX_HEATING_STATE_IDLE }
               pti_ignition_attempt := 0
               log := if t.pti_status.gas_on || t.pti_status.igniter_on
                 then t.log ++ [LogMsg.shutdown] else t.log } := by
  unfold ptx_update_heating
  have h2 : (t.pti_status.door_open || t.pti_status.sensor_fault) = true := by
    simpa using h
  rw [if_pos h2]

theorem heating_idle_start (cfg : ptx_oven_config_t) (now : Nat) (t : Oven)
    (hd : t.pti_status.door_open = false) (hf : t.pti_status.sensor_fault = false)
    (hs : t.pti_status.state = PTX_HEATING_STATE_IDLE)
    (ht : t.pti_status.temperature_c ≤ round_binary32 (cfg.temp_target_c - cfg.temp_delta_c)) :
    ptx_update_heating cfg now t =
      { t with pti_ignition_attempt := u8_incr t.pti_ignition_attempt
               pti_status := { t.pti_status with gas_on := true, igniter_on := true,
                                                 state := PTX_HEATING_STATE_IGNITING }
               pti_ignition_start_ms := now
               pti_temp_at_ignition_start := t.pti_status.temperature_c
               log := t.log ++ [LogMsg.ignite_start (u8_incr t.pti_ignition_attempt)] } := by
  unfold ptx_update_heating
  simp only [hd, hf, hs, Bool.or_self, Bool.false_eq_true, if_false, if_true, ht]

theorem heating_idle_wait (cfg : ptx_oven_config_t) (now : Nat) (t : Oven)
    (hd : t.pti_status.door_open = false) (hf : t.pti_status.sensor_fault = false)
    (hs : t.pti_status.state = PTX_HEATING_STATE_IDLE)
    (ht : ¬ t.pti_status.temperature_c ≤ round_binary32 (cfg.temp_target_c - cfg.temp_delta_c)) :
    ptx_update_heating cfg now t = t := by
  unfold ptx_update_heating
  simp only [hd, hf, hs, Bool.or_self, Bool.false_eq_true, if_false, if_true, ht]

theorem heating_igniting_done (cfg : ptx_oven_config_t) (now : Nat) (t : Oven)
    (hd : t.pti_status.door_open = false) (hf : t.pti_status.sensor_fault = false)
    (hs : t.pti_status.state = PTX_HEATING_STATE_IGNITING)
    (ht : u32_sub now t.pti_ignition_start_ms ≥ cfg.ignition_duration_ms) :
    ptx_update_heating cfg now t =
      { t with pti_status := { t.pti_status with igniter_on := false,
                                                 state := PTX_HEATING_STATE_HEATING }
               pti_ignition_attempt := 0
               log := t.log ++ [LogMsg.ignition_assumed_success] } := by
  unfold ptx_update_heating
  simp [hd, hf, hs, ht]

theorem heating_igniting_wait (cfg : ptx_oven_config_t) (now : Nat) (t : Oven)
    (hd : t.pti_status.door_open = false) (hf : t.pti_status.sensor_fault = false)
    (hs : t.pti_status.state = PTX_HEATING_STATE_IGNITING)
    (ht : ¬ u32_sub now t.pti_ignition_start_ms ≥ cfg.ignition_duration_ms) :
    ptx_update_heating cfg now t = t := by
  unfold ptx_update_heating
  simp [hd, hf, hs, ht]

theorem heating_heating_off (cfg : ptx_oven_config_t) (now : Nat) (t : Oven)
    (hd : t.pti_status.door_open = false) (hf : t.pti_status.sensor_fault = false)
    (hs : t.pti_status.state = PTX_HEATING_STATE_HEATING)
    (ht : t.pti_status.temperature_c ≥ round_binary32 (cfg.temp_target_c + cfg.temp_delta_c)) :
    ptx_update_heating cfg now t =
      { t with pti_status := { t.pti_status with gas_on := false, igniter_on := false,
                                                 state := PTX_HEATING_STATE_IDLE }
               pti_ignition_attempt := 0
               log := t.log ++ [LogMsg.heat_off] } := by
  unfold ptx_update_heating
  simp [hd, hf, hs, ht]

theorem heating_heating_keep (cfg : ptx_oven_config_t) (now : Nat) (t : Oven)
    (hd : t.pti_status.door_open = false) (hf : t.pti_status.sensor_fault = false)
    (hs : t.pti_status.state = PTX_HEATING_STATE_HEATING)
    (ht : ¬ t.pti_status.temperature_c ≥ round_binary32 (cfg.temp_target_c + cfg.temp_delta_c)) :
    ptx_update_heating cfg now t = t := by
  unfold ptx_update_heating
  simp [hd, hf, hs, ht]

theorem heating_lockout (cfg : ptx_oven_config_t) (now : Nat) (t : Oven)
    (hd : t.pti_status.door_open = false) (hf : t.pti_status.sensor_fault = false)
    (hs : t.pti_status.state = PTX_HEATING_STATE_LOCKOUT) :
    ptx_update_heating cfg now t = t := by
  unfold ptx_update_heating
  simp [hd, hf, hs]

theorem heating_invalid (cfg : ptx_oven_config_t) (now : Nat) (t : Oven)
    (hd : t.pti_status.door_open = false) (hf : t.pti_status.sensor_fault = false)
    (h0 : t.pti_status.state ≠ PTX_HEATING_STATE_IDLE)
    (h1 : t.pti_status.state ≠ PTX_HEATING_STATE_IGNITING)
    (h2 : t.pti_status.state ≠ PTX_HEATING_STATE_HEATING)
    (h3 : t.pti_status.state ≠ PTX_HEATING_STATE_LOCKOUT) :
    ptx_update_heating cfg now t =
      { t with log := t.log ++ [LogMsg.invalid_state t.pti_status.state] } := by
  unfold ptx_update_heating
  simp [hd, hf, h0, h1, h2, h3]

/-- A reading inside both windows leaves the aggregate fault flag of the sensed state clear. -/
theorem sensed_fault_of_valid (cfg : ptx_oven_config_t) (inp : TickInput) (s : Oven)
    (hv1 : cfg.vref_min_v ≤ (inp.vref_mv : ℚ) / 1000)
    (hv2 : (inp.vref_mv : ℚ) / 1000 ≤ cfg.vref_max_v)
    (hs1 : 0.10 * (inp.vref_mv : ℚ) ≤ (inp.signal_mv : ℚ))
    (hs2 : (inp.signal_mv : ℚ) ≤ 0.90 * (inp.vref_mv : ℚ)) :
    (sensed cfg inp s).pti_status.sensor_fault = false := by
  rw [sensed_sensor_fault]
  simp [not_lt.mpr hv1, not_lt.mpr hv2, not_lt.mpr hs1, not_lt.mpr hs2]

theorem heating_vref_fault (cfg : ptx_oven_config_t) (now : Nat) (t : Oven) :
    (ptx_update_heating cfg now t).pti_status.vref_fault = t.pti_status.vref_fault := by
  unfold ptx_update_heating
  dsimp only
  split_ifs <;> rfl

theorem heating_signal_fault (cfg : ptx_oven_config_t) (now : Nat) (t : Oven) :
    (ptx_update_heating cfg now t).pti_status.signal_fault = t.pti_status.signal_fault := by
  unfold ptx_update_heating
  dsimp only
  split_ifs <;> rfl

theorem heating_sensor_fault (cfg : ptx_oven_config_t) (now : Nat) (t : Oven) :
    (ptx_update_heating cfg now t).pti_status.sensor_fault = t.pti_status.sensor_fault := by
  unfold ptx_update_heating
  dsimp only
  split_ifs <;> rfl

theorem heating_temperature (cfg : ptx_oven_config_t) (now : Nat) (t : Oven) :
    (ptx_update_heating cfg now t).pti_status.temperature_c = t.pti_status.temperature_c := by
  unfold ptx_update_heating
  dsimp only
  split_ifs <;> rfl

theorem heating_door (cfg : ptx_oven_config_t) (now : Nat) (t : Oven) :
    (ptx_update_heating cfg now t).pti_status.door_open = t.pti_status.door_open := by
  unfold ptx_update_heating
  dsimp only
  split_ifs <;> rfl

/-! ## The gas command after the heating decision -/

theorem heating_gas (cfg : ptx_oven_config_t) (now : Nat) (t : Oven) :
    (ptx_update_heating cfg now t).pti_status.gas_on =
      if (t.pti_status.door_open || t.pti_status.sensor_fault) = true then false
      else if t.pti_status.state = PTX_HEATING_STATE_IDLE then
        (if t.pti_status.temperature_c ≤ round_binary32 (cfg.temp_target_c - cfg.temp_delta_c) then true
          else t.pti_status.gas_on)
      else if t.pti_status.state = PTX_HEATING_STATE_IGNITING then t.pti_status.gas_on
      else if t.pti_status.state = PTX_HEATING_STATE_HEATING then
        (if t.pti_status.temperature_c ≥ round_binary32 (cfg.temp_target_c + cfg.temp_delta_c) then false
          else t.pti_status.gas_on)
      else t.pti_status.gas_on := by
  unfold ptx_update_heating
  dsimp only
  split_ifs <;> rfl

/-! ## Invariant of runs -/

theorem consistent_init (s0 : Oven) : Consistent (ptx_oven_control_init s0) := by
  unfold Consistent ptx_oven_control_init
  simp

theorem consistent_door (b : Bool) (s : Oven) (h : Consistent s) :
    Consistent (ptx_oven_set_door_state b s) := by
  unfold Consistent ptx_oven_set_door_state
  exact h

theorem consistent_update (cfg : ptx_oven_config_t) (inp : TickInput) (s : Oven)
    (h : Consistent s) : Consistent (ptx_oven_control_update cfg inp s) := by
  unfold Consistent
  rw [update_status, update_attempt]
  refine ⟨rfl, ?_⟩
  dsimp only
  by_cases hov : (sensed cfg inp s).pti_status.door_open = true ∨
      (sensed cfg inp s).pti_status.sensor_fault = true
  · rw [heating_override cfg _ _ hov]
    exact Or.inl ⟨rfl, rfl, rfl, rfl⟩
  · have hd : (sensed cfg inp s).pti_status.door_open = false := by
      cases hdo : (sensed cfg inp s).pti_status.door_open
      · rfl
      · exact absurd (Or.inl hdo) hov
    have hf : (sensed cfg inp s).pti_status.sensor_fault = false := by
      cases hsf : (sensed cfg inp s).pti_status.sensor_fault
      · rfl
      · exact absurd (Or.inr hsf) hov
    rcases h.2 with ⟨hs, hg, hi, ha⟩ | ⟨hs, hg, hi, ha⟩ | ⟨hs, hg, hi, ha⟩
    · have hs2 := (sensed_state cfg inp s).trans hs
      by_cases ht : (sensed cfg inp s).pti_status.temperature_c ≤
          round_binary32 (cfg.temp_target_c - cfg.temp_delta_c)
      · rw [heating_idle_start cfg _ _ hd hf hs2 ht]
        refine Or.inr (Or.inl ⟨rfl, rfl, rfl, ?_⟩)
        show u8_incr (sensed cfg inp s).pti_ignition_attempt = 1
        rw [sensed_attempt, ha]
        rfl
      · rw [heating_idle_wait cfg _ _ hd hf hs2 ht]
        exact Or.inl ⟨hs2, (sensed_gas cfg inp s).trans hg,
          (sensed_igniter cfg inp s).trans hi, (sensed_attempt cfg inp s).trans ha⟩
    · have hs2 := (sensed_state cfg inp s).trans hs
      by_cases ht : u32_sub (inp.millis % 4294967296) (sensed cfg inp s).pti_ignition_start_ms ≥
          cfg.ignition_duration_ms
      · rw [heating_igniting_done cfg _ _ hd hf hs2 ht]
        exact Or.inr (Or.inr ⟨rfl, (sensed_gas cfg inp s).trans hg, rfl, rfl⟩)
      · rw [heating_igniting_wait cfg _ _ hd hf hs2 ht]
        exact Or.inr (Or.inl ⟨hs2, (sensed_gas cfg inp s).trans hg,
          (sensed_igniter cfg inp s).trans hi, (sensed_attempt cfg inp s).trans ha⟩)
    · have hs2 := (sensed_state cfg inp s).trans hs
      by_cases ht : (sensed cfg inp s).pti_status.temperature_c ≥
          round_binary32 (cfg.temp_target_c + cfg.temp_delta_c)
      · rw [heating_heating_off cfg _ _ hd hf hs2 ht]
        exact Or.inl ⟨rfl, rfl, rfl, rfl⟩
      · rw [heating_heating_keep cfg _ _ hd hf hs2 ht]
        exact Or.inr (Or.inr ⟨hs2, (sensed_gas cfg inp s).trans hg,
          (sensed_igniter cfg inp s).trans hi, (sensed_attempt cfg inp s).trans ha⟩)

/-- Every state of a run is consistent. -/
theorem reachable_consistent (s : Oven) (h : Reachable s) : Consistent s := by
  induction h with
  | init s0 => exact consistent_init s0
  | update cfg inp s _ ih => exact consistent_update cfg inp s ih
  | door b s _ ih => exact consistent_door b s ih

/-! ## Facts about the concrete states -/

theorem oven_igniting_facts :
    oven_igniting.pti_status.state = PTX_HEATING_STATE_IGNITING ∧
    oven_igniting.pti_status.door_open = false ∧
    oven_igniting.pti_status.gas_on = true ∧
    oven_igniting.pti_status.igniter_on = true ∧
    oven_igniting.pti_ignition_start_ms = 0 := by
  norm_num [oven_igniting, oven_idle, tick_160, ptx_oven_control_update, ptx_oven_control_init,
    oven_boot, pti_oven_config, ptx_eval_sensor_faults_with_timing, ptx_update_heating,
    ptx_apply_outputs, ptx_oven_run_log, ptx_compute_temperature, quotient_5000_2694,
    linear_5000_2694, quotient_5000_3029, linear_5000_3029, round_binary32_175,
    round_binary32_185, round_binary32_300,
    ptx_sensor_filter_read_and_update, ptx_sensor_filter_update, ptx_read_door_open, u32_sub,
    u8_incr, FAST_BLINK_MS, SLOW_BLINK_MS]

theorem oven_heating_facts :
    oven_heating.pti_status.state = PTX_HEATING_STATE_HEATING ∧
    oven_heating.pti_status.door_open = false ∧
    oven_heating.pti_status.gas_on = true ∧
    oven_heating.pti_status.igniter_on = false := by
  norm_num [oven_heating, oven_igniting, oven_idle, tick_160, tick_160_5000,
    ptx_oven_control_update, ptx_oven_control_init,
    oven_boot, pti_oven_config, ptx_eval_sensor_faults_with_timing, ptx_update_heating,
    ptx_apply_outputs, ptx_oven_run_log, ptx_compute_temperature, quotient_5000_2694,
    linear_5000_2694, quotient_5000_3029, linear_5000_3029, round_binary32_175,
    round_binary32_185, round_binary32_300,
    ptx_sensor_filter_read_and_update, ptx_sensor_filter_update, ptx_read_door_open, u32_sub,
    u8_incr, FAST_BLINK_MS, SLOW_BLINK_MS]

theorem oven_idle_target_212_facts :
    (ptx_oven_control_update cfg_target_212 tick_207 oven_idle).pti_status.sensor_fault
      = false ∧
    (ptx_oven_control_update cfg_target_212 tick_207 oven_idle).pti_status.temperature_c
      = 13565953 / 65536 ∧
    (ptx_oven_control_update cfg_target_212 tick_207 oven_idle).pti_status.gas_on = false ∧
    (ptx_oven_control_update cfg_target_212 tick_207 oven_idle).pti_status.igniter_on
      = false ∧
    (ptx_oven_control_update cfg_target_212 tick_207 oven_idle).pti_status.state
      = PTX_HEATING_STATE_IDLE := by
  norm_num [oven_idle, tick_207, cfg_target_212, ptx_oven_control_update, ptx_oven_control_init,
    oven_boot, pti_oven_config, ptx_eval_sensor_faults_with_timing, ptx_update_heating,
    ptx_apply_outputs, ptx_oven_run_log, ptx_compute_temperature,
    ptx_sensor_filter_read_and_update, ptx_sensor_filter_update, ptx_read_door_open, u32_sub,
    u8_incr, FAST_BLINK_MS, SLOW_BLINK_MS, ptx_oven_set_temp_delta_c, ptx_oven_set_temp_target_c,
    quotient_5000_2694, linear_5000_2694, round_binary32_175, round_binary32_185,
    quotient_5000_3300, linear_5000_3300, round_binary32_207, round_binary32_217]

theorem oven_idle_thin_band_facts :
    (ptx_oven_control_update cfg_thin_band tick_176_0 oven_idle).pti_status.sensor_fault
      = false ∧
    (ptx_oven_control_update cfg_thin_band tick_176_0 oven_idle).pti_status.temperature_c
      = 176 ∧
    (ptx_oven_control_update cfg_thin_band tick_176_0 oven_idle).pti_status.gas_on = true ∧
    (ptx_oven_control_update cfg_thin_band tick_176_0 oven_idle).pti_status.state
      = PTX_HEATING_STATE_IGNITING := by
  norm_num [oven_idle, tick_176_0, cfg_thin_band, ptx_oven_control_update, ptx_oven_control_init,
    oven_boot, pti_oven_config, ptx_eval_sensor_faults_with_timing, ptx_update_heating,
    ptx_apply_outputs, ptx_oven_run_log, ptx_compute_temperature,
    ptx_sensor_filter_read_and_update, ptx_sensor_filter_update, ptx_read_door_open, u32_sub,
    u8_incr, FAST_BLINK_MS, SLOW_BLINK_MS, ptx_oven_set_temp_delta_c, ptx_oven_set_temp_target_c,
    quotient_5000_2694, linear_5000_2694, round_binary32_175, round_binary32_185,
    quotient_5000_2900, linear_5000_2900, round_binary32_176_below, round_binary32_176_above]

theorem oven_heating_target_175_facts :
    (ptx_oven_control_update cfg_target_175 tick_180 oven_heating).pti_status.sensor_fault
      = false ∧
    (ptx_oven_control_update cfg_target_175 tick_180 oven_heating).pti_status.temperature_c
      = 11796479 / 65536 ∧
    (ptx_oven_control_update cfg_target_175 tick_180 oven_heating).pti_status.gas_on = true ∧
    (ptx_oven_control_update cfg_target_175 tick_180 oven_heating).pti_status.state
      = PTX_HEATING_STATE_HEATING := by
  norm_num [oven_heating, oven_igniting, oven_idle, tick_160, tick_160_5000, tick_180,
    cfg_target_175, ptx_oven_control_update, ptx_oven_control_init,
    oven_boot, pti_oven_config, ptx_eval_sensor_faults_with_timing, ptx_update_heating,
    ptx_apply_outputs, ptx_oven_run_log, ptx_compute_temperature,
    ptx_sensor_filter_read_and_update, ptx_sensor_filter_update, ptx_read_door_open, u32_sub,
    u8_incr, FAST_BLINK_MS, SLOW_BLINK_MS, ptx_oven_set_temp_delta_c, ptx_oven_set_temp_target_c,
    quotient_5000_2694, linear_5000_2694, round_binary32_175, round_binary32_185,
    quotient_4960_2928, linear_4960_2928, round_binary32_170, round_binary32_180]

theorem oven_heating_thin_band_facts :
    (ptx_oven_control_update cfg_thin_band tick_176_5100 oven_heating).pti_status.sensor_fault
      = false ∧
    (ptx_oven_control_update cfg_thin_band tick_176_5100 oven_heating).pti_status.door_open
      = false ∧
    (ptx_oven_control_update cfg_thin_band tick_176_5100 oven_heating).pti_status.temperature_c
      = 176 ∧
    (ptx_oven_control_update cfg_thin_band tick_176_5100 oven_heating).pti_status.gas_on
      = false ∧
    (ptx_oven_control_update cfg_thin_band tick_176_5100 oven_heating).pti_status.state
      = PTX_HEATING_STATE_IDLE := by
  norm_num [oven_heating, oven_igniting, oven_idle, tick_160, tick_160_5000, tick_176_5100,
    cfg_thin_band, ptx_oven_control_update, ptx_oven_control_init,
    oven_boot, pti_oven_config, ptx_eval_sensor_faults_with_timing, ptx_update_heating,
    ptx_apply_outputs, ptx_oven_run_log, ptx_compute_temperature,
    ptx_sensor_filter_read_and_update, ptx_sensor_filter_update, ptx_read_door_open, u32_sub,
    u8_incr, FAST_BLINK_MS, SLOW_BLINK_MS, ptx_oven_set_temp_delta_c, ptx_oven_set_temp_target_c,
    quotient_5000_2694, linear_5000_2694, round_binary32_175, round_binary32_185,
    quotient_5000_2900, linear_5000_2900, round_binary32_176_below, round_binary32_176_above]

theorem oven_heating_thin_band_next_facts :
    (ptx_oven_control_update cfg_thin_band tick_176_5200
      (ptx_oven_control_update cfg_thin_band tick_176_5100 oven_heating)).pti_status.sensor_fault
      = false ∧
    (ptx_oven_control_update cfg_thin_band tick_176_5200
      (ptx_oven_control_update cfg_thin_band tick_176_5100 oven_heating)).pti_status.state
      = PTX_HEATING_STATE_IGNITING ∧
    (ptx_oven_control_update cfg_thin_band tick_176_5200
      (ptx_oven_control_update cfg_thin_band tick_176_5100 oven_heating)).pti_status.gas_on
      = true := by
  norm_num [oven_heating, oven_igniting, oven_idle, tick_160, tick_160_5000, tick_176_5100,
    tick_176_5200, cfg_thin_band, ptx_oven_control_update, ptx_oven_control_init,
    oven_boot, pti_oven_config, ptx_eval_sensor_faults_with_timing, ptx_update_heating,
    ptx_apply_outputs, ptx_oven_run_log, ptx_compute_temperature,
    ptx_sensor_filter_read_and_update, ptx_sensor_filter_update, ptx_read_door_open, u32_sub,
    u8_incr, FAST_BLINK_MS, SLOW_BLINK_MS, ptx_oven_set_temp_delta_c, ptx_oven_set_temp_target_c,
    quotient_5000_2694, linear_5000_2694, round_binary32_175, round_binary32_185,
    quotient_5000_2900, linear_5000_2900, round_binary32_176_below, round_binary32_176_above]

theorem oven_heating_target_170_7_facts :
    (ptx_oven_control_update cfg_target_170_7 tick_172_7 oven_heating).pti_status.sensor_fault
      = false ∧
    (ptx_oven_control_update cfg_target_170_7 tick_172_7 oven_heating).pti_status.door_open
      = false ∧
    (ptx_oven_control_update cfg_target_170_7 tick_172_7 oven_heating).pti_status.temperature_c
      = 11318067 / 65536 ∧
    (ptx_oven_control_update cfg_target_170_7 tick_172_7 oven_heating).pti_status.gas_on
      = false ∧
    (ptx_oven_control_update cfg_target_170_7 tick_172_7 oven_heating).pti_status.state
      = PTX_HEATING_STATE_IDLE := by
  norm_num [oven_heating, oven_igniting, oven_idle, tick_160, tick_160_5000, tick_172_7,
    cfg_target_170_7, ptx_oven_control_update, ptx_oven_control_init,
    oven_boot, pti_oven_config, ptx_eval_sensor_faults_with_timing, ptx_update_heating,
    ptx_apply_outputs, ptx_oven_run_log, ptx_compute_temperature,
    ptx_sensor_filter_read_and_update, ptx_sensor_filter_update, ptx_read_door_open, u32_sub,
    u8_incr, FAST_BLINK_MS, SLOW_BLINK_MS, ptx_oven_set_temp_delta_c, ptx_oven_set_temp_target_c,
    quotient_5000_2694, linear_5000_2694, round_binary32_175, round_binary32_185,
    quotient_5169_2954, linear_5169_2954, round_binary32_168_7, round_binary32_172_7]

/-! ## Claims -/

/-- Claim C1 (door override). For every controller state, configuration, clock value and sensor
reading: if `door_open` is set when `ptx_oven_control_update` runs, then after the update the gas
and igniter commands are off, the state is Idle and the ignition attempt counter is 0, both the
internal one and the copy in the status. -/
theorem C1_door_override (cfg : ptx_oven_config_t) (inp : TickInput) (s : Oven)
    (hdoor : s.pti_status.door_open = true) :
    (ptx_oven_control_update cfg inp s).pti_status.gas_on = false ∧
    (ptx_oven_control_update cfg inp s).pti_status.igniter_on = false ∧
    (ptx_oven_control_update cfg inp s).pti_status.state = PTX_HEATING_STATE_IDLE ∧
    (ptx_oven_control_update cfg inp s).pti_ignition_attempt = 0 ∧
    (ptx_oven_control_update cfg inp s).pti_status.ignition_attempt = 0 := by
  have hov := heating_override cfg (inp.millis % 4294967296) (sensed cfg inp s)
    (Or.inl ((sensed_door cfg inp s).trans hdoor))
  rw [update_status, update_attempt, hov]
  exact ⟨rfl, rfl, rfl, rfl, rfl⟩

/-- Claim C4 fails as stated. With `temp_target_c = 212` and `temp_delta_c = 5` an Idle oven
with the door closed gets the valid reading 5000 mV / 3300 mV: the calibration line gives exactly
207, which is `temp_target_c - temp_delta_c`, but the temperature the code computes in single
precision is `207 + 2^-16`, and the tick leaves gas and igniter off and the state Idle. With
`temp_target_c = 176` and `temp_delta_c = 2^-20` the reading 5000 mV / 2900 mV gives the
computed temperature 176, which is above `temp_target_c - temp_delta_c`, and the tick starts
ignition all the same, because the difference the code computes in single precision is 176. -/
theorem C4_ignition_start_counterexample :
    oven_idle.pti_status.state = PTX_HEATING_STATE_IDLE ∧
    oven_idle.pti_status.door_open = false ∧
    (ptx_oven_control_update cfg_target_212 tick_207 oven_idle).pti_status.sensor_fault
      = false ∧
    ptx_compute_temperature_exact (tick_207.vref_mv : ℚ) (tick_207.signal_mv : ℚ) ≤
      cfg_target_212.temp_target_c - cfg_target_212.temp_delta_c ∧
    (ptx_oven_control_update cfg_target_212 tick_207 oven_idle).pti_status.gas_on = false ∧
    (ptx_oven_control_update cfg_target_212 tick_207 oven_idle).pti_status.igniter_on
      = false ∧
    (ptx_oven_control_update cfg_target_212 tick_207 oven_idle).pti_status.state
      = PTX_HEATING_STATE_IDLE ∧
    (ptx_oven_control_update cfg_thin_band tick_176_0 oven_idle).pti_status.sensor_fault
      = false ∧
    cfg_thin_band.temp_target_c - cfg_thin_band.temp_delta_c <
      ptx_compute_temperature (tick_176_0.vref_mv : ℚ) (tick_176_0.signal_mv : ℚ) ∧
    (ptx_oven_control_update cfg_thin_band tick_176_0 oven_idle).pti_status.gas_on = true ∧
    (ptx_oven_control_update cfg_thin_band tick_176_0 oven_idle).pti_status.state
      = PTX_HEATING_STATE_IGNITING := by
  obtain ⟨a1, _, a3, a4, a5⟩ := oven_idle_target_212_facts
  obtain ⟨b1, _, b3, b4⟩ := oven_idle_thin_band_facts
  refine ⟨rfl, rfl, a1, ?_, a3, a4, a5, b1, ?_, b3, b4⟩
  · norm_num [tick_207, cfg_target_212, ptx_oven_set_temp_target_c, pti_oven_config,
      ptx_compute_temperature_exact]
  · norm_num [tick_176_0, cfg_thin_band, ptx_oven_set_temp_target_c, ptx_oven_set_temp_delta_c,
      pti_oven_config, temperature_5000_2900]

/-- Claim C4 as amended (ignition start, compared in single precision). For every tick that
begins in state Idle with the door closed and a valid reading: if the temperature the code
computes from the reading (the binary32 number returned by `ptx_compute_temperature`) is at most
the threshold the code computes (`temp_target_c - temp_delta_c` rounded to binary32), then after
the tick gas and igniter are commanded on, the state is Igniting, the ignition-start time is the
tick's clock value (the `uint32_t` value of `millis()`), and the attempt counter has been
incremented: as a `uint8_t` it is the old value plus one modulo 256, which is exactly one more
than before in every run of the controller (and the status copy agrees with it). If that
temperature is above that threshold, gas, igniter, state and attempt counter are unchanged, and
the status copy shows that unchanged counter. -/
theorem C4_ignition_start_amended (cfg : ptx_oven_config_t) (inp : TickInput) (s : Oven)
    (hst : s.pti_status.state = PTX_HEATING_STATE_IDLE)
    (hdoor : s.pti_status.door_open = false)
    (hv1 : cfg.vref_min_v ≤ (inp.vref_mv : ℚ) / 1000)
    (hv2 : (inp.vref_mv : ℚ) / 1000 ≤ cfg.vref_max_v)
    (hs1 : 0.10 * (inp.vref_mv : ℚ) ≤ (inp.signal_mv : ℚ))
    (hs2 : (inp.signal_mv : ℚ) ≤ 0.90 * (inp.vref_mv : ℚ)) :
    (ptx_compute_temperature (inp.vref_mv : ℚ) (inp.signal_mv : ℚ) ≤
        round_binary32 (cfg.temp_target_c - cfg.temp_delta_c) →
      (ptx_oven_control_update cfg inp s).pti_status.gas_on = true ∧
      (ptx_oven_control_update cfg inp s).pti_status.igniter_on = true ∧
      (ptx_oven_control_update cfg inp s).pti_status.state = PTX_HEATING_STATE_IGNITING ∧
      (ptx_oven_control_update cfg inp s).pti_ignition_attempt =
        (s.pti_ignition_attempt + 1) % 256 ∧
      (Reachable s → (ptx_oven_control_update cfg inp s).pti_ignition_attempt =
        s.pti_ignition_attempt + 1) ∧
      (ptx_oven_control_update cfg inp s).pti_status.ignition_attempt =
        (ptx_oven_control_update cfg inp s).pti_ignition_attempt ∧
      (ptx_oven_control_update cfg inp s).pti_ignition_start_ms = inp.millis % 4294967296) ∧
    (¬ ptx_compute_temperature (inp.vref_mv : ℚ) (inp.signal_mv : ℚ) ≤
        round_binary32 (cfg.temp_target_c - cfg.temp_delta_c) →
      (ptx_oven_control_update cfg inp s).pti_status.gas_on = s.pti_status.gas_on ∧
      (ptx_oven_control_update cfg inp s).pti_status.igniter_on = s.pti_status.igniter_on ∧
      (ptx_oven_control_update cfg inp s).pti_status.state = s.pti_status.state ∧
      (ptx_oven_control_update cfg inp s).pti_ignition_attempt = s.pti_ignition_attempt ∧
      (ptx_oven_control_update cfg inp s).pti_status.ignition_attempt =
        s.pti_ignition_attempt) := by
  have hd := (sensed_door cfg inp s).trans hdoor
  have hf := sensed_fault_of_valid cfg inp s hv1 hv2 hs1 hs2
  have hs := (sensed_state cfg inp s).trans hst
  constructor
  · intro ht
    have ht2 : (sensed cfg inp s).pti_status.temperature_c ≤
        round_binary32 (cfg.temp_target_c - cfg.temp_delta_c) := by
      rw [sensed_temperature]
      exact ht
    have hstep := heating_idle_start cfg (inp.millis % 4294967296) _ hd hf hs ht2
    have hatt : (ptx_oven_control_update cfg inp s).pti_ignition_attempt =
        (s.pti_ignition_attempt + 1) % 256 := by
      rw [update_attempt, hstep]
      show u8_incr (sensed cfg inp s).pti_ignition_attempt = _
      rw [sensed_attempt]
      rfl
    refine ⟨?_, ?_, ?_, hatt, ?_, ?_, ?_⟩
    · rw [update_status, hstep]
    · rw [update_status, hstep]
    · rw [update_status, hstep]
    · intro hr
      rcases (reachable_consistent s hr).2 with ⟨_, _, _, ha⟩ | ⟨h1, _, _, _⟩ | ⟨h2, _, _, _⟩
      · rw [hatt, ha]
      · rw [hst] at h1
        exact absurd h1 (by decide)
      · rw [hst] at h2
        exact absurd h2 (by decide)
    · rw [update_status, update_attempt]
    · rw [update_start, hstep]
  · intro ht
    have ht2 : ¬ (sensed cfg inp s).pti_status.temperature_c ≤
        round_binary32 (cfg.temp_target_c - cfg.temp_delta_c) := by
      rw [sensed_temperature]
      exact ht
    have hstep := heating_idle_wait cfg (inp.millis % 4294967296) _ hd hf hs ht2
    rw [update_status, update_attempt, hstep]
    exact ⟨sensed_gas cfg inp s, sensed_igniter cfg inp s, sensed_state cfg inp s,
      sensed_attempt cfg inp s, sensed_attempt cfg inp s⟩

/-- Claim C5 (ignition timing). For every tick that begins in state Igniting with the door closed
and a valid reading, with elapsed time `(now - ignition_start) mod 2^32`: while the elapsed time
is below `ignition_duration_ms`, gas, igniter and state are unchanged; once it is at least
`ignition_duration_ms`, the igniter is commanded off, the state is Heating, the attempt counter is
0 and the gas command is unchanged, which in every run of the controller means still on. -/
theorem C5_ignition_timing (cfg : ptx_oven_config_t) (inp : TickInput) (s : Oven)
    (hst : s.pti_status.state = PTX_HEATING_STATE_IGNITING)
    (hdoor : s.pti_status.door_open = false)
    (hv1 : cfg.vref_min_v ≤ (inp.vref_mv : ℚ) / 1000)
    (hv2 : (inp.vref_mv : ℚ) / 1000 ≤ cfg.vref_max_v)
    (hs1 : 0.10 * (inp.vref_mv : ℚ) ≤ (inp.signal_mv : ℚ))
    (hs2 : (inp.signal_mv : ℚ) ≤ 0.90 * (inp.vref_mv : ℚ)) :
    (((inp.millis : ℤ) - (s.pti_ignition_start_ms : ℤ)) % 4294967296 <
        (cfg.ignition_duration_ms : ℤ) →
      (ptx_oven_control_update cfg inp s).pti_status.gas_on = s.pti_status.gas_on ∧
      (ptx_oven_control_update cfg inp s).pti_status.igniter_on = s.pti_status.igniter_on ∧
      (ptx_oven_control_update cfg inp s).pti_status.state = s.pti_status.state) ∧
    (((inp.millis : ℤ) - (s.pti_ignition_start_ms : ℤ)) % 4294967296 ≥
        (cfg.ignition_duration_ms : ℤ) →
      (ptx_oven_control_update cfg inp s).pti_status.igniter_on = false ∧
      (ptx_oven_control_update cfg inp s).pti_status.state = PTX_HEATING_STATE_HEATING ∧
      (ptx_oven_control_update cfg inp s).pti_ignition_attempt = 0 ∧
      (ptx_oven_control_update cfg inp s).pti_status.ignition_attempt = 0 ∧
      (ptx_oven_control_update cfg inp s).pti_status.gas_on = s.pti_status.gas_on ∧
      (Reachable s → (ptx_oven_control_update cfg inp s).pti_status.gas_on = true)) := by
  have hd := (sensed_door cfg inp s).trans hdoor
  have hf := sensed_fault_of_valid cfg inp s hv1 hv2 hs1 hs2
  have hs := (sensed_state cfg inp s).trans hst
  have hel : ((u32_sub (inp.millis % 4294967296) (sensed cfg inp s).pti_ignition_start_ms : ℕ) : ℤ)
      = ((inp.millis : ℤ) - (s.pti_ignition_start_ms : ℤ)) % 4294967296 := by
    rw [sensed_start, u32_sub_cast]
    omega
  constructor
  · intro ht
    have ht2 : ¬ u32_sub (inp.millis % 4294967296) (sensed cfg inp s).pti_ignition_start_ms ≥
        cfg.ignition_duration_ms := by
      intro hge
      have : (cfg.ignition_duration_ms : ℤ) ≤
          ((u32_sub (inp.millis % 4294967296) (sensed cfg inp s).pti_ignition_start_ms : ℕ) : ℤ) := by
        exact_mod_cast hge
      rw [hel] at this
      exact absurd ht (not_lt.mpr this)
    have hstep := heating_igniting_wait cfg (inp.millis % 4294967296) _ hd hf hs ht2
    rw [update_status, hstep]
    exact ⟨sensed_gas cfg inp s, sensed_igniter cfg inp s, sensed_state cfg inp s⟩
  · intro ht
    have ht2 : u32_sub (inp.millis % 4294967296) (sensed cfg inp s).pti_ignition_start_ms ≥
        cfg.ignition_duration_ms := by
      rw [← hel] at ht
      exact_mod_cast ht
    have hstep := heating_igniting_done cfg (inp.millis % 4294967296) _ hd hf hs ht2
    have hgas : (ptx_oven_control_update cfg inp s).pti_status.gas_on = s.pti_status.gas_on := by
      rw [update_status, hstep]
      exact sensed_gas cfg inp s
    refine ⟨?_, ?_, ?_, ?_, hgas, ?_⟩
    · rw [update_status, hstep]
    · rw [update_status, hstep]
    · rw [update_attempt, hstep]
    · rw [update_status, hstep]
    · intro hr
      rw [hgas]
      rcases (reachable_consistent s hr).2 with ⟨h0, _, _, _⟩ | ⟨_, hg, _, _⟩ | ⟨h2, _, _, _⟩
      · rw [hst] at h0
        exact absurd h0 (by decide)
      · exact hg
      · rw [hst] at h2
        exact absurd h2 (by decide)

/-- Claim C6 fails as stated. With `temp_target_c = 175` and `temp_delta_c = 5` a Heating oven
with the door closed gets the valid reading 4960 mV / 2928 mV: the calibration line gives exactly
180, which is `temp_target_c + temp_delta_c`, but the temperature the code computes in single
precision is `180 - 2^-16`, and the tick leaves the gas on and the state Heating. With
`temp_target_c = 176` and `temp_delta_c = 2^-20` the reading 5000 mV / 2900 mV gives the
computed temperature 176, which is below `temp_target_c + temp_delta_c`, and the tick turns the
gas off all the same, because the sum the code computes in single precision is 176. -/
theorem C6_heating_cutoff_counterexample :
    oven_heating.pti_status.state = PTX_HEATING_STATE_HEATING ∧
    oven_heating.pti_status.door_open = false ∧
    oven_heating.pti_status.gas_on = true ∧
    (ptx_oven_control_update cfg_target_175 tick_180 oven_heating).pti_status.sensor_fault
      = false ∧
    ptx_compute_temperature_exact (tick_180.vref_mv : ℚ) (tick_180.signal_mv : ℚ) ≥
      cfg_target_175.temp_target_c + cfg_target_175.temp_delta_c ∧
    (ptx_oven_control_update cfg_target_175 tick_180 oven_heating).pti_status.gas_on = true ∧
    (ptx_oven_control_update cfg_target_175 tick_180 oven_heating).pti_status.state
      = PTX_HEATING_STATE_HEATING ∧
    (ptx_oven_control_update cfg_thin_band tick_176_5100 oven_heating).pti_status.sensor_fault
      = false ∧
    ptx_compute_temperature (tick_176_5100.vref_mv : ℚ) (tick_176_5100.signal_mv : ℚ) <
      cfg_thin_band.temp_target_c + cfg_thin_band.temp_delta_c ∧
    (ptx_oven_control_update cfg_thin_band tick_176_5100 oven_heating).pti_status.gas_on
      = false ∧
    (ptx_oven_control_update cfg_thin_band tick_176_5100 oven_heating).pti_status.state
      = PTX_HEATING_STATE_IDLE := by
  obtain ⟨fst, fdoor, fgas, _⟩ := oven_heating_facts
  obtain ⟨a1, _, a3, a4⟩ := oven_heating_target_175_facts
  obtain ⟨b1, _, _, b4, b5⟩ := oven_heating_thin_band_facts
  refine ⟨fst, fdoor, fgas, a1, ?_, a3, a4, b1, ?_, b4, b5⟩
  · norm_num [tick_180, cfg_target_175, ptx_oven_set_temp_target_c, pti_oven_config,
      ptx_compute_temperature_exact]
  · norm_num [tick_176_5100, cfg_thin_band, ptx_oven_set_temp_target_c,
      ptx_oven_set_temp_delta_c, pti_oven_config, temperature_5000_2900]

/-- Claim C6 as amended (heating cut-off, compared in single precision). For every tick that
begins in state Heating with the door closed and a valid reading: if the temperature the code
computes from the reading (the binary32 number returned by `ptx_compute_temperature`) is at least
the threshold the code computes (`temp_target_c + temp_delta_c` rounded to binary32), then after
the tick gas and igniter are commanded off, the state is Idle and the attempt counter is 0;
otherwise gas, igniter and state are unchanged. -/
theorem C6_heating_cutoff_amended (cfg : ptx_oven_config_t) (inp : TickInput) (s : Oven)
    (hst : s.pti_status.state = PTX_HEATING_STATE_HEATING)
    (hdoor : s.pti_status.door_open = false)
    (hv1 : cfg.vref_min_v ≤ (inp.vref_mv : ℚ) / 1000)
    (hv2 : (inp.vref_mv : ℚ) / 1000 ≤ cfg.vref_max_v)
    (hs1 : 0.10 * (inp.vref_mv : ℚ) ≤ (inp.signal_mv : ℚ))
    (hs2 : (inp.signal_mv : ℚ) ≤ 0.90 * (inp.vref_mv : ℚ)) :
    (ptx_compute_temperature (inp.vref_mv : ℚ) (inp.signal_mv : ℚ) ≥
        round_binary32 (cfg.temp_target_c + cfg.temp_delta_c) →
      (ptx_oven_control_update cfg inp s).pti_status.gas_on = false ∧
      (ptx_oven_control_update cfg inp s).pti_status.igniter_on = false ∧
      (ptx_oven_control_update cfg inp s).pti_status.state = PTX_HEATING_STATE_IDLE ∧
      (ptx_oven_control_update cfg inp s).pti_ignition_attempt = 0 ∧
      (ptx_oven_control_update cfg inp s).pti_status.ignition_attempt = 0) ∧
    (¬ ptx_compute_temperature (inp.vref_mv : ℚ) (inp.signal_mv : ℚ) ≥
        round_binary32 (cfg.temp_target_c + cfg.temp_delta_c) →
      (ptx_oven_control_update cfg inp s).pti_status.gas_on = s.pti_status.gas_on ∧
      (ptx_oven_control_update cfg inp s).pti_status.igniter_on = s.pti_status.igniter_on ∧
      (ptx_oven_control_update cfg inp s).pti_status.state = s.pti_status.state) := by
  have hd := (sensed_door cfg inp s).trans hdoor
  have hf := sensed_fault_of_valid cfg inp s hv1 hv2 hs1 hs2
  have hs := (sensed_state cfg inp s).trans hst
  constructor
  · intro ht
    have ht2 : (sensed cfg inp s).pti_status.temperature_c ≥
        round_binary32 (cfg.temp_target_c + cfg.temp_delta_c) := by
      rw [sensed_temperature]
      exact ht
    have hstep := heating_heating_off cfg (inp.millis % 4294967296) _ hd hf hs ht2
    rw [update_status, update_attempt, hstep]
    exact ⟨rfl, rfl, rfl, rfl, rfl⟩
  · intro ht
    have ht2 : ¬ (sensed cfg inp s).pti_status.temperature_c ≥
        round_binary32 (cfg.temp_target_c + cfg.temp_delta_c) := by
      rw [sensed_temperature]
      exact ht
    have hstep := heating_heating_keep cfg (inp.millis % 4294967296) _ hd hf hs ht2
    rw [update_status, hstep]
    exact ⟨sensed_gas cfg inp s, sensed_igniter cfg inp s, sensed_state cfg inp s⟩


/-- Claim C7 fails as stated. With `temp_target_c` the binary32 value of 170.7 and
`temp_delta_c = 2`, a Heating oven with the door closed gets the valid reading
5169 mV / 2954 mV: the gas goes from on to off with no safety override, although the calibration
line gives a temperature below `temp_target_c + temp_delta_c`; the temperature the code computes
in single precision equals that threshold. With `temp_target_c = 176` and
`temp_delta_c = 2^-20` the reading 5000 mV / 2900 mV takes the gas of an Idle oven from off to on
although the computed temperature 176 is above `temp_target_c - temp_delta_c`, and takes the gas
of a Heating oven from on to off although it is below `temp_target_c + temp_delta_c`. -/
theorem C7_hysteresis_only_when_counterexample :
    oven_heating.pti_status.state = PTX_HEATING_STATE_HEATING ∧
    oven_heating.pti_status.door_open = false ∧
    oven_heating.pti_status.gas_on = true ∧
    (ptx_oven_control_update cfg_target_170_7 tick_172_7 oven_heating).pti_status.gas_on
      = false ∧
    (ptx_oven_control_update cfg_target_170_7 tick_172_7 oven_heating).pti_status.sensor_fault
      = false ∧
    ptx_compute_temperature_exact (tick_172_7.vref_mv : ℚ) (tick_172_7.signal_mv : ℚ) <
      cfg_target_170_7.temp_target_c + cfg_target_170_7.temp_delta_c ∧
    ptx_compute_temperature (tick_172_7.vref_mv : ℚ) (tick_172_7.signal_mv : ℚ) =
      cfg_target_170_7.temp_target_c + cfg_target_170_7.temp_delta_c ∧
    oven_idle.pti_status.gas_on = false ∧
    (ptx_oven_control_update cfg_thin_band tick_176_0 oven_idle).pti_status.gas_on = true ∧
    cfg_thin_band.temp_target_c - cfg_thin_band.temp_delta_c <
      ptx_compute_temperature (tick_176_0.vref_mv : ℚ) (tick_176_0.signal_mv : ℚ) ∧
    (ptx_oven_control_update cfg_thin_band tick_176_5100 oven_heating).pti_status.gas_on
      = false ∧
    (ptx_oven_control_update cfg_thin_band tick_176_5100 oven_heating).pti_status.sensor_fault
      = false ∧
    ptx_compute_temperature (tick_176_5100.vref_mv : ℚ) (tick_176_5100.signal_mv : ℚ) <
      cfg_thin_band.temp_target_c + cfg_thin_band.temp_delta_c := by
  obtain ⟨fst, fdoor, fgas, _⟩ := oven_heating_facts
  obtain ⟨a1, _, _, a4, _⟩ := oven_heating_target_170_7_facts
  obtain ⟨_, _, b3, _⟩ := oven_idle_thin_band_facts
  obtain ⟨c1, _, _, c4, _⟩ := oven_heating_thin_band_facts
  refine ⟨fst, fdoor, fgas, a4, a1, ?_, ?_, rfl, b3, ?_, c4, c1, ?_⟩
  · norm_num [tick_172_7, cfg_target_170_7, ptx_oven_set_temp_target_c,
      ptx_oven_set_temp_delta_c, pti_oven_config, ptx_compute_temperature_exact]
  · norm_num [tick_172_7, cfg_target_170_7, ptx_oven_set_temp_target_c,
      ptx_oven_set_temp_delta_c, pti_oven_config, temperature_5169_2954]
  · norm_num [tick_176_0, cfg_thin_band, ptx_oven_set_temp_target_c, ptx_oven_set_temp_delta_c,
      pti_oven_config, temperature_5000_2900]
  · norm_num [tick_176_5100, cfg_thin_band, ptx_oven_set_temp_target_c,
      ptx_oven_set_temp_delta_c, pti_oven_config, temperature_5000_2900]

/-- Claim C7 as amended (hysteresis, only when, compared in single precision). For every tick
from every controller state, with the temperature the code computes from the tick's reading (the
binary32 number returned by `ptx_compute_temperature`) and the two thresholds the code computes
(`temp_target_c - temp_delta_c` and `temp_target_c + temp_delta_c`, each rounded to binary32):
the gas command changes from off to on only if the tick began in Idle with the door closed, no
sensor fault on this tick and that temperature at most the first threshold; it changes from on
to off only if the safety override fired (door open or sensor fault on this tick) or the tick
began in Heating with that temperature at least the second threshold. -/
theorem C7_hysteresis_only_when_amended (cfg : ptx_oven_config_t) (inp : TickInput) (s : Oven) :
    (s.pti_status.gas_on = false →
      (ptx_oven_control_update cfg inp s).pti_status.gas_on = true →
      s.pti_status.state = PTX_HEATING_STATE_IDLE ∧ s.pti_status.door_open = false ∧
      (ptx_oven_control_update cfg inp s).pti_status.sensor_fault = false ∧
      ptx_compute_temperature (inp.vref_mv : ℚ) (inp.signal_mv : ℚ) ≤
        round_binary32 (cfg.temp_target_c - cfg.temp_delta_c)) ∧
    (s.pti_status.gas_on = true →
      (ptx_oven_control_update cfg inp s).pti_status.gas_on = false →
      (s.pti_status.door_open = true ∨
        (ptx_oven_control_update cfg inp s).pti_status.sensor_fault = true) ∨
      (s.pti_status.state = PTX_HEATING_STATE_HEATING ∧
        ptx_compute_temperature (inp.vref_mv : ℚ) (inp.signal_mv : ℚ) ≥
          round_binary32 (cfg.temp_target_c + cfg.temp_delta_c))) := by
  have hg : (ptx_oven_control_update cfg inp s).pti_status.gas_on =
      (ptx_update_heating cfg (inp.millis % 4294967296) (sensed cfg inp s)).pti_status.gas_on := by
    rw [update_status]
  have hsf : (ptx_oven_control_update cfg inp s).pti_status.sensor_fault =
      (sensed cfg inp s).pti_status.sensor_fault := by
    rw [update_status]
    exact heating_sensor_fault cfg _ _
  rw [hg, hsf, heating_gas, sensed_door, sensed_state, sensed_temperature, sensed_gas]
  constructor
  · intro h0 h1
    split_ifs at h1 with c1 c2 c3 c4 c5 c6
    all_goals first
      | (rw [h0] at h1; exact absurd h1 (by decide))
      | (rw [Bool.or_eq_true, not_or] at c1
         exact ⟨c2, by simpa using c1.1, by simpa using c1.2, c3⟩)
  · intro h0 h1
    split_ifs at h1 with c1 c2 c3 c4 c5 c6
    all_goals first
      | (rw [h0] at h1; exact absurd h1 (by decide))
      | (rw [Bool.or_eq_true] at c1; exact Or.inl c1)
      | exact Or.inr ⟨c5, c6⟩

/-- Claim C8 (igniter window). In every run that starts with `ptx_oven_control_init`, at the end
of every tick executed with `ignition_duration_ms > 0`: if the igniter is commanded on, then gas
is commanded on, the state is Igniting and `(now - ignition_start) mod 2^32` is below
`ignition_duration_ms`. -/
theorem C8_igniter_window (cfg : ptx_oven_config_t) (inp : TickInput) (s : Oven)
    (hrun : Reachable s) (hdur : 0 < cfg.ignition_duration_ms)
    (hign : (ptx_oven_control_update cfg inp s).pti_status.igniter_on = true) :
    (ptx_oven_control_update cfg inp s).pti_status.gas_on = true ∧
    (ptx_oven_control_update cfg inp s).pti_status.state = PTX_HEATING_STATE_IGNITING ∧
    ((inp.millis : ℤ) - ((ptx_oven_control_update cfg inp s).pti_ignition_start_ms : ℤ))
        % 4294967296 < (cfg.ignition_duration_ms : ℤ) := by
  have hc := reachable_consistent s hrun
  rw [update_status] at hign
  rw [update_status, update_start]
  by_cases hov : (sensed cfg inp s).pti_status.door_open = true ∨
      (sensed cfg inp s).pti_status.sensor_fault = true
  · rw [heating_override cfg _ _ hov] at hign
    exact (Bool.false_ne_true hign).elim
  · have hd : (sensed cfg inp s).pti_status.door_open = false := by
      cases hdo : (sensed cfg inp s).pti_status.door_open
      · rfl
      · exact absurd (Or.inl hdo) hov
    have hf : (sensed cfg inp s).pti_status.sensor_fault = false := by
      cases hsf : (sensed cfg inp s).pti_status.sensor_fault
      · rfl
      · exact absurd (Or.inr hsf) hov
    rcases hc.2 with ⟨hs, hg, hi, ha⟩ | ⟨hs, hg, hi, ha⟩ | ⟨hs, hg, hi, ha⟩
    · have hs2 := (sensed_state cfg inp s).trans hs
      by_cases ht : (sensed cfg inp s).pti_status.temperature_c ≤
          round_binary32 (cfg.temp_target_c - cfg.temp_delta_c)
      · rw [heating_idle_start cfg _ _ hd hf hs2 ht]
        refine ⟨rfl, rfl, ?_⟩
        show ((inp.millis : ℤ) - ((inp.millis % 4294967296 : ℕ) : ℤ)) % 4294967296 < _
        have h0 : ((inp.millis : ℤ) - ((inp.millis % 4294967296 : ℕ) : ℤ)) % 4294967296 = 0 := by
          omega
        rw [h0]
        exact_mod_cast hdur
      · rw [heating_idle_wait cfg _ _ hd hf hs2 ht] at hign
        rw [sensed_igniter, hi] at hign
        exact (Bool.false_ne_true hign).elim
    · have hs2 := (sensed_state cfg inp s).trans hs
      by_cases ht : u32_sub (inp.millis % 4294967296) (sensed cfg inp s).pti_ignition_start_ms ≥
          cfg.ignition_duration_ms
      · rw [heating_igniting_done cfg _ _ hd hf hs2 ht] at hign
        exact (Bool.false_ne_true hign).elim
      · rw [heating_igniting_wait cfg _ _ hd hf hs2 ht]
        refine ⟨(sensed_gas cfg inp s).trans hg, hs2, ?_⟩
        have hlt : u32_sub (inp.millis % 4294967296) (sensed cfg inp s).pti_ignition_start_ms <
            cfg.ignition_duration_ms := not_le.mp ht
        have hel : ((u32_sub (inp.millis % 4294967296)
            (sensed cfg inp s).pti_ignition_start_ms : ℕ) : ℤ) =
            ((inp.millis : ℤ) - ((sensed cfg inp s).pti_ignition_start_ms : ℤ)) % 4294967296 := by
          rw [u32_sub_cast]
          omega
        rw [← hel]
        exact_mod_cast hlt
    · have hs2 := (sensed_state cfg inp s).trans hs
      by_cases ht : (sensed cfg inp s).pti_status.temperature_c ≥
          round_binary32 (cfg.temp_target_c + cfg.temp_delta_c)
      · rw [heating_heating_off cfg _ _ hd hf hs2 ht] at hign
        exact (Bool.false_ne_true hign).elim
      · rw [heating_heating_keep cfg _ _ hd hf hs2 ht] at hign
        rw [sensed_igniter, hi] at hign
        exact (Bool.false_ne_true hign).elim

/-- Claim C9 fails as stated. At the reading 5000 mV / 2694 mV, which is strictly between
`low` and `high`, `ptx_compute_temperature` returns the binary32 number `5244027 / 32768`
(160.03500366...), not the value `32007 / 200` (160.035) of `387.5*(signal_mv/vref_mv) - 48.75`;
a tick with this reading stores that binary32 number in the status. -/
theorem C9_temperature_model_counterexample :
    ¬ ((2694 : ℚ) ≤ 0.10 * 5000) ∧ ¬ ((2694 : ℚ) ≥ 0.90 * 5000) ∧
    ptx_compute_temperature 5000 2694 = 5244027 / 32768 ∧
    387.5 * ((2694 : ℚ) / 5000) - 48.75 = 32007 / 200 ∧
    ptx_compute_temperature 5000 2694 ≠ 387.5 * ((2694 : ℚ) / 5000) - 48.75 ∧
    (ptx_oven_control_update pti_oven_config tick_160 oven_idle).pti_status.temperature_c =
      5244027 / 32768 := by
  refine ⟨by norm_num, by norm_num, temperature_5000_2694, by norm_num, ?_, ?_⟩
  · rw [temperature_5000_2694]
    norm_num
  · rw [update_status]
    rw [heating_temperature, sensed_temperature]
    have e : ptx_compute_temperature (tick_160.vref_mv : ℚ) (tick_160.signal_mv : ℚ) =
        ptx_compute_temperature 5000 2694 := by
      norm_num [tick_160]
    rw [e, temperature_5000_2694]

/-- Claim C9 as amended (temperature model in single precision). For every
`(vref_mv, signal_mv)`, with `low = 0.10*vref_mv` and `high = 0.90*vref_mv`:
`ptx_compute_temperature` returns -10 when `signal_mv <= low`, otherwise 300 when
`signal_mv >= high`, otherwise the binary32 number obtained by rounding the quotient
`signal_mv/vref_mv` to binary32 and then rounding `387.5*x - 48.75` to binary32, which is within
`2^-15` of `387.5*(signal_mv/vref_mv) - 48.75`; the result is a function of the two arguments
alone, and the temperature that a tick stores in the status is this function of the tick's
reading, whatever the prior state, the configuration and the clock value. -/
theorem C9_temperature_model_amended (vref_mv signal_mv : ℚ) :
    (signal_mv ≤ 0.10 * vref_mv → ptx_compute_temperature vref_mv signal_mv = -10) ∧
    (¬ signal_mv ≤ 0.10 * vref_mv → signal_mv ≥ 0.90 * vref_mv →
      ptx_compute_temperature vref_mv signal_mv = 300) ∧
    (¬ signal_mv ≤ 0.10 * vref_mv → ¬ signal_mv ≥ 0.90 * vref_mv →
      ptx_compute_temperature vref_mv signal_mv =
        round_binary32 (387.5 * round_binary32 (signal_mv / vref_mv) - 48.75) ∧
      |ptx_compute_temperature vref_mv signal_mv - (387.5 * (signal_mv / vref_mv) - 48.75)|
        ≤ 1 / 32768) ∧
    (∀ (cfg : ptx_oven_config_t) (inp : TickInput) (s : Oven),
      (ptx_oven_control_update cfg inp s).pti_status.temperature_c =
        ptx_compute_temperature (inp.vref_mv : ℚ) (inp.signal_mv : ℚ)) := by
  refine ⟨?_, ?_, ?_, ?_⟩
  · intro h
    unfold ptx_compute_temperature
    simp only [if_pos h]
  · intro h1 h2
    unfold ptx_compute_temperature
    simp only [if_neg h1, if_pos h2]
  · intro h1 h2
    constructor
    · unfold ptx_compute_temperature
      simp only [if_neg h1, if_neg h2]
    · have herr := temperature_rounding_error vref_mv signal_mv
      have hex : ptx_compute_temperature_exact vref_mv signal_mv =
          387.5 * (signal_mv / vref_mv) - 48.75 := by
        unfold ptx_compute_temperature_exact
        simp only [if_neg h1, if_neg h2]
      rw [hex] at herr
      exact herr
  · intro cfg inp s
    rw [update_status]
    exact (heating_temperature cfg _ _).trans (sensed_temperature cfg inp s)

/-- Claim C10 (outputs follow commands). After every `ptx_oven_control_update` the gas output of
the port reads back as `status.gas_on` and the igniter output as `status.igniter_on`; hence after
a tick with the door open or with `sensor_fault` set both outputs read back as off. -/
theorem C10_outputs_follow_commands (cfg : ptx_oven_config_t) (inp : TickInput) (s : Oven) :
    read_output output_t.GAS_VALVE (ptx_oven_control_update cfg inp s).port =
      (ptx_oven_control_update cfg inp s).pti_status.gas_on ∧
    read_output output_t.IGNITER (ptx_oven_control_update cfg inp s).port =
      (ptx_oven_control_update cfg inp s).pti_status.igniter_on ∧
    (s.pti_status.door_open = true ∨
        (ptx_oven_control_update cfg inp s).pti_status.sensor_fault = true →
      ptx_actuator_get_gas_state (ptx_oven_control_update cfg inp s).port = false ∧
      ptx_actuator_get_igniter_state (ptx_oven_control_update cfg inp s).port = false) := by
  have hg : read_output output_t.GAS_VALVE (ptx_oven_control_update cfg inp s).port =
      (ptx_oven_control_update cfg inp s).pti_status.gas_on := by
    show (ptx_oven_control_update cfg inp s).port.gas_valve = _
    rw [update_port_gas, update_status]
  have hi : read_output output_t.IGNITER (ptx_oven_control_update cfg inp s).port =
      (ptx_oven_control_update cfg inp s).pti_status.igniter_on := by
    show (ptx_oven_control_update cfg inp s).port.igniter = _
    rw [update_port_igniter, update_status]
  refine ⟨hg, hi, ?_⟩
  intro h
  have hov : (sensed cfg inp s).pti_status.door_open = true ∨
      (sensed cfg inp s).pti_status.sensor_fault = true := by
    rcases h with h | h
    · exact Or.inl ((sensed_door cfg inp s).trans h)
    · rw [update_status] at h
      exact Or.inr ((heating_sensor_fault cfg _ _).symm.trans h)
  unfold ptx_actuator_get_gas_state ptx_actuator_get_igniter_state
  rw [hg, hi, update_status, heating_override cfg _ _ hov]
  exact ⟨rfl, rfl⟩


/-! ## The claims at concrete inputs -/

/-- Instance of C1: the door is opened during ignition; the next tick shuts everything off. -/
theorem C1_door_override_witness :
    (ptx_oven_set_door_state true oven_igniting).pti_status.door_open = true ∧
    (ptx_oven_set_door_state true oven_igniting).pti_status.gas_on = true ∧
    ((ptx_oven_control_update pti_oven_config tick_160_4999
        (ptx_oven_set_door_state true oven_igniting)).pti_status.gas_on = false ∧
      (ptx_oven_control_update pti_oven_config tick_160_4999
        (ptx_oven_set_door_state true oven_igniting)).pti_status.igniter_on = false ∧
      (ptx_oven_control_update pti_oven_config tick_160_4999
        (ptx_oven_set_door_state true oven_igniting)).pti_status.state = PTX_HEATING_STATE_IDLE ∧
      (ptx_oven_control_update pti_oven_config tick_160_4999
        (ptx_oven_set_door_state true oven_igniting)).pti_ignition_attempt = 0 ∧
      (ptx_oven_control_update pti_oven_config tick_160_4999
        (ptx_oven_set_door_state true oven_igniting)).pti_status.ignition_attempt = 0) :=
  ⟨rfl, oven_igniting_facts.2.2.1,
    C1_door_override pti_oven_config tick_160_4999 (ptx_oven_set_door_state true oven_igniting) rfl⟩

/-- Instance of C4 as amended (scenario A): 160 °C with the door closed starts ignition from
Idle. -/
theorem C4_ignition_start_amended_witness :
    oven_idle.pti_status.state = PTX_HEATING_STATE_IDLE ∧
    oven_idle.pti_status.door_open = false ∧
    pti_oven_config.vref_min_v ≤ (tick_160.vref_mv : ℚ) / 1000 ∧
    (tick_160.vref_mv : ℚ) / 1000 ≤ pti_oven_config.vref_max_v ∧
    0.10 * (tick_160.vref_mv : ℚ) ≤ (tick_160.signal_mv : ℚ) ∧
    (tick_160.signal_mv : ℚ) ≤ 0.90 * (tick_160.vref_mv : ℚ) ∧
    ptx_compute_temperature (tick_160.vref_mv : ℚ) (tick_160.signal_mv : ℚ) ≤
      round_binary32 (pti_oven_config.temp_target_c - pti_oven_config.temp_delta_c) ∧
    (ptx_oven_control_update pti_oven_config tick_160 oven_idle).pti_status.gas_on = true ∧
    (ptx_oven_control_update pti_oven_config tick_160 oven_idle).pti_status.igniter_on = true ∧
    (ptx_oven_control_update pti_oven_config tick_160 oven_idle).pti_status.state =
      PTX_HEATING_STATE_IGNITING ∧
    (ptx_oven_control_update pti_oven_config tick_160 oven_idle).pti_ignition_attempt = 1 ∧
    (ptx_oven_control_update pti_oven_config tick_160 oven_idle).pti_ignition_start_ms = 0 := by
  have h1 : pti_oven_config.vref_min_v ≤ (tick_160.vref_mv : ℚ) / 1000 := by
    norm_num [tick_160, pti_oven_config]
  have h2 : (tick_160.vref_mv : ℚ) / 1000 ≤ pti_oven_config.vref_max_v := by
    norm_num [tick_160, pti_oven_config]
  have h3 : 0.10 * (tick_160.vref_mv : ℚ) ≤ (tick_160.signal_mv : ℚ) := by
    norm_num [tick_160]
  have h4 : (tick_160.signal_mv : ℚ) ≤ 0.90 * (tick_160.vref_mv : ℚ) := by
    norm_num [tick_160]
  have hT : ptx_compute_temperature (tick_160.vref_mv : ℚ) (tick_160.signal_mv : ℚ) ≤
      round_binary32 (pti_oven_config.temp_target_c - pti_oven_config.temp_delta_c) := by
    norm_num [tick_160, pti_oven_config, temperature_5000_2694, round_binary32_175]
  obtain ⟨g, i, st, _, a, _, t0⟩ :=
    (C4_ignition_start_amended pti_oven_config tick_160 oven_idle rfl rfl h1 h2 h3 h4).1 hT
  exact ⟨rfl, rfl, h1, h2, h3, h4, hT, g, i, st, a (Reachable.init oven_boot), t0⟩

/-- Instance of C5 (scenario B): ignition started at 0 ms; at 4999 ms nothing changes, at
5000 ms the igniter goes off and the state becomes Heating with gas still on. -/
theorem C5_ignition_timing_witness :
    oven_igniting.pti_status.state = PTX_HEATING_STATE_IGNITING ∧
    oven_igniting.pti_status.door_open = false ∧
    ((ptx_oven_control_update pti_oven_config tick_160_4999 oven_igniting).pti_status.igniter_on
        = true ∧
      (ptx_oven_control_update pti_oven_config tick_160_4999 oven_igniting).pti_status.state
        = PTX_HEATING_STATE_IGNITING) ∧
    ((ptx_oven_control_update pti_oven_config tick_160_5000 oven_igniting).pti_status.igniter_on
        = false ∧
      (ptx_oven_control_update pti_oven_config tick_160_5000 oven_igniting).pti_status.state
        = PTX_HEATING_STATE_HEATING ∧
      (ptx_oven_control_update pti_oven_config tick_160_5000 oven_igniting).pti_ignition_attempt
        = 0 ∧
      (ptx_oven_control_update pti_oven_config tick_160_5000 oven_igniting).pti_status.gas_on
        = true) := by
  obtain ⟨fst, fdoor, fgas, fign, fstart⟩ := oven_igniting_facts
  have hrun : Reachable oven_igniting :=
    Reachable.update pti_oven_config tick_160 oven_idle (Reachable.init oven_boot)
  have early := (C5_ignition_timing pti_oven_config tick_160_4999 oven_igniting fst fdoor
    (by norm_num [tick_160_4999, pti_oven_config]) (by norm_num [tick_160_4999, pti_oven_config])
    (by norm_num [tick_160_4999]) (by norm_num [tick_160_4999])).1
    (by rw [fstart]; norm_num [tick_160_4999, pti_oven_config])
  have late := (C5_ignition_timing pti_oven_config tick_160_5000 oven_igniting fst fdoor
    (by norm_num [tick_160_5000, pti_oven_config]) (by norm_num [tick_160_5000, pti_oven_config])
    (by norm_num [tick_160_5000]) (by norm_num [tick_160_5000])).2
    (by rw [fstart]; norm_num [tick_160_5000, pti_oven_config])
  exact ⟨fst, fdoor, ⟨early.2.1.trans fign, early.2.2.trans fst⟩,
    ⟨late.1, late.2.1, late.2.2.1, late.2.2.2.2.2 hrun⟩⟩

/-- Instance of C6 as amended (scenario C): 186 °C while Heating turns the gas off. -/
theorem C6_heating_cutoff_amended_witness :
    oven_heating.pti_status.state = PTX_HEATING_STATE_HEATING ∧
    oven_heating.pti_status.door_open = false ∧
    oven_heating.pti_status.gas_on = true ∧
    ptx_compute_temperature (tick_186.vref_mv : ℚ) (tick_186.signal_mv : ℚ) ≥
      round_binary32 (pti_oven_config.temp_target_c + pti_oven_config.temp_delta_c) ∧
    ((ptx_oven_control_update pti_oven_config tick_186 oven_heating).pti_status.gas_on = false ∧
      (ptx_oven_control_update pti_oven_config tick_186 oven_heating).pti_status.igniter_on
        = false ∧
      (ptx_oven_control_update pti_oven_config tick_186 oven_heating).pti_status.state
        = PTX_HEATING_STATE_IDLE ∧
      (ptx_oven_control_update pti_oven_config tick_186 oven_heating).pti_ignition_attempt = 0 ∧
      (ptx_oven_control_update pti_oven_config tick_186 oven_heating).pti_status.ignition_attempt
        = 0) := by
  obtain ⟨fst, fdoor, fgas, _⟩ := oven_heating_facts
  have hT : ptx_compute_temperature (tick_186.vref_mv : ℚ) (tick_186.signal_mv : ℚ) ≥
      round_binary32 (pti_oven_config.temp_target_c + pti_oven_config.temp_delta_c) := by
    norm_num [tick_186, pti_oven_config, temperature_5000_3029, round_binary32_185]
  exact ⟨fst, fdoor, fgas, hT,
    (C6_heating_cutoff_amended pti_oven_config tick_186 oven_heating fst fdoor
      (by norm_num [tick_186, pti_oven_config]) (by norm_num [tick_186, pti_oven_config])
      (by norm_num [tick_186]) (by norm_num [tick_186])).1 hT⟩

/-- Instance of C7 as amended: the only tick of scenario A that turns gas on starts in Idle at
160 °C. -/
theorem C7_hysteresis_only_when_amended_witness :
    oven_idle.pti_status.gas_on = false ∧
    (ptx_oven_control_update pti_oven_config tick_160 oven_idle).pti_status.gas_on = true ∧
    (oven_idle.pti_status.state = PTX_HEATING_STATE_IDLE ∧ oven_idle.pti_status.door_open = false ∧
      (ptx_oven_control_update pti_oven_config tick_160 oven_idle).pti_status.sensor_fault
        = false ∧
      ptx_compute_temperature (tick_160.vref_mv : ℚ) (tick_160.signal_mv : ℚ) ≤
        round_binary32 (pti_oven_config.temp_target_c - pti_oven_config.temp_delta_c)) :=
  ⟨rfl, oven_igniting_facts.2.2.1,
    (C7_hysteresis_only_when_amended pti_oven_config tick_160 oven_idle).1 rfl
      oven_igniting_facts.2.2.1⟩

/-- Instance of C8: the first tick of scenario A ends inside the ignition window. -/
theorem C8_igniter_window_witness :
    Reachable oven_idle ∧ 0 < pti_oven_config.ignition_duration_ms ∧
    (ptx_oven_control_update pti_oven_config tick_160 oven_idle).pti_status.igniter_on = true ∧
    ((ptx_oven_control_update pti_oven_config tick_160 oven_idle).pti_status.gas_on = true ∧
      (ptx_oven_control_update pti_oven_config tick_160 oven_idle).pti_status.state =
        PTX_HEATING_STATE_IGNITING ∧
      ((tick_160.millis : ℤ) -
          ((ptx_oven_control_update pti_oven_config tick_160 oven_idle).pti_ignition_start_ms : ℤ))
        % 4294967296 < (pti_oven_config.ignition_duration_ms : ℤ)) :=
  ⟨Reachable.init oven_boot, by decide, oven_igniting_facts.2.2.2.1,
    C8_igniter_window pti_oven_config tick_160 oven_idle (Reachable.init oven_boot) (by decide)
      oven_igniting_facts.2.2.2.1⟩

/-- Instance of C10: after the door-open tick both pins read back as off. -/
theorem C10_outputs_follow_commands_witness :
    ptx_actuator_get_gas_state (ptx_oven_control_update pti_oven_config tick_160_4999
      (ptx_oven_set_door_state true oven_igniting)).port = false ∧
    ptx_actuator_get_igniter_state (ptx_oven_control_update pti_oven_config tick_160_4999
      (ptx_oven_set_door_state true oven_igniting)).port = false :=
  (C10_outputs_follow_commands pti_oven_config tick_160_4999
    (ptx_oven_set_door_state true oven_igniting)).2.2 (Or.inl rfl)


/-! ## Further frame lemmas -/

theorem heating_lockout_flag (cfg : ptx_oven_config_t) (now : Nat) (t : Oven) :
    (ptx_update_heating cfg now t).pti_status.ignition_lockout =
      t.pti_status.ignition_lockout := by
  unfold ptx_update_heating
  dsimp only
  split_ifs <;> rfl

theorem sensed_lockout_flag (cfg : ptx_oven_config_t) (inp : TickInput) (s : Oven) :
    (sensed cfg inp s).pti_status.ignition_lockout = s.pti_status.ignition_lockout := by
  unfold sensed ptx_eval_sensor_faults_with_timing ptx_read_door_open
  dsimp only
  split_ifs <;> rfl

theorem update_lockout_flag (cfg : ptx_oven_config_t) (inp : TickInput) (s : Oven) :
    (ptx_oven_control_update cfg inp s).pti_status.ignition_lockout =
      s.pti_status.ignition_lockout := by
  rw [update_status]
  exact (heating_lockout_flag cfg _ _).trans (sensed_lockout_flag cfg inp s)

/-- No state of a run has the lockout flag set. -/
theorem reachable_lockout_flag (s : Oven) (h : Reachable s) :
    s.pti_status.ignition_lockout = false := by
  induction h with
  | init s0 => rfl
  | update cfg inp s _ ih => exact (update_lockout_flag cfg inp s).trans ih
  | door b s _ ih => exact ih

/-! ## Configuration calls -/

/-- One call with in-range arguments preserves the three configuration conditions. -/
theorem config_invariant_step (k : ConfigCall) (c : ptx_oven_config_t)
    (hk : k.args_in_range)
    (hc : c.vref_min_v < c.vref_max_v ∧ 0 ≤ c.temp_delta_c ∧
      1 ≤ c.max_ignition_attempts ∧ c.max_ignition_attempts ≤ 5) :
    (k.run c).vref_min_v < (k.run c).vref_max_v ∧ 0 ≤ (k.run c).temp_delta_c ∧
      1 ≤ (k.run c).max_ignition_attempts ∧ (k.run c).max_ignition_attempts ≤ 5 := by
  cases k with
  | set_config config =>
    cases config with
    | none => exact hc
    | some n => exact hk
  | reset_config_to_defaults =>
    show (4.5 : ℚ) < 5.5 ∧ (0 : ℚ) ≤ 2 ∧ 1 ≤ 3 ∧ 3 ≤ 5
    norm_num
  | set_ignition_duration_ms d => exact hc
  | set_periodic_log_ms n => exact hc
  | set_sensor_fault_window_ms w => exact hc
  | set_auto_resume_delay_ms d => exact hc
  | set_vref_range_v lo hi => exact ⟨hk, hc.2⟩
  | set_temp_target_c t => exact hc
  | set_temp_delta_c d => exact ⟨hc.1, hk, hc.2.2⟩
  | set_max_ignition_attempts a =>
    show (ptx_oven_set_max_ignition_attempts a c).vref_min_v <
        (ptx_oven_set_max_ignition_attempts a c).vref_max_v ∧
      0 ≤ (ptx_oven_set_max_ignition_attempts a c).temp_delta_c ∧
      1 ≤ (ptx_oven_set_max_ignition_attempts a c).max_ignition_attempts ∧
      (ptx_oven_set_max_ignition_attempts a c).max_ignition_attempts ≤ 5
    unfold ptx_oven_set_max_ignition_attempts
    split_ifs with ha
    · exact ⟨hc.1, hc.2.1, ha.1, ha.2⟩
    · exact hc

/-- A sequence of calls with in-range arguments preserves the three conditions. -/
theorem config_invariant_foldl (calls : List ConfigCall) (c : ptx_oven_config_t)
    (hargs : ∀ k ∈ calls, k.args_in_range)
    (hc : c.vref_min_v < c.vref_max_v ∧ 0 ≤ c.temp_delta_c ∧
      1 ≤ c.max_ignition_attempts ∧ c.max_ignition_attempts ≤ 5) :
    (calls.foldl (fun c k => k.run c) c).vref_min_v <
        (calls.foldl (fun c k => k.run c) c).vref_max_v ∧
      0 ≤ (calls.foldl (fun c k => k.run c) c).temp_delta_c ∧
      1 ≤ (calls.foldl (fun c k => k.run c) c).max_ignition_attempts ∧
      (calls.foldl (fun c k => k.run c) c).max_ignition_attempts ≤ 5 := by
  induction calls generalizing c with
  | nil => exact hc
  | cons k rest ih =>
    rw [List.foldl_cons]
    apply ih
    · intro k2 hk2
      exact hargs k2 (List.mem_cons_of_mem k hk2)
    · exact config_invariant_step k c (hargs k (List.mem_cons_self k rest)) hc

/-! ## Core fields of an update, LED fields of an update -/

theorem update_core (cfg : ptx_oven_config_t) (inp : TickInput) (s : Oven) :
    (ptx_oven_control_update cfg inp s).pti_status.state =
      (ptx_update_heating cfg (inp.millis % 4294967296) (sensed cfg inp s)).pti_status.state ∧
    (ptx_oven_control_update cfg inp s).pti_status.gas_on =
      (ptx_update_heating cfg (inp.millis % 4294967296) (sensed cfg inp s)).pti_status.gas_on ∧
    (ptx_oven_control_update cfg inp s).pti_status.igniter_on =
      (ptx_update_heating cfg (inp.millis % 4294967296)
        (sensed cfg inp s)).pti_status.igniter_on ∧
    (ptx_oven_control_update cfg inp s).pti_ignition_attempt =
      (ptx_update_heating cfg (inp.millis % 4294967296) (sensed cfg inp s)).pti_ignition_attempt ∧
    (ptx_oven_control_update cfg inp s).pti_status.ignition_attempt =
      (ptx_update_heating cfg (inp.millis % 4294967296)
        (sensed cfg inp s)).pti_ignition_attempt := by
  rw [update_status, update_attempt]
  exact ⟨rfl, rfl, rfl, rfl, rfl⟩

theorem update_door (cfg : ptx_oven_config_t) (inp : TickInput) (s : Oven) :
    (ptx_oven_control_update cfg inp s).pti_status.door_open = s.pti_status.door_open := by
  rw [update_status]
  exact (heating_door cfg _ _).trans (sensed_door cfg inp s)

theorem sensed_led (cfg : ptx_oven_config_t) (inp : TickInput) (s : Oven) :
    (sensed cfg inp s).sys_led_status = s.sys_led_status ∧
    (sensed cfg inp s).sys_led_last_toggle_ms = s.sys_led_last_toggle_ms ∧
    (sensed cfg inp s).port = s.port := by
  unfold sensed ptx_eval_sensor_faults_with_timing ptx_read_door_open
  dsimp only
  split_ifs <;> exact ⟨rfl, rfl, rfl⟩

theorem heating_led (cfg : ptx_oven_config_t) (now : Nat) (t : Oven) :
    (ptx_update_heating cfg now t).sys_led_status = t.sys_led_status ∧
    (ptx_update_heating cfg now t).sys_led_last_toggle_ms = t.sys_led_last_toggle_ms ∧
    (ptx_update_heating cfg now t).port = t.port := by
  unfold ptx_update_heating
  dsimp only
  split_ifs <;> exact ⟨rfl, rfl, rfl⟩

theorem run_log_led (cfg : ptx_oven_config_t) (now : Nat) (s : Oven) :
    (ptx_oven_run_log cfg now s).sys_led_status = s.sys_led_status ∧
    (ptx_oven_run_log cfg now s).sys_led_last_toggle_ms = s.sys_led_last_toggle_ms := by
  unfold ptx_oven_run_log
  split_ifs <;> exact ⟨rfl, rfl⟩

theorem apply_outputs_toggle (now : Nat) (t : Oven)
    (h : u32_sub now t.sys_led_last_toggle_ms ≥
      (if (t.pti_status.door_open || t.pti_status.vref_fault ||
          t.pti_status.signal_fault || t.pti_status.sensor_fault) = true
        then FAST_BLINK_MS else SLOW_BLINK_MS)) :
    (ptx_apply_outputs now t).sys_led_status = (!t.sys_led_status) ∧
    (ptx_apply_outputs now t).port.sys_led = (!t.sys_led_status) ∧
    (ptx_apply_outputs now t).sys_led_last_toggle_ms = now := by
  unfold ptx_apply_outputs
  dsimp only
  rw [if_pos h]
  exact ⟨rfl, rfl, rfl⟩

theorem apply_outputs_keep (now : Nat) (t : Oven)
    (h : ¬ u32_sub now t.sys_led_last_toggle_ms ≥
      (if (t.pti_status.door_open || t.pti_status.vref_fault ||
          t.pti_status.signal_fault || t.pti_status.sensor_fault) = true
        then FAST_BLINK_MS else SLOW_BLINK_MS)) :
    (ptx_apply_outputs now t).sys_led_status = t.sys_led_status ∧
    (ptx_apply_outputs now t).port.sys_led = t.port.sys_led ∧
    (ptx_apply_outputs now t).sys_led_last_toggle_ms = t.sys_led_last_toggle_ms := by
  unfold ptx_apply_outputs
  dsimp only
  rw [if_neg h]
  exact ⟨rfl, rfl, rfl⟩

/-! ## Claims C11 to C20 -/

/-- Claim C11 (initialisation). After `ptx_oven_control_init`, from any prior contents of the
statics and pins: gas and igniter commands are off, the state is Idle, `door_open` is false, the
three fault flags are false, `ignition_attempt` is 0, `ignition_lockout` is false, the temperature
is -10, and the gas and igniter outputs of the port read back as off. -/
theorem C11_initialization (s : Oven) :
    (ptx_oven_control_init s).pti_status.gas_on = false ∧
    (ptx_oven_control_init s).pti_status.igniter_on = false ∧
    (ptx_oven_control_init s).pti_status.state = PTX_HEATING_STATE_IDLE ∧
    (ptx_oven_control_init s).pti_status.door_open = false ∧
    (ptx_oven_control_init s).pti_status.vref_fault = false ∧
    (ptx_oven_control_init s).pti_status.signal_fault = false ∧
    (ptx_oven_control_init s).pti_status.sensor_fault = false ∧
    (ptx_oven_control_init s).pti_status.ignition_attempt = 0 ∧
    (ptx_oven_control_init s).pti_status.ignition_lockout = false ∧
    (ptx_oven_control_init s).pti_status.temperature_c = -10 ∧
    ptx_actuator_get_gas_state (ptx_oven_control_init s).port = false ∧
    ptx_actuator_get_igniter_state (ptx_oven_control_init s).port = false :=
  ⟨rfl, rfl, rfl, rfl, rfl, rfl, rfl, rfl, rfl, rfl, rfl, rfl⟩

/-- Claim C13 (Lockout is never entered). In every run that starts with
`ptx_oven_control_init` and continues with any sequence of updates (any configuration, reading
and clock value) and door notifications, the state is one of Idle, Igniting, Heating, hence never
Lockout, and `ignition_lockout` is false. -/
theorem C13_lockout_never_entered (s : Oven) (hrun : Reachable s) :
    (s.pti_status.state = PTX_HEATING_STATE_IDLE ∨
      s.pti_status.state = PTX_HEATING_STATE_IGNITING ∨
      s.pti_status.state = PTX_HEATING_STATE_HEATING) ∧
    s.pti_status.state ≠ PTX_HEATING_STATE_LOCKOUT ∧
    s.pti_status.ignition_lockout = false := by
  have hc := (reachable_consistent s hrun).2
  refine ⟨?_, ?_, reachable_lockout_flag s hrun⟩
  · rcases hc with ⟨h, _⟩ | ⟨h, _⟩ | ⟨h, _⟩
    · exact Or.inl h
    · exact Or.inr (Or.inl h)
    · exact Or.inr (Or.inr h)
  · rcases hc with ⟨h, _⟩ | ⟨h, _⟩ | ⟨h, _⟩ <;> rw [h] <;> decide

/-- Claim C20 (state/output consistency). In every run that starts with
`ptx_oven_control_init`, after every update and every door notification: Idle implies gas off,
igniter off and attempt counter 0; Igniting implies gas on, igniter on and attempt counter 1;
Heating implies gas on, igniter off and attempt counter 0; and `status.ignition_attempt` equals
the internal attempt counter. -/
theorem C20_state_output_consistency (s : Oven) (hrun : Reachable s) :
    (s.pti_status.state = PTX_HEATING_STATE_IDLE →
      s.pti_status.gas_on = false ∧ s.pti_status.igniter_on = false ∧
        s.pti_ignition_attempt = 0) ∧
    (s.pti_status.state = PTX_HEATING_STATE_IGNITING →
      s.pti_status.gas_on = true ∧ s.pti_status.igniter_on = true ∧
        s.pti_ignition_attempt = 1) ∧
    (s.pti_status.state = PTX_HEATING_STATE_HEATING →
      s.pti_status.gas_on = true ∧ s.pti_status.igniter_on = false ∧
        s.pti_ignition_attempt = 0) ∧
    s.pti_status.ignition_attempt = s.pti_ignition_attempt := by
  obtain ⟨hcopy, hc⟩ := reachable_consistent s hrun
  refine ⟨?_, ?_, ?_, hcopy⟩
  · intro h0
    rcases hc with ⟨_, hg, hi, ha⟩ | ⟨h, _⟩ | ⟨h, _⟩
    · exact ⟨hg, hi, ha⟩
    · rw [h0] at h
      exact absurd h (by decide)
    · rw [h0] at h
      exact absurd h (by decide)
  · intro h1
    rcases hc with ⟨h, _⟩ | ⟨_, hg, hi, ha⟩ | ⟨h, _⟩
    · rw [h1] at h
      exact absurd h (by decide)
    · exact ⟨hg, hi, ha⟩
    · rw [h1] at h
      exact absurd h (by decide)
  · intro h2
    rcases hc with ⟨h, _⟩ | ⟨h, _⟩ | ⟨_, hg, hi, ha⟩
    · rw [h2] at h
      exact absurd h (by decide)
    · rw [h2] at h
      exact absurd h (by decide)
    · exact ⟨hg, hi, ha⟩


/-- Claim C17 (reset to defaults). From every prior configuration,
`ptx_oven_reset_config_to_defaults` yields `ignition_duration_ms = 5000`,
`periodic_log_ms = 1000`, `sensor_fault_window_ms = 1000`, `auto_resume_delay_ms = 3000`, the
reference range 4.5 V to 5.5 V, `temp_target_c = 180`, `temp_delta_c = 2`,
`max_ignition_attempts = 3` and `iteration_period = 100`; the thresholds used by the heating
decision are then 178 (on) and 182 (off); and applying it twice equals applying it once. -/
theorem C17_reset_to_defaults (c : ptx_oven_config_t) :
    (ptx_oven_reset_config_to_defaults c).ignition_duration_ms = 5000 ∧
    (ptx_oven_reset_config_to_defaults c).periodic_log_ms = 1000 ∧
    (ptx_oven_reset_config_to_defaults c).sensor_fault_window_ms = 1000 ∧
    (ptx_oven_reset_config_to_defaults c).auto_resume_delay_ms = 3000 ∧
    (ptx_oven_reset_config_to_defaults c).vref_min_v = 4.5 ∧
    (ptx_oven_reset_config_to_defaults c).vref_max_v = 5.5 ∧
    (ptx_oven_reset_config_to_defaults c).temp_target_c = 180 ∧
    (ptx_oven_reset_config_to_defaults c).temp_delta_c = 2 ∧
    (ptx_oven_reset_config_to_defaults c).max_ignition_attempts = 3 ∧
    (ptx_oven_reset_config_to_defaults c).iteration_period = 100 ∧
    (ptx_oven_reset_config_to_defaults c).temp_target_c -
      (ptx_oven_reset_config_to_defaults c).temp_delta_c = 178 ∧
    (ptx_oven_reset_config_to_defaults c).temp_target_c +
      (ptx_oven_reset_config_to_defaults c).temp_delta_c = 182 ∧
    ptx_oven_reset_config_to_defaults (ptx_oven_reset_config_to_defaults c) =
      ptx_oven_reset_config_to_defaults c := by
  refine ⟨rfl, rfl, rfl, rfl, rfl, rfl, rfl, rfl, rfl, rfl, ?_, ?_, rfl⟩
  · show (180 : ℚ) - 2 = 178
    norm_num
  · show (180 : ℚ) + 2 = 182
    norm_num

/-- Claim C18, the code at start-up: the static initialiser of `pti_oven_config` has
`temp_delta_c = 5`, whereas `ptx_oven_reset_config_to_defaults` yields `temp_delta_c = 2` (the
default documented in `ptx_oven_config.h`); so the start-up configuration is not the
configuration that the reset produces. It is the only field in which the two differ. -/
theorem C18_startup_differs_from_defaults :
    pti_oven_config.temp_delta_c = 5 ∧
    (ptx_oven_reset_config_to_defaults pti_oven_config).temp_delta_c = 2 ∧
    pti_oven_config ≠ ptx_oven_reset_config_to_defaults pti_oven_config ∧
    { pti_oven_config with temp_delta_c := 2 } =
      ptx_oven_reset_config_to_defaults pti_oven_config := by
  refine ⟨rfl, rfl, ?_, rfl⟩
  intro h
  have h2 : pti_oven_config.temp_delta_c =
      (ptx_oven_reset_config_to_defaults pti_oven_config).temp_delta_c := by
    rw [← h]
  have h3 : (5 : ℚ) = 2 := h2
  norm_num at h3

/-- Claim C16 fails as stated: one call of `ptx_oven_set_temp_delta_c` with a negative argument,
made from start-up, leaves a configuration with `temp_delta_c < 0`; one call of
`ptx_oven_set_vref_range_v` with the bounds swapped leaves `vref_min_v > vref_max_v`; and
`ptx_oven_set_config` stores `max_ignition_attempts = 0`. -/
theorem C16_config_invariant_counterexample :
    ¬ (0 ≤ (config_after [ConfigCall.set_temp_delta_c (-1)]).temp_delta_c) ∧
    ¬ ((config_after [ConfigCall.set_vref_range_v 5.5 4.5]).vref_min_v <
        (config_after [ConfigCall.set_vref_range_v 5.5 4.5]).vref_max_v) ∧
    ¬ (1 ≤ (config_after [ConfigCall.set_config
        (some { pti_oven_config with max_ignition_attempts := 0 })]).max_ignition_attempts) := by
  refine ⟨?_, ?_, ?_⟩
  · show ¬ ((0 : ℚ) ≤ -1)
    norm_num
  · show ¬ ((5.5 : ℚ) < 4.5)
    norm_num
  · show ¬ (1 ≤ 0)
    decide

/-- Claim C16 as amended (configuration invariant). Every configuration reached from the
start-up configuration through any sequence of the public configuration operations whose
arguments are themselves in range (a replacement configuration passed to `ptx_oven_set_config`
satisfies the invariant, `ptx_oven_set_vref_range_v` gets `min_v < max_v`,
`ptx_oven_set_temp_delta_c` gets a non-negative value) satisfies `vref_min_v < vref_max_v`,
`temp_delta_c >= 0` and `1 <= max_ignition_attempts <= 5`. -/
theorem C16_config_invariant_amended (calls : List ConfigCall)
    (hargs : ∀ k ∈ calls, k.args_in_range) :
    (config_after calls).vref_min_v < (config_after calls).vref_max_v ∧
    0 ≤ (config_after calls).temp_delta_c ∧
    1 ≤ (config_after calls).max_ignition_attempts ∧
    (config_after calls).max_ignition_attempts ≤ 5 := by
  unfold config_after
  have hstart : pti_oven_config.vref_min_v < pti_oven_config.vref_max_v ∧
      0 ≤ pti_oven_config.temp_delta_c ∧ 1 ≤ pti_oven_config.max_ignition_attempts ∧
      pti_oven_config.max_ignition_attempts ≤ 5 := by
    refine ⟨?_, ?_, by decide, by decide⟩
    · show (4.5 : ℚ) < 5.5
      norm_num
    · show (0 : ℚ) ≤ 5
      norm_num
  exact config_invariant_foldl calls pti_oven_config hargs hstart


/-- Claim C15 (LED blink rule). In every tick the blink period is 500 ms if
`door_open OR vref_fault OR signal_fault OR sensor_fault` holds in the status of that tick and
3000 ms otherwise. If `(now - last_toggle) mod 2^32` is at least that period, the LED level is
inverted, the LED pin is written with the new level and `last_toggle` becomes `now`; otherwise
the LED level, the LED pin and `last_toggle` are unchanged. A pin that agreed with the LED level
before the tick agrees with it after the tick. -/
theorem C15_led_blink_rule (cfg : ptx_oven_config_t) (inp : TickInput) (s : Oven) :
    FAST_BLINK_MS = 500 ∧ SLOW_BLINK_MS = 3000 ∧
    ((((if ((ptx_oven_control_update cfg inp s).pti_status.door_open ||
            (ptx_oven_control_update cfg inp s).pti_status.vref_fault ||
            (ptx_oven_control_update cfg inp s).pti_status.signal_fault ||
            (ptx_oven_control_update cfg inp s).pti_status.sensor_fault) = true
          then 500 else 3000 : ℕ) : ℤ) ≤
        ((inp.millis : ℤ) - (s.sys_led_last_toggle_ms : ℤ)) % 4294967296) →
      (ptx_oven_control_update cfg inp s).sys_led_status = (!s.sys_led_status) ∧
      read_output output_t.SYS_LED_STATUS (ptx_oven_control_update cfg inp s).port =
        (!s.sys_led_status) ∧
      (ptx_oven_control_update cfg inp s).sys_led_last_toggle_ms = inp.millis % 4294967296) ∧
    (¬ (((if ((ptx_oven_control_update cfg inp s).pti_status.door_open ||
            (ptx_oven_control_update cfg inp s).pti_status.vref_fault ||
            (ptx_oven_control_update cfg inp s).pti_status.signal_fault ||
            (ptx_oven_control_update cfg inp s).pti_status.sensor_fault) = true
          then 500 else 3000 : ℕ) : ℤ) ≤
        ((inp.millis : ℤ) - (s.sys_led_last_toggle_ms : ℤ)) % 4294967296) →
      (ptx_oven_control_update cfg inp s).sys_led_status = s.sys_led_status ∧
      read_output output_t.SYS_LED_STATUS (ptx_oven_control_update cfg inp s).port =
        read_output output_t.SYS_LED_STATUS s.port ∧
      (ptx_oven_control_update cfg inp s).sys_led_last_toggle_ms = s.sys_led_last_toggle_ms) ∧
    (read_output output_t.SYS_LED_STATUS s.port = s.sys_led_status →
      read_output output_t.SYS_LED_STATUS (ptx_oven_control_update cfg inp s).port =
        (ptx_oven_control_update cfg inp s).sys_led_status) := by
  -- the state handed to the output driver
  obtain ⟨hl1, hl2, hl3⟩ := heating_led cfg (inp.millis % 4294967296) (sensed cfg inp s)
  obtain ⟨sl1, sl2, sl3⟩ := sensed_led cfg inp s
  have hflags : (ptx_oven_control_update cfg inp s).pti_status.door_open =
        (ptx_update_heating cfg (inp.millis % 4294967296) (sensed cfg inp s)).pti_status.door_open ∧
      (ptx_oven_control_update cfg inp s).pti_status.vref_fault =
        (ptx_update_heating cfg (inp.millis % 4294967296) (sensed cfg inp s)).pti_status.vref_fault ∧
      (ptx_oven_control_update cfg inp s).pti_status.signal_fault =
        (ptx_update_heating cfg (inp.millis % 4294967296)
          (sensed cfg inp s)).pti_status.signal_fault ∧
      (ptx_oven_control_update cfg inp s).pti_status.sensor_fault =
        (ptx_update_heating cfg (inp.millis % 4294967296)
          (sensed cfg inp s)).pti_status.sensor_fault := by
    rw [update_status]
    exact ⟨rfl, rfl, rfl, rfl⟩
  obtain ⟨f1, f2, f3, f4⟩ := hflags
  have hled : (ptx_oven_control_update cfg inp s).sys_led_status =
        (ptx_apply_outputs (inp.millis % 4294967296)
          (ptx_update_heating cfg (inp.millis % 4294967296) (sensed cfg inp s))).sys_led_status ∧
      (ptx_oven_control_update cfg inp s).port.sys_led =
        (ptx_apply_outputs (inp.millis % 4294967296)
          (ptx_update_heating cfg (inp.millis % 4294967296) (sensed cfg inp s))).port.sys_led ∧
      (ptx_oven_control_update cfg inp s).sys_led_last_toggle_ms =
        (ptx_apply_outputs (inp.millis % 4294967296)
          (ptx_update_heating cfg (inp.millis % 4294967296)
            (sensed cfg inp s))).sys_led_last_toggle_ms := by
    refine ⟨?_, ?_, ?_⟩
    · exact (run_log_led cfg _ _).1
    · show (ptx_oven_run_log cfg _ (ptx_apply_outputs _ _)).port.sys_led = _
      rw [run_log_port]
      rfl
    · exact (run_log_led cfg _ _).2
  obtain ⟨l1, l2, l3⟩ := hled
  have hel : ((u32_sub (inp.millis % 4294967296)
      (ptx_update_heating cfg (inp.millis % 4294967296)
        (sensed cfg inp s)).sys_led_last_toggle_ms : ℕ) : ℤ) =
      ((inp.millis : ℤ) - (s.sys_led_last_toggle_ms : ℤ)) % 4294967296 := by
    rw [hl2, sl2, u32_sub_cast]
    omega
  have htog : ∀ hge : (((if ((ptx_oven_control_update cfg inp s).pti_status.door_open ||
            (ptx_oven_control_update cfg inp s).pti_status.vref_fault ||
            (ptx_oven_control_update cfg inp s).pti_status.signal_fault ||
            (ptx_oven_control_update cfg inp s).pti_status.sensor_fault) = true
          then 500 else 3000 : ℕ) : ℤ) ≤
        ((inp.millis : ℤ) - (s.sys_led_last_toggle_ms : ℤ)) % 4294967296),
      (ptx_oven_control_update cfg inp s).sys_led_status = (!s.sys_led_status) ∧
      (ptx_oven_control_update cfg inp s).port.sys_led = (!s.sys_led_status) ∧
      (ptx_oven_control_update cfg inp s).sys_led_last_toggle_ms = inp.millis % 4294967296 := by
    intro hge
    rw [f1, f2, f3, f4, ← hel] at hge
    have hge2 : u32_sub (inp.millis % 4294967296)
        (ptx_update_heating cfg (inp.millis % 4294967296)
          (sensed cfg inp s)).sys_led_last_toggle_ms ≥
        (if ((ptx_update_heating cfg (inp.millis % 4294967296)
              (sensed cfg inp s)).pti_status.door_open ||
            (ptx_update_heating cfg (inp.millis % 4294967296)
              (sensed cfg inp s)).pti_status.vref_fault ||
            (ptx_update_heating cfg (inp.millis % 4294967296)
              (sensed cfg inp s)).pti_status.signal_fault ||
            (ptx_update_heating cfg (inp.millis % 4294967296)
              (sensed cfg inp s)).pti_status.sensor_fault) = true
          then FAST_BLINK_MS else SLOW_BLINK_MS) := by
      unfold FAST_BLINK_MS SLOW_BLINK_MS
      exact_mod_cast hge
    obtain ⟨a1, a2, a3⟩ := apply_outputs_toggle _ _ hge2
    rw [l1, l2, l3, a1, a2, a3, hl1, sl1]
    exact ⟨rfl, rfl, rfl⟩
  have hkeep : ∀ hlt : ¬ (((if ((ptx_oven_control_update cfg inp s).pti_status.door_open ||
            (ptx_oven_control_update cfg inp s).pti_status.vref_fault ||
            (ptx_oven_control_update cfg inp s).pti_status.signal_fault ||
            (ptx_oven_control_update cfg inp s).pti_status.sensor_fault) = true
          then 500 else 3000 : ℕ) : ℤ) ≤
        ((inp.millis : ℤ) - (s.sys_led_last_toggle_ms : ℤ)) % 4294967296),
      (ptx_oven_control_update cfg inp s).sys_led_status = s.sys_led_status ∧
      (ptx_oven_control_update cfg inp s).port.sys_led = s.port.sys_led ∧
      (ptx_oven_control_update cfg inp s).sys_led_last_toggle_ms = s.sys_led_last_toggle_ms := by
    intro hlt
    rw [f1, f2, f3, f4, ← hel] at hlt
    have hlt2 : ¬ u32_sub (inp.millis % 4294967296)
        (ptx_update_heating cfg (inp.millis % 4294967296)
          (sensed cfg inp s)).sys_led_last_toggle_ms ≥
        (if ((ptx_update_heating cfg (inp.millis % 4294967296)
              (sensed cfg inp s)).pti_status.door_open ||
            (ptx_update_heating cfg (inp.millis % 4294967296)
              (sensed cfg inp s)).pti_status.vref_fault ||
            (ptx_update_heating cfg (inp.millis % 4294967296)
              (sensed cfg inp s)).pti_status.signal_fault ||
            (ptx_update_heating cfg (inp.millis % 4294967296)
              (sensed cfg inp s)).pti_status.sensor_fault) = true
          then FAST_BLINK_MS else SLOW_BLINK_MS) := by
      unfold FAST_BLINK_MS SLOW_BLINK_MS
      intro hge
      exact hlt (by exact_mod_cast hge)
    obtain ⟨a1, a2, a3⟩ := apply_outputs_keep _ _ hlt2
    rw [l1, l2, l3, a1, a2, a3, hl1, hl2, hl3, sl1, sl2, sl3]
    exact ⟨rfl, rfl, rfl⟩
  refine ⟨rfl, rfl, htog, hkeep, ?_⟩
  intro hagree
  by_cases hge : (((if ((ptx_oven_control_update cfg inp s).pti_status.door_open ||
            (ptx_oven_control_update cfg inp s).pti_status.vref_fault ||
            (ptx_oven_control_update cfg inp s).pti_status.signal_fault ||
            (ptx_oven_control_update cfg inp s).pti_status.sensor_fault) = true
          then 500 else 3000 : ℕ) : ℤ) ≤
        ((inp.millis : ℤ) - (s.sys_led_last_toggle_ms : ℤ)) % 4294967296)
  · obtain ⟨a1, a2, _⟩ := htog hge
    exact a2.trans a1.symm
  · obtain ⟨a1, a2, _⟩ := hkeep hge
    exact (a2.trans hagree).trans a1.symm


/-- Claim C12 (idempotence of stable ticks). For every controller state (reachable or not) and
every fixed input (reading `vref_mv`, `signal_mv`, door flag, configuration): if a tick leaves
state, gas command and igniter command unchanged and the state is not Igniting, then the door
flag is also unchanged and a further tick with the same reading and configuration, at any clock
value, again leaves state, gas command, igniter command and attempt counter (internal and status
copy) unchanged. -/
theorem C12_stable_tick_idempotent (cfg : ptx_oven_config_t) (s : Oven)
    (m1 m2 vref_mv signal_mv : Nat)
    (hst : (ptx_oven_control_update cfg
      { millis := m1, vref_mv := vref_mv, signal_mv := signal_mv } s).pti_status.state =
        s.pti_status.state)
    (_hgas : (ptx_oven_control_update cfg
      { millis := m1, vref_mv := vref_mv, signal_mv := signal_mv } s).pti_status.gas_on =
        s.pti_status.gas_on)
    (_hign : (ptx_oven_control_update cfg
      { millis := m1, vref_mv := vref_mv, signal_mv := signal_mv } s).pti_status.igniter_on =
        s.pti_status.igniter_on)
    (hnot : s.pti_status.state ≠ PTX_HEATING_STATE_IGNITING) :
    (ptx_oven_control_update cfg
      { millis := m1, vref_mv := vref_mv, signal_mv := signal_mv } s).pti_status.door_open =
        s.pti_status.door_open ∧
    (ptx_oven_control_update cfg { millis := m2, vref_mv := vref_mv, signal_mv := signal_mv }
      (ptx_oven_control_update cfg
        { millis := m1, vref_mv := vref_mv, signal_mv := signal_mv } s)).pti_status.state =
      (ptx_oven_control_update cfg
        { millis := m1, vref_mv := vref_mv, signal_mv := signal_mv } s).pti_status.state ∧
    (ptx_oven_control_update cfg { millis := m2, vref_mv := vref_mv, signal_mv := signal_mv }
      (ptx_oven_control_update cfg
        { millis := m1, vref_mv := vref_mv, signal_mv := signal_mv } s)).pti_status.gas_on =
      (ptx_oven_control_update cfg
        { millis := m1, vref_mv := vref_mv, signal_mv := signal_mv } s).pti_status.gas_on ∧
    (ptx_oven_control_update cfg { millis := m2, vref_mv := vref_mv, signal_mv := signal_mv }
      (ptx_oven_control_update cfg
        { millis := m1, vref_mv := vref_mv, signal_mv := signal_mv } s)).pti_status.igniter_on =
      (ptx_oven_control_update cfg
        { millis := m1, vref_mv := vref_mv, signal_mv := signal_mv } s).pti_status.igniter_on ∧
    (ptx_oven_control_update cfg { millis := m2, vref_mv := vref_mv, signal_mv := signal_mv }
      (ptx_oven_control_update cfg
        { millis := m1, vref_mv := vref_mv, signal_mv := signal_mv } s)).pti_ignition_attempt =
      (ptx_oven_control_update cfg
        { millis := m1, vref_mv := vref_mv, signal_mv := signal_mv } s).pti_ignition_attempt ∧
    (ptx_oven_control_update cfg { millis := m2, vref_mv := vref_mv, signal_mv := signal_mv }
      (ptx_oven_control_update cfg
        { millis := m1, vref_mv := vref_mv, signal_mv := signal_mv }
          s)).pti_status.ignition_attempt =
      (ptx_oven_control_update cfg
        { millis := m1, vref_mv := vref_mv, signal_mv := signal_mv }
          s).pti_status.ignition_attempt := by
  generalize hi1 : ({ millis := m1, vref_mv := vref_mv, signal_mv := signal_mv } : TickInput) = i1
    at *
  generalize hi2 : ({ millis := m2, vref_mv := vref_mv, signal_mv := signal_mv } : TickInput) = i2
  have hv : i2.vref_mv = i1.vref_mv := by rw [← hi1, ← hi2]
  have hsg : i2.signal_mv = i1.signal_mv := by rw [← hi1, ← hi2]
  -- first tick
  obtain ⟨c1s, c1g, c1i, c1a, c1c⟩ := update_core cfg i1 s
  have hdoor1 := update_door cfg i1 s
  -- second tick, started from the result of the first
  obtain ⟨c2s, c2g, c2i, c2a, c2c⟩ := update_core cfg i2 (ptx_oven_control_update cfg i1 s)
  have t2d : (sensed cfg i2 (ptx_oven_control_update cfg i1 s)).pti_status.door_open =
      (sensed cfg i1 s).pti_status.door_open := by
    rw [sensed_door, sensed_door, hdoor1]
  have t2f : (sensed cfg i2 (ptx_oven_control_update cfg i1 s)).pti_status.sensor_fault =
      (sensed cfg i1 s).pti_status.sensor_fault := by
    rw [sensed_sensor_fault, sensed_sensor_fault, hv, hsg]
  have t2T : (sensed cfg i2 (ptx_oven_control_update cfg i1 s)).pti_status.temperature_c =
      (sensed cfg i1 s).pti_status.temperature_c := by
    rw [sensed_temperature, sensed_temperature, hv, hsg]
  have t2s := sensed_state cfg i2 (ptx_oven_control_update cfg i1 s)
  have t2g := sensed_gas cfg i2 (ptx_oven_control_update cfg i1 s)
  have t2i := sensed_igniter cfg i2 (ptx_oven_control_update cfg i1 s)
  have t2a := sensed_attempt cfg i2 (ptx_oven_control_update cfg i1 s)
  have t1s := sensed_state cfg i1 s
  refine ⟨hdoor1, ?_⟩
  rw [c2s, c2g, c2i, c2a, c2c, c1c, ← c1a]
  by_cases hov : (sensed cfg i1 s).pti_status.door_open = true ∨
      (sensed cfg i1 s).pti_status.sensor_fault = true
  · have hov2 : (sensed cfg i2 (ptx_oven_control_update cfg i1 s)).pti_status.door_open = true ∨
        (sensed cfg i2 (ptx_oven_control_update cfg i1 s)).pti_status.sensor_fault = true := by
      rw [t2d, t2f]
      exact hov
    rw [heating_override cfg _ _ hov2, c1s, c1g, c1i, c1a, heating_override cfg _ _ hov]
    exact ⟨rfl, rfl, rfl, rfl, rfl⟩
  · have hd : (sensed cfg i1 s).pti_status.door_open = false := by
      cases hdo : (sensed cfg i1 s).pti_status.door_open
      · rfl
      · exact absurd (Or.inl hdo) hov
    have hf : (sensed cfg i1 s).pti_status.sensor_fault = false := by
      cases hsf : (sensed cfg i1 s).pti_status.sensor_fault
      · rfl
      · exact absurd (Or.inr hsf) hov
    have hd2 := t2d.trans hd
    have hf2 := t2f.trans hf
    -- the state seen by the second decision is the state before the first tick
    have hs2 : (sensed cfg i2 (ptx_oven_control_update cfg i1 s)).pti_status.state =
        s.pti_status.state := t2s.trans hst
    by_cases e0 : s.pti_status.state = PTX_HEATING_STATE_IDLE
    · have hT : ¬ (sensed cfg i1 s).pti_status.temperature_c ≤
          round_binary32 (cfg.temp_target_c - cfg.temp_delta_c) := by
        intro hle
        have hstep := heating_idle_start cfg (i1.millis % 4294967296) _ hd hf (t1s.trans e0) hle
        rw [c1s, hstep, e0] at hst
        have hne : PTX_HEATING_STATE_IGNITING = PTX_HEATING_STATE_IDLE := hst
        exact absurd hne (by decide)
      rw [heating_idle_wait cfg _ _ hd2 hf2 (hs2.trans e0) (by rw [t2T]; exact hT)]
      exact ⟨t2s, t2g, t2i, t2a, t2a⟩
    · by_cases e2 : s.pti_status.state = PTX_HEATING_STATE_HEATING
      · have hT : ¬ (sensed cfg i1 s).pti_status.temperature_c ≥
            round_binary32 (cfg.temp_target_c + cfg.temp_delta_c) := by
          intro hge
          have hstep := heating_heating_off cfg (i1.millis % 4294967296) _ hd hf
            (t1s.trans e2) hge
          rw [c1s, hstep, e2] at hst
          have hne : PTX_HEATING_STATE_IDLE = PTX_HEATING_STATE_HEATING := hst
          exact absurd hne (by decide)
        rw [heating_heating_keep cfg _ _ hd2 hf2 (hs2.trans e2) (by rw [t2T]; exact hT)]
        exact ⟨t2s, t2g, t2i, t2a, t2a⟩
      · by_cases e3 : s.pti_status.state = PTX_HEATING_STATE_LOCKOUT
        · rw [heating_lockout cfg _ _ hd2 hf2 (hs2.trans e3)]
          exact ⟨t2s, t2g, t2i, t2a, t2a⟩
        · rw [heating_invalid cfg _ _ hd2 hf2 (by rw [hs2]; exact e0) (by rw [hs2]; exact hnot)
            (by rw [hs2]; exact e2) (by rw [hs2]; exact e3)]
          exact ⟨t2s, t2g, t2i, t2a, t2a⟩


/-! ## The claims C11 to C20 at concrete inputs -/

theorem oven_idle_186_facts :
    (ptx_oven_control_update pti_oven_config tick_186_0 oven_idle).pti_status.state =
      PTX_HEATING_STATE_IDLE ∧
    (ptx_oven_control_update pti_oven_config tick_186_0 oven_idle).pti_status.gas_on = false ∧
    (ptx_oven_control_update pti_oven_config tick_186_0 oven_idle).pti_status.igniter_on
      = false := by
  norm_num [oven_idle, tick_186_0, ptx_oven_control_update, ptx_oven_control_init,
    oven_boot, pti_oven_config, ptx_eval_sensor_faults_with_timing, ptx_update_heating,
    ptx_apply_outputs, ptx_oven_run_log, ptx_compute_temperature, quotient_5000_2694,
    linear_5000_2694, quotient_5000_3029, linear_5000_3029, round_binary32_175,
    round_binary32_185, round_binary32_300,
    ptx_sensor_filter_read_and_update, ptx_sensor_filter_update, ptx_read_door_open, u32_sub,
    u8_incr, FAST_BLINK_MS, SLOW_BLINK_MS]

/-- Instance of C12: an idle oven at 186 °C stays as it is on two successive ticks. -/
theorem C12_stable_tick_idempotent_witness :
    (ptx_oven_control_update pti_oven_config tick_186_0 oven_idle).pti_status.state =
      oven_idle.pti_status.state ∧
    oven_idle.pti_status.state ≠ PTX_HEATING_STATE_IGNITING ∧
    (ptx_oven_control_update pti_oven_config tick_186_700
      (ptx_oven_control_update pti_oven_config tick_186_0 oven_idle)).pti_status.state =
      PTX_HEATING_STATE_IDLE ∧
    (ptx_oven_control_update pti_oven_config tick_186_700
      (ptx_oven_control_update pti_oven_config tick_186_0 oven_idle)).pti_status.gas_on = false ∧
    (ptx_oven_control_update pti_oven_config tick_186_700
      (ptx_oven_control_update pti_oven_config tick_186_0 oven_idle)).pti_status.igniter_on
      = false ∧
    (ptx_oven_control_update pti_oven_config tick_186_700
      (ptx_oven_control_update pti_oven_config tick_186_0 oven_idle)).pti_ignition_attempt =
      (ptx_oven_control_update pti_oven_config tick_186_0 oven_idle).pti_ignition_attempt := by
  obtain ⟨f1, f2, f3⟩ := oven_idle_186_facts
  have hne : oven_idle.pti_status.state ≠ PTX_HEATING_STATE_IGNITING := by
    show PTX_HEATING_STATE_IDLE ≠ PTX_HEATING_STATE_IGNITING
    decide
  obtain ⟨_, r1, r2, r3, r4, _⟩ :=
    C12_stable_tick_idempotent pti_oven_config oven_idle 0 700 5000 3029 f1 f2 f3 hne
  exact ⟨f1, hne, r1.trans f1, r2.trans f2, r3.trans f3, r4⟩

/-- Instance of C13: the heating oven of scenario B is in a run and is not locked out. -/
theorem C13_lockout_never_entered_witness :
    Reachable oven_heating ∧
    ((oven_heating.pti_status.state = PTX_HEATING_STATE_IDLE ∨
        oven_heating.pti_status.state = PTX_HEATING_STATE_IGNITING ∨
        oven_heating.pti_status.state = PTX_HEATING_STATE_HEATING) ∧
      oven_heating.pti_status.state ≠ PTX_HEATING_STATE_LOCKOUT ∧
      oven_heating.pti_status.ignition_lockout = false) :=
  have hrun : Reachable oven_heating :=
    Reachable.update pti_oven_config tick_160_5000 oven_igniting
      (Reachable.update pti_oven_config tick_160 oven_idle (Reachable.init oven_boot))
  ⟨hrun, C13_lockout_never_entered oven_heating hrun⟩

/-- Instance of C15: with the door open and the last toggle at 0 ms, a tick at 500 ms inverts
the LED level and records the toggle time. -/
theorem C15_led_blink_rule_witness :
    (ptx_oven_control_update pti_oven_config tick_160_5000
      (ptx_oven_set_door_state true oven_idle)).sys_led_status = true ∧
    (ptx_oven_control_update pti_oven_config tick_160_5000
      (ptx_oven_set_door_state true oven_idle)).sys_led_last_toggle_ms = 5000 := by
  have hd : (ptx_oven_control_update pti_oven_config tick_160_5000
      (ptx_oven_set_door_state true oven_idle)).pti_status.door_open = true :=
    (update_door pti_oven_config tick_160_5000 (ptx_oven_set_door_state true oven_idle)).trans rfl
  obtain ⟨a1, _, a3⟩ := (C15_led_blink_rule pti_oven_config tick_160_5000
    (ptx_oven_set_door_state true oven_idle)).2.2.1 (by
      rw [hd]
      norm_num [tick_160_5000, ptx_oven_set_door_state, oven_idle, ptx_oven_control_init,
        oven_boot])
  exact ⟨a1, a3⟩

/-- Instance of C16 as amended: a sequence of in-range calls, one of them an ignored attempt
count of 9, ends in a configuration that satisfies the three conditions. -/
theorem C16_config_invariant_amended_witness :
    (config_after [ConfigCall.set_temp_delta_c 2, ConfigCall.set_vref_range_v 4 6,
        ConfigCall.set_max_ignition_attempts 9, ConfigCall.set_ignition_duration_ms 0]).vref_min_v <
      (config_after [ConfigCall.set_temp_delta_c 2, ConfigCall.set_vref_range_v 4 6,
        ConfigCall.set_max_ignition_attempts 9, ConfigCall.set_ignition_duration_ms 0]).vref_max_v ∧
    0 ≤ (config_after [ConfigCall.set_temp_delta_c 2, ConfigCall.set_vref_range_v 4 6,
        ConfigCall.set_max_ignition_attempts 9,
        ConfigCall.set_ignition_duration_ms 0]).temp_delta_c ∧
    1 ≤ (config_after [ConfigCall.set_temp_delta_c 2, ConfigCall.set_vref_range_v 4 6,
        ConfigCall.set_max_ignition_attempts 9,
        ConfigCall.set_ignition_duration_ms 0]).max_ignition_attempts ∧
    (config_after [ConfigCall.set_temp_delta_c 2, ConfigCall.set_vref_range_v 4 6,
        ConfigCall.set_max_ignition_attempts 9,
        ConfigCall.set_ignition_duration_ms 0]).max_ignition_attempts ≤ 5 :=
  C16_config_invariant_amended _ (by
    intro k hk
    simp only [List.mem_cons, List.mem_singleton, List.not_mem_nil, or_false] at hk
    rcases hk with h | h | h | h <;> subst h <;> norm_num [ConfigCall.args_in_range])

/-- Instance of C20: the igniting oven of scenario A has gas on, igniter on and counter 1. -/
theorem C20_state_output_consistency_witness :
    Reachable oven_igniting ∧
    oven_igniting.pti_status.gas_on = true ∧ oven_igniting.pti_status.igniter_on = true ∧
    oven_igniting.pti_ignition_attempt = 1 ∧
    oven_igniting.pti_status.ignition_attempt = 1 := by
  have hrun : Reachable oven_igniting :=
    Reachable.update pti_oven_config tick_160 oven_idle (Reachable.init oven_boot)
  obtain ⟨_, h1, _, hcopy⟩ := C20_state_output_consistency oven_igniting hrun
  obtain ⟨g, i, a⟩ := h1 oven_igniting_facts.1
  exact ⟨hrun, g, i, a, hcopy.trans a⟩


/-! ## Temperature map: bounds and monotonicity -/

theorem temperature_ge (vref_mv signal_mv : ℚ) :
    -10 ≤ ptx_compute_temperature vref_mv signal_mv := by
  unfold ptx_compute_temperature
  dsimp only
  split_ifs with h1 h2
  · exact le_refl _
  · norm_num
  · have hlo : 0.10 * vref_mv < signal_mv := not_le.mp h1
    have hhi : signal_mv < 0.90 * vref_mv := not_le.mp h2
    have hv : 0 < vref_mv := by linarith
    have hx : (1 / 10 : ℚ) ≤ signal_mv / vref_mv := by
      rw [le_div_iff₀ hv]
      linarith
    have hq := round_binary32_mono hx
    rw [round_binary32_tenth] at hq
    have hy : (-10 : ℚ) ≤ 387.5 * round_binary32 (signal_mv / vref_mv) - 48.75 := by
      linarith
    have hr := round_binary32_mono hy
    rw [round_binary32_neg_ten] at hr
    exact hr

theorem temperature_le (vref_mv signal_mv : ℚ) :
    ptx_compute_temperature vref_mv signal_mv ≤ 300 := by
  unfold ptx_compute_temperature
  dsimp only
  split_ifs with h1 h2
  · norm_num
  · exact le_refl _
  · have hlo : 0.10 * vref_mv < signal_mv := not_le.mp h1
    have hhi : signal_mv < 0.90 * vref_mv := not_le.mp h2
    have hv : 0 < vref_mv := by linarith
    have hx : signal_mv / vref_mv ≤ (9 / 10 : ℚ) := by
      rw [div_le_iff₀ hv]
      linarith
    have hq := round_binary32_mono hx
    rw [round_binary32_nine_tenths] at hq
    have hy : 387.5 * round_binary32 (signal_mv / vref_mv) - 48.75 ≤ (300 : ℚ) := by
      linarith
    have hr := round_binary32_mono hy
    rw [round_binary32_300] at hr
    exact hr

/-! ## What the decision depends on -/

/-- The state, gas and igniter commands chosen by the heating decision depend only on the door
flag, the aggregate fault flag, the state, the temperature, the two commands, the ignition-start
time and the three configuration fields `temp_target_c`, `temp_delta_c`,
`ignition_duration_ms`. -/
theorem heating_core_congr (c1 c2 : ptx_oven_config_t) (now : Nat) (t1 t2 : Oven)
    (hd : t1.pti_status.door_open = t2.pti_status.door_open)
    (hf : t1.pti_status.sensor_fault = t2.pti_status.sensor_fault)
    (hs : t1.pti_status.state = t2.pti_status.state)
    (hT : t1.pti_status.temperature_c = t2.pti_status.temperature_c)
    (hg : t1.pti_status.gas_on = t2.pti_status.gas_on)
    (hi : t1.pti_status.igniter_on = t2.pti_status.igniter_on)
    (hstart : t1.pti_ignition_start_ms = t2.pti_ignition_start_ms)
    (htarget : c1.temp_target_c = c2.temp_target_c)
    (hdelta : c1.temp_delta_c = c2.temp_delta_c)
    (hdur : c1.ignition_duration_ms = c2.ignition_duration_ms) :
    (ptx_update_heating c1 now t1).pti_status.state =
      (ptx_update_heating c2 now t2).pti_status.state ∧
    (ptx_update_heating c1 now t1).pti_status.gas_on =
      (ptx_update_heating c2 now t2).pti_status.gas_on ∧
    (ptx_update_heating c1 now t1).pti_status.igniter_on =
      (ptx_update_heating c2 now t2).pti_status.igniter_on := by
  unfold ptx_update_heating
  simp only [hd, hf, hs, hT, hstart, htarget, hdelta, hdur]
  split_ifs <;> exact ⟨by first | rfl | exact hs, by first | rfl | exact hg,
    by first | rfl | exact hi⟩

/-- The whole status and the attempt counter after the heating decision depend only on the
status, the attempt counter, the ignition-start time and the same three configuration fields. -/
theorem heating_status_congr (c1 c2 : ptx_oven_config_t) (now : Nat) (t1 t2 : Oven)
    (hst : t1.pti_status = t2.pti_status)
    (hatt : t1.pti_ignition_attempt = t2.pti_ignition_attempt)
    (hstart : t1.pti_ignition_start_ms = t2.pti_ignition_start_ms)
    (htarget : c1.temp_target_c = c2.temp_target_c)
    (hdelta : c1.temp_delta_c = c2.temp_delta_c)
    (hdur : c1.ignition_duration_ms = c2.ignition_duration_ms) :
    (ptx_update_heating c1 now t1).pti_status = (ptx_update_heating c2 now t2).pti_status ∧
    (ptx_update_heating c1 now t1).pti_ignition_attempt =
      (ptx_update_heating c2 now t2).pti_ignition_attempt := by
  unfold ptx_update_heating
  simp only [hst, hatt, hstart, htarget, hdelta, hdur]
  split_ifs <;> exact ⟨by first | rfl | exact hst, by first | rfl | exact hatt⟩

/-- The sensed status depends only on the prior status, the reading and the reference range. -/
theorem sensed_status_congr (c1 c2 : ptx_oven_config_t) (inp : TickInput) (s1 s2 : Oven)
    (hst : s1.pti_status = s2.pti_status)
    (hmin : c1.vref_min_v = c2.vref_min_v) (hmax : c1.vref_max_v = c2.vref_max_v) :
    (sensed c1 inp s1).pti_status = (sensed c2 inp s2).pti_status := by
  unfold sensed ptx_eval_sensor_faults_with_timing ptx_read_door_open
  simp only [hst, hmin, hmax]
  split_ifs <;> rfl

/-! ## Claims C21 to C30 -/

/-- Claim C23 (wraparound-safe ignition timer). For every ignition-start time `s` of the 32-bit
clock and every true elapsed time `d` below `2^32`, with the tick's clock value `now = (s + d) mod 2^32`
(so possibly `now < s`): the expiry test `(now - s) mod 2^32 >= ignition_duration_ms` of the
Igniting state holds iff `d >= ignition_duration_ms`; accordingly a tick that begins in Igniting
with the door closed and a valid reading ends in Heating iff `d >= ignition_duration_ms`. -/
theorem C23_wraparound_safe_timer (cfg : ptx_oven_config_t) (inp : TickInput) (s : Oven)
    (d : Nat) (hd : d < 4294967296)
    (hnow : inp.millis % 4294967296 = (s.pti_ignition_start_ms + d) % 4294967296) :
    u32_sub (inp.millis % 4294967296) s.pti_ignition_start_ms = d ∧
    (u32_sub (inp.millis % 4294967296) s.pti_ignition_start_ms ≥ cfg.ignition_duration_ms ↔
      d ≥ cfg.ignition_duration_ms) ∧
    (s.pti_status.state = PTX_HEATING_STATE_IGNITING → s.pti_status.door_open = false →
      cfg.vref_min_v ≤ (inp.vref_mv : ℚ) / 1000 → (inp.vref_mv : ℚ) / 1000 ≤ cfg.vref_max_v →
      0.10 * (inp.vref_mv : ℚ) ≤ (inp.signal_mv : ℚ) →
      (inp.signal_mv : ℚ) ≤ 0.90 * (inp.vref_mv : ℚ) →
      ((ptx_oven_control_update cfg inp s).pti_status.state = PTX_HEATING_STATE_HEATING ↔
        d ≥ cfg.ignition_duration_ms)) := by
  have hsub : u32_sub (inp.millis % 4294967296) s.pti_ignition_start_ms = d := by
    unfold u32_sub
    omega
  refine ⟨hsub, by rw [hsub], ?_⟩
  intro hst hdoor hv1 hv2 hs1 hs2
  have hdd := (sensed_door cfg inp s).trans hdoor
  have hf := sensed_fault_of_valid cfg inp s hv1 hv2 hs1 hs2
  have hss := (sensed_state cfg inp s).trans hst
  have hel : u32_sub (inp.millis % 4294967296) (sensed cfg inp s).pti_ignition_start_ms = d := by
    rw [sensed_start]
    exact hsub
  by_cases hge : d ≥ cfg.ignition_duration_ms
  · have hstep := heating_igniting_done cfg (inp.millis % 4294967296) _ hdd hf hss
      (by rw [hel]; exact hge)
    rw [update_status, hstep]
    exact ⟨fun _ => hge, fun _ => rfl⟩
  · have hstep := heating_igniting_wait cfg (inp.millis % 4294967296) _ hdd hf hss
      (by rw [hel]; exact hge)
    rw [update_status, hstep]
    constructor
    · intro h
      have h2 : (sensed cfg inp s).pti_status.state = PTX_HEATING_STATE_HEATING := h
      rw [hss] at h2
      exact absurd h2 (by decide)
    · intro h
      exact absurd h hge

/-- Claim C24 (temperature is total and bounded). For every pair of arguments, in particular
every pair of 16-bit readings and `vref_mv = 0`, `ptx_compute_temperature` returns a value in
`[-10, 300]`; the branch that divides by `vref_mv` is reached only when `vref_mv > 0`; for
`vref_mv = 0` a reading of 0 returns -10 and any other reading returns 300; and the temperature
stored in the status by a tick lies in `[-10, 300]`. -/
theorem C24_temperature_total_bounded (vref_mv signal_mv : ℚ) :
    (-10 ≤ ptx_compute_temperature vref_mv signal_mv ∧
      ptx_compute_temperature vref_mv signal_mv ≤ 300) ∧
    (¬ signal_mv ≤ 0.10 * vref_mv → ¬ signal_mv ≥ 0.90 * vref_mv → 0 < vref_mv) ∧
    (∀ sg : Nat, ptx_compute_temperature 0 (sg : ℚ) = if sg = 0 then -10 else 300) ∧
    (∀ (cfg : ptx_oven_config_t) (inp : TickInput) (s : Oven),
      -10 ≤ (ptx_oven_control_update cfg inp s).pti_status.temperature_c ∧
      (ptx_oven_control_update cfg inp s).pti_status.temperature_c ≤ 300) := by
  refine ⟨⟨temperature_ge _ _, temperature_le _ _⟩, ?_, ?_, ?_⟩
  · intro h1 h2
    have hlo : 0.10 * vref_mv < signal_mv := not_le.mp h1
    have hhi : signal_mv < 0.90 * vref_mv := not_le.mp h2
    linarith
  · intro sg
    unfold ptx_compute_temperature
    by_cases h0 : sg = 0
    · subst h0
      norm_num
    · have hpos : (0 : ℚ) < (sg : ℚ) := by
        exact_mod_cast Nat.pos_of_ne_zero h0
      have h1 : ¬ ((sg : ℚ) ≤ 0.10 * 0) := by
        rw [mul_zero]
        exact not_le.mpr hpos
      have h2 : (sg : ℚ) ≥ 0.90 * 0 := by
        rw [mul_zero]
        exact le_of_lt hpos
      simp only [if_neg h1, if_pos h2, if_neg h0]
  · intro cfg inp s
    have hT : (ptx_oven_control_update cfg inp s).pti_status.temperature_c =
        ptx_compute_temperature (inp.vref_mv : ℚ) (inp.signal_mv : ℚ) := by
      rw [update_status]
      exact (heating_temperature cfg _ _).trans (sensed_temperature cfg inp s)
    rw [hT]
    exact ⟨temperature_ge _ _, temperature_le _ _⟩

/-- Claim C25 (monotone, continuous at the saturation points). For every `vref_mv > 0`: the
linear formula `387.5*(signal_mv/vref_mv) - 48.75` gives exactly -10 at `signal_mv = 0.10*vref_mv`
and exactly 300 at `signal_mv = 0.90*vref_mv`, which are the values `ptx_compute_temperature`
returns there; and for all `s1 <= s2`,
`ptx_compute_temperature(vref_mv, s1) <= ptx_compute_temperature(vref_mv, s2)`. -/
theorem C25_temperature_monotone (vref_mv : ℚ) (hv : 0 < vref_mv) :
    387.5 * (0.10 * vref_mv / vref_mv) - 48.75 = (-10 : ℚ) ∧
    387.5 * (0.90 * vref_mv / vref_mv) - 48.75 = (300 : ℚ) ∧
    ptx_compute_temperature vref_mv (0.10 * vref_mv) = -10 ∧
    ptx_compute_temperature vref_mv (0.90 * vref_mv) = 300 ∧
    (∀ s1 s2 : ℚ, s1 ≤ s2 →
      ptx_compute_temperature vref_mv s1 ≤ ptx_compute_temperature vref_mv s2) := by
  have hne : vref_mv ≠ 0 := ne_of_gt hv
  refine ⟨?_, ?_, ?_, ?_, ?_⟩
  · rw [mul_div_assoc, div_self hne]
    norm_num
  · rw [mul_div_assoc, div_self hne]
    norm_num
  · unfold ptx_compute_temperature
    simp only [le_refl, if_true]
  · unfold ptx_compute_temperature
    have h1 : ¬ (0.90 * vref_mv ≤ 0.10 * vref_mv) := by
      intro h
      linarith
    simp only [if_neg h1, ge_iff_le, le_refl, if_true]
  · intro s1 s2 h12
    by_cases a1 : s1 ≤ 0.10 * vref_mv
    · have e1 : ptx_compute_temperature vref_mv s1 = -10 := by
        unfold ptx_compute_temperature
        simp only [if_pos a1]
      rw [e1]
      exact temperature_ge _ _
    · by_cases b2 : s2 ≥ 0.90 * vref_mv
      · have a2 : ¬ s2 ≤ 0.10 * vref_mv := by
          intro h
          linarith
        have e2 : ptx_compute_temperature vref_mv s2 = 300 := by
          unfold ptx_compute_temperature
          simp only [if_neg a2, if_pos b2]
        rw [e2]
        exact temperature_le _ _
      · have a2 : ¬ s2 ≤ 0.10 * vref_mv := by
          intro h
          exact a1 (le_trans h12 h)
        have b1 : ¬ s1 ≥ 0.90 * vref_mv := by
          intro h
          exact b2 (le_trans h h12)
        have e1 : ptx_compute_temperature vref_mv s1 =
            round_binary32 (387.5 * round_binary32 (s1 / vref_mv) - 48.75) := by
          unfold ptx_compute_temperature
          simp only [if_neg a1, if_neg b1]
        have e2 : ptx_compute_temperature vref_mv s2 =
            round_binary32 (387.5 * round_binary32 (s2 / vref_mv) - 48.75) := by
          unfold ptx_compute_temperature
          simp only [if_neg a2, if_neg b2]
        rw [e1, e2]
        have hdiv : s1 / vref_mv ≤ s2 / vref_mv := div_le_div_of_nonneg_right h12 (le_of_lt hv)
        have hq := round_binary32_mono hdiv
        apply round_binary32_mono
        linarith


/-- Claim C26 (`mv_for_temp` inverts the temperature map). For every `vref_mv` in `[4500, 5500]`
and every `t` in `[-10, 300]`: the value of `mv_for_temp` is
`s = floor(((t + 10)/310)*(0.80*vref_mv) + 0.10*vref_mv + 0.5)`;
`ptx_compute_temperature(vref_mv, s)` differs from `t` by at most `387.5/(2*vref_mv)`, which is
less than 0.05; and for every `vref_mv != 0` the disabled formula
`-10 + ((signal_mv - 0.10*vref_mv)/(0.80*vref_mv))*310` equals the active formula
`387.5*(signal_mv/vref_mv) - 48.75`. All in exact arithmetic
(`ptx_compute_temperature_exact` is the temperature map evaluated without rounding); the
binary32 value that `ptx_compute_temperature` returns for `s` is within `2^-15` of the exact one,
hence within `387.5/(2*vref_mv) + 2^-15` of `t`. -/
theorem C26_mv_for_temp_inverse (vref_mv t : ℚ)
    (hv1 : 4500 ≤ vref_mv) (hv2 : vref_mv ≤ 5500) (ht1 : -10 ≤ t) (ht2 : t ≤ 300) :
    ((mv_for_temp vref_mv t : ℤ) =
      ⌊((t + 10) / 310) * (0.80 * vref_mv) + 0.10 * vref_mv + 0.5⌋) ∧
    |ptx_compute_temperature_exact vref_mv (mv_for_temp vref_mv t : ℚ) - t| ≤
      387.5 / (2 * vref_mv) ∧
    387.5 / (2 * vref_mv) < (0.05 : ℚ) ∧
    (∀ v sg : ℚ, v ≠ 0 →
      -10 + ((sg - 0.10 * v) / (0.80 * v)) * 310 = 387.5 * (sg / v) - 48.75) ∧
    |ptx_compute_temperature vref_mv (mv_for_temp vref_mv t : ℚ) - t| ≤
      387.5 / (2 * vref_mv) + 1 / 32768 := by
  have hv : 0 < vref_mv := by linarith
  have hne : vref_mv ≠ 0 := ne_of_gt hv
  -- the real-valued signal before rounding
  obtain ⟨val, hval⟩ : ∃ val : ℚ, val = ((t + 10) / 310) * (0.80 * vref_mv) + 0.10 * vref_mv :=
    ⟨_, rfl⟩
  have hp1 : 0 ≤ (t + 10) * vref_mv := mul_nonneg (by linarith) (le_of_lt hv)
  have hp2 : 0 ≤ (300 - t) * vref_mv := mul_nonneg (by linarith) (le_of_lt hv)
  have hval_lo : 0.10 * vref_mv ≤ val := by
    rw [hval]
    nlinarith
  have hval_hi : val ≤ 0.90 * vref_mv := by
    rw [hval]
    nlinarith
  have hnn : 0 ≤ val + 0.5 := by linarith
  have hfl1 : ((⌊val + 0.5⌋₊ : ℕ) : ℚ) ≤ val + 0.5 := Nat.floor_le hnn
  have hfl2 : val + 0.5 < ((⌊val + 0.5⌋₊ : ℕ) : ℚ) + 1 := Nat.lt_floor_add_one _
  have hsmall : ⌊val + 0.5⌋₊ < 65536 := by
    have h : ((⌊val + 0.5⌋₊ : ℕ) : ℚ) < (65536 : ℕ) := by
      push_cast
      linarith
    exact_mod_cast h
  have hmv : mv_for_temp vref_mv t = ⌊val + 0.5⌋₊ := by
    unfold mv_for_temp
    dsimp only
    have e : ((t + 10.0) / 310.0) * (0.80 * vref_mv) + 0.10 * vref_mv = val := by
      rw [hval]
      norm_num
    rw [e]
    exact Nat.mod_eq_of_lt hsmall
  have hinv : 387.5 * (val / vref_mv) - 48.75 = t := by
    rw [hval]
    field_simp
    ring
  have hmain : |ptx_compute_temperature_exact vref_mv (mv_for_temp vref_mv t : ℚ) - t| ≤
      387.5 / (2 * vref_mv) := by
    rw [hmv]
    have hB : (387.5 : ℚ) / (2 * vref_mv) = 387.5 * ((1 / 2) / vref_mv) := by
      field_simp
    generalize hsdef : ((⌊val + 0.5⌋₊ : ℕ) : ℚ) = sgl at hfl1 hfl2
    rw [abs_le]
    unfold ptx_compute_temperature_exact
    dsimp only
    split_ifs with h1 h2
    · -- clamped at the floor
      have hB' : (t + 10) ≤ 387.5 / (2 * vref_mv) := by
        rw [le_div_iff₀ (by linarith)]
        rw [hval] at hfl2
        nlinarith
      constructor <;> linarith
    · -- clamped at the ceiling
      have hB' : (300 - t) ≤ 387.5 / (2 * vref_mv) := by
        rw [le_div_iff₀ (by linarith)]
        rw [hval] at hfl1
        nlinarith
      constructor <;> linarith
    · -- linear part
      have hdiff : 387.5 * (sgl / vref_mv) - 48.75 - t =
          387.5 * ((sgl - val) / vref_mv) := by
        rw [← hinv]
        field_simp
        ring
      have hup : (sgl - val) / vref_mv ≤ (1 / 2) / vref_mv :=
        div_le_div_of_nonneg_right (by linarith) (le_of_lt hv)
      have hdn : (-(1 / 2)) / vref_mv ≤ (sgl - val) / vref_mv :=
        div_le_div_of_nonneg_right (by linarith) (le_of_lt hv)
      have hneg : (-(1 / 2 : ℚ)) / vref_mv = -((1 / 2) / vref_mv) := neg_div _ _
      rw [hdiff, hB]
      constructor <;> linarith
  refine ⟨?_, hmain, ?_, ?_, ?_⟩
  · rw [hmv, ← hval]
    exact Int.natCast_floor_eq_floor hnn
  · rw [div_lt_iff₀ (by linarith)]
    linarith
  · intro v sg hv0
    field_simp
    ring
  · have herr := temperature_rounding_error vref_mv (mv_for_temp vref_mv t : ℚ)
    have htri := abs_sub_le (ptx_compute_temperature vref_mv (mv_for_temp vref_mv t : ℚ))
      (ptx_compute_temperature_exact vref_mv (mv_for_temp vref_mv t : ℚ)) t
    exact le_trans htri (le_trans (le_of_eq (add_comm _ _)) (add_le_add hmain herr))


/-- Claim C27 (unused debounce and retry parameters). For any two runs of one tick with the same
reading and clock value whose prior states agree on heating state, gas command, igniter command,
door flag and ignition-start time, and whose configurations agree on `ignition_duration_ms`,
`vref_min_v`, `vref_max_v`, `temp_target_c` and `temp_delta_c`: the resulting state, gas command,
igniter command, fault flags and temperature are equal, whatever `sensor_fault_window_ms`,
`auto_resume_delay_ms`, `max_ignition_attempts`, the prior attempt counter and the
`ignition_lockout` flag are in either run. -/
theorem C27_unused_parameters (c1 c2 : ptx_oven_config_t) (inp : TickInput) (s1 s2 : Oven)
    (hdur : c1.ignition_duration_ms = c2.ignition_duration_ms)
    (hmin : c1.vref_min_v = c2.vref_min_v) (hmax : c1.vref_max_v = c2.vref_max_v)
    (htarget : c1.temp_target_c = c2.temp_target_c)
    (hdelta : c1.temp_delta_c = c2.temp_delta_c)
    (hstate : s1.pti_status.state = s2.pti_status.state)
    (hgas : s1.pti_status.gas_on = s2.pti_status.gas_on)
    (hign : s1.pti_status.igniter_on = s2.pti_status.igniter_on)
    (hdoor : s1.pti_status.door_open = s2.pti_status.door_open)
    (hstart : s1.pti_ignition_start_ms = s2.pti_ignition_start_ms) :
    (ptx_oven_control_update c1 inp s1).pti_status.state =
      (ptx_oven_control_update c2 inp s2).pti_status.state ∧
    (ptx_oven_control_update c1 inp s1).pti_status.gas_on =
      (ptx_oven_control_update c2 inp s2).pti_status.gas_on ∧
    (ptx_oven_control_update c1 inp s1).pti_status.igniter_on =
      (ptx_oven_control_update c2 inp s2).pti_status.igniter_on ∧
    (ptx_oven_control_update c1 inp s1).pti_status.vref_fault =
      (ptx_oven_control_update c2 inp s2).pti_status.vref_fault ∧
    (ptx_oven_control_update c1 inp s1).pti_status.signal_fault =
      (ptx_oven_control_update c2 inp s2).pti_status.signal_fault ∧
    (ptx_oven_control_update c1 inp s1).pti_status.sensor_fault =
      (ptx_oven_control_update c2 inp s2).pti_status.sensor_fault ∧
    (ptx_oven_control_update c1 inp s1).pti_status.temperature_c =
      (ptx_oven_control_update c2 inp s2).pti_status.temperature_c := by
  have hf : (sensed c1 inp s1).pti_status.sensor_fault =
      (sensed c2 inp s2).pti_status.sensor_fault := by
    rw [sensed_sensor_fault, sensed_sensor_fault, hmin, hmax]
  have hvf : (sensed c1 inp s1).pti_status.vref_fault =
      (sensed c2 inp s2).pti_status.vref_fault := by
    rw [sensed_vref_fault, sensed_vref_fault, hmin, hmax]
  have hsf : (sensed c1 inp s1).pti_status.signal_fault =
      (sensed c2 inp s2).pti_status.signal_fault := by
    rw [sensed_signal_fault, sensed_signal_fault]
  have hT : (sensed c1 inp s1).pti_status.temperature_c =
      (sensed c2 inp s2).pti_status.temperature_c := by
    rw [sensed_temperature, sensed_temperature]
  obtain ⟨r1, r2, r3⟩ := heating_core_congr c1 c2 (inp.millis % 4294967296)
    (sensed c1 inp s1) (sensed c2 inp s2)
    (by rw [sensed_door, sensed_door, hdoor]) hf
    (by rw [sensed_state, sensed_state, hstate]) hT
    (by rw [sensed_gas, sensed_gas, hgas])
    (by rw [sensed_igniter, sensed_igniter, hign])
    (by rw [sensed_start, sensed_start, hstart]) htarget hdelta hdur
  rw [update_status, update_status]
  refine ⟨r1, r2, r3, ?_, ?_, ?_, ?_⟩
  · exact ((heating_vref_fault c1 _ _).trans hvf).trans (heating_vref_fault c2 _ _).symm
  · exact ((heating_signal_fault c1 _ _).trans hsf).trans (heating_signal_fault c2 _ _).symm
  · exact ((heating_sensor_fault c1 _ _).trans hf).trans (heating_sensor_fault c2 _ _).symm
  · exact ((heating_temperature c1 _ _).trans hT).trans (heating_temperature c2 _ _).symm

/-- Claim C28 (output driver and logger are outside the decision path). `ptx_apply_outputs` and
`ptx_oven_run_log` leave the whole status unchanged; and the status after a tick is the same for
two runs that differ only in the LED level (variable and pin), the LED last-toggle time, the
last-log time and `periodic_log_ms`. -/
theorem C28_outputs_and_log_outside_decision (cfg : ptx_oven_config_t) (inp : TickInput)
    (s : Oven) :
    (∀ now : Nat, (ptx_apply_outputs now s).pti_status = s.pti_status) ∧
    (∀ now : Nat, (ptx_oven_run_log cfg now s).pti_status = s.pti_status) ∧
    (∀ (led pin : Bool) (last_toggle last_log log_ms : Nat),
      (ptx_oven_control_update { cfg with periodic_log_ms := log_ms } inp
        { s with sys_led_status := led
                 sys_led_last_toggle_ms := last_toggle
                 pti_last_log_ms := last_log
                 port := { s.port with sys_led := pin } }).pti_status =
      (ptx_oven_control_update cfg inp s).pti_status) := by
  refine ⟨fun now => apply_outputs_status now s, fun now => run_log_status cfg now s, ?_⟩
  intro led pin last_toggle last_log log_ms
  have hsen := sensed_status_congr { cfg with periodic_log_ms := log_ms } cfg inp
    { s with sys_led_status := led
             sys_led_last_toggle_ms := last_toggle
             pti_last_log_ms := last_log
             port := { s.port with sys_led := pin } } s rfl rfl rfl
  obtain ⟨h1, h2⟩ := heating_status_congr { cfg with periodic_log_ms := log_ms } cfg
    (inp.millis % 4294967296) _ _ hsen
    (by rw [sensed_attempt, sensed_attempt])
    (by rw [sensed_start, sensed_start]) rfl rfl rfl
  rw [update_status, update_status, h1, h2]

/-- Claim C29 (`ptx_oven_set_door_state` only records the door). For every controller state and
every `b`: after `ptx_oven_set_door_state(b)` the status has `door_open = b`; gas command,
igniter command, state, fault flags, temperature, attempt counter (internal and status copy),
ignition-start time, log and LED timers and all pins are unchanged; the gas and igniter outputs
follow the door only at the next `ptx_oven_control_update`, which drives both off when the door
was reported open. -/
theorem C29_set_door_state_frame (b : Bool) (s : Oven) :
    (ptx_oven_set_door_state b s).pti_status.door_open = b ∧
    (ptx_oven_set_door_state b s).pti_status.gas_on = s.pti_status.gas_on ∧
    (ptx_oven_set_door_state b s).pti_status.igniter_on = s.pti_status.igniter_on ∧
    (ptx_oven_set_door_state b s).pti_status.state = s.pti_status.state ∧
    (ptx_oven_set_door_state b s).pti_status.vref_fault = s.pti_status.vref_fault ∧
    (ptx_oven_set_door_state b s).pti_status.signal_fault = s.pti_status.signal_fault ∧
    (ptx_oven_set_door_state b s).pti_status.sensor_fault = s.pti_status.sensor_fault ∧
    (ptx_oven_set_door_state b s).pti_status.temperature_c = s.pti_status.temperature_c ∧
    (ptx_oven_set_door_state b s).pti_status.ignition_attempt = s.pti_status.ignition_attempt ∧
    (ptx_oven_set_door_state b s).pti_ignition_attempt = s.pti_ignition_attempt ∧
    (ptx_oven_set_door_state b s).pti_ignition_start_ms = s.pti_ignition_start_ms ∧
    (ptx_oven_set_door_state b s).pti_last_log_ms = s.pti_last_log_ms ∧
    (ptx_oven_set_door_state b s).sys_led_last_toggle_ms = s.sys_led_last_toggle_ms ∧
    (ptx_oven_set_door_state b s).port = s.port ∧
    ptx_oven_set_door_state b s = { s with pti_status := { s.pti_status with door_open := b } } ∧
    (∀ (cfg : ptx_oven_config_t) (inp : TickInput),
      ptx_actuator_get_gas_state
        (ptx_oven_control_update cfg inp (ptx_oven_set_door_state true s)).port = false ∧
      ptx_actuator_get_igniter_state
        (ptx_oven_control_update cfg inp (ptx_oven_set_door_state true s)).port = false) := by
  refine ⟨rfl, rfl, rfl, rfl, rfl, rfl, rfl, rfl, rfl, rfl, rfl, rfl, rfl, rfl, rfl, ?_⟩
  intro cfg inp
  have hov := heating_override cfg (inp.millis % 4294967296)
    (sensed cfg inp (ptx_oven_set_door_state true s))
    (Or.inl ((sensed_door cfg inp (ptx_oven_set_door_state true s)).trans rfl))
  constructor
  · show (ptx_oven_control_update cfg inp (ptx_oven_set_door_state true s)).port.gas_valve = false
    rw [update_port_gas, hov]
  · show (ptx_oven_control_update cfg inp (ptx_oven_set_door_state true s)).port.igniter = false
    rw [update_port_igniter, hov]


/-- Claim C30 fails as stated: after a normal tick at 100 ms (no fault, LED level low, last toggle
at 0 ms) the door is reported open; the tick at 1000 ms, i.e. 1000 ms after the last toggle and
in the middle of the slow interval, inverts the LED level and records the toggle. -/
theorem C30_led_retimed_counterexample :
    ((ptx_oven_control_update pti_oven_config tick_186_100 oven_idle).pti_status.door_open ||
      (ptx_oven_control_update pti_oven_config tick_186_100 oven_idle).pti_status.vref_fault ||
      (ptx_oven_control_update pti_oven_config tick_186_100 oven_idle).pti_status.signal_fault ||
      (ptx_oven_control_update pti_oven_config tick_186_100 oven_idle).pti_status.sensor_fault)
      = false ∧
    (ptx_oven_control_update pti_oven_config tick_186_100 oven_idle).sys_led_status = false ∧
    (ptx_oven_control_update pti_oven_config tick_186_100 oven_idle).sys_led_last_toggle_ms
      = 0 ∧
    (500 ≤ tick_186_1000.millis - 0 ∧ tick_186_1000.millis - 0 < 3000) ∧
    (ptx_oven_control_update pti_oven_config tick_186_1000 (ptx_oven_set_door_state true
      (ptx_oven_control_update pti_oven_config tick_186_100 oven_idle))).pti_status.door_open
      = true ∧
    (ptx_oven_control_update pti_oven_config tick_186_1000 (ptx_oven_set_door_state true
      (ptx_oven_control_update pti_oven_config tick_186_100 oven_idle))).sys_led_status
      = true ∧
    (ptx_oven_control_update pti_oven_config tick_186_1000 (ptx_oven_set_door_state true
      (ptx_oven_control_update pti_oven_config tick_186_100 oven_idle))).sys_led_last_toggle_ms
      = 1000 := by
  norm_num [oven_idle, tick_186_100, tick_186_1000, ptx_oven_set_door_state,
    ptx_oven_control_update, ptx_oven_control_init,
    oven_boot, pti_oven_config, ptx_eval_sensor_faults_with_timing, ptx_update_heating,
    ptx_apply_outputs, ptx_oven_run_log, ptx_compute_temperature, quotient_5000_2694,
    linear_5000_2694, quotient_5000_3029, linear_5000_3029, round_binary32_175,
    round_binary32_185, round_binary32_300,
    ptx_sensor_filter_read_and_update, ptx_sensor_filter_update, ptx_read_door_open, u32_sub,
    u8_incr, FAST_BLINK_MS, SLOW_BLINK_MS, set_output, ptx_actuator_set_gas,
    ptx_actuator_set_igniter, ptx_actuator_init]

/-- Claim C30 as amended (a fault retimes the LED at once). The blink period is chosen anew on
every tick: on a tick whose status has `door_open OR vref_fault OR signal_fault OR sensor_fault`,
if the time since the last LED toggle is at least 500 ms (also when it is below 3000 ms, in the
middle of a slow interval) the LED level is inverted on that tick and `last_toggle` becomes
`now`; the LED is left alone on such a tick only when less than 500 ms have elapsed. -/
theorem C30_led_retimed_amended (cfg : ptx_oven_config_t) (inp : TickInput) (s : Oven)
    (hfast : ((ptx_oven_control_update cfg inp s).pti_status.door_open ||
      (ptx_oven_control_update cfg inp s).pti_status.vref_fault ||
      (ptx_oven_control_update cfg inp s).pti_status.signal_fault ||
      (ptx_oven_control_update cfg inp s).pti_status.sensor_fault) = true) :
    (500 ≤ ((inp.millis : ℤ) - (s.sys_led_last_toggle_ms : ℤ)) % 4294967296 →
      (ptx_oven_control_update cfg inp s).sys_led_status = (!s.sys_led_status) ∧
      (ptx_oven_control_update cfg inp s).sys_led_last_toggle_ms = inp.millis % 4294967296) ∧
    (((inp.millis : ℤ) - (s.sys_led_last_toggle_ms : ℤ)) % 4294967296 < 500 →
      (ptx_oven_control_update cfg inp s).sys_led_status = s.sys_led_status ∧
      (ptx_oven_control_update cfg inp s).sys_led_last_toggle_ms = s.sys_led_last_toggle_ms) := by
  obtain ⟨hl1, hl2, _⟩ := heating_led cfg (inp.millis % 4294967296) (sensed cfg inp s)
  obtain ⟨sl1, sl2, _⟩ := sensed_led cfg inp s
  have hfast2 : ((ptx_update_heating cfg (inp.millis % 4294967296)
        (sensed cfg inp s)).pti_status.door_open ||
      (ptx_update_heating cfg (inp.millis % 4294967296) (sensed cfg inp s)).pti_status.vref_fault ||
      (ptx_update_heating cfg (inp.millis % 4294967296)
        (sensed cfg inp s)).pti_status.signal_fault ||
      (ptx_update_heating cfg (inp.millis % 4294967296)
        (sensed cfg inp s)).pti_status.sensor_fault) = true := by
    rw [update_status] at hfast
    exact hfast
  have l1 : (ptx_oven_control_update cfg inp s).sys_led_status =
      (ptx_apply_outputs (inp.millis % 4294967296)
        (ptx_update_heating cfg (inp.millis % 4294967296) (sensed cfg inp s))).sys_led_status :=
    (run_log_led cfg _ _).1
  have l3 : (ptx_oven_control_update cfg inp s).sys_led_last_toggle_ms =
      (ptx_apply_outputs (inp.millis % 4294967296)
        (ptx_update_heating cfg (inp.millis % 4294967296)
          (sensed cfg inp s))).sys_led_last_toggle_ms :=
    (run_log_led cfg _ _).2
  have hel : ((u32_sub (inp.millis % 4294967296)
      (ptx_update_heating cfg (inp.millis % 4294967296)
        (sensed cfg inp s)).sys_led_last_toggle_ms : ℕ) : ℤ) =
      ((inp.millis : ℤ) - (s.sys_led_last_toggle_ms : ℤ)) % 4294967296 := by
    rw [hl2, sl2, u32_sub_cast]
    omega
  constructor
  · intro hge
    rw [← hel] at hge
    obtain ⟨a1, _, a3⟩ := apply_outputs_toggle (inp.millis % 4294967296)
      (ptx_update_heating cfg (inp.millis % 4294967296) (sensed cfg inp s))
      (by
        rw [if_pos hfast2]
        unfold FAST_BLINK_MS
        exact_mod_cast hge)
    rw [l1, l3, a1, a3, hl1, sl1]
    exact ⟨rfl, rfl⟩
  · intro hlt
    rw [← hel] at hlt
    obtain ⟨a1, _, a3⟩ := apply_outputs_keep (inp.millis % 4294967296)
      (ptx_update_heating cfg (inp.millis % 4294967296) (sensed cfg inp s))
      (by
        rw [if_pos hfast2]
        unfold FAST_BLINK_MS
        intro hge
        have : (500 : ℤ) ≤ ((u32_sub (inp.millis % 4294967296)
            (ptx_update_heating cfg (inp.millis % 4294967296)
              (sensed cfg inp s)).sys_led_last_toggle_ms : ℕ) : ℤ) := by
          exact_mod_cast hge
        exact absurd hlt (not_lt.mpr this))
    rw [l1, l3, a1, a3, hl1, hl2, sl1, sl2]
    exact ⟨rfl, rfl⟩

/-- Claim C22 does not hold of the code, which loses the boot-time door report. `setup_api`
calls the door handler with the level of the door pin, so that an open door is known before the
first tick; `ptx_oven_control_init`, documented to rely on that setup, then assigns
`door_open = false`. In this order the first tick at 160 °C sees the door closed and turns gas
and igniter on although the door was reported open. -/
theorem C22_door_before_init_lost :
    (ptx_oven_set_door_state true oven_boot).pti_status.door_open = true ∧
    (ptx_oven_control_init (ptx_oven_set_door_state true oven_boot)).pti_status.door_open
      = false ∧
    (ptx_oven_control_update pti_oven_config tick_160
      (ptx_oven_control_init (ptx_oven_set_door_state true oven_boot))).pti_status.door_open
      = false ∧
    (ptx_oven_control_update pti_oven_config tick_160
      (ptx_oven_control_init (ptx_oven_set_door_state true oven_boot))).pti_status.gas_on
      = true ∧
    (ptx_oven_control_update pti_oven_config tick_160
      (ptx_oven_control_init (ptx_oven_set_door_state true oven_boot))).pti_status.igniter_on
      = true := by
  norm_num [tick_160, ptx_oven_set_door_state, ptx_oven_control_update, ptx_oven_control_init,
    oven_boot, pti_oven_config, ptx_eval_sensor_faults_with_timing, ptx_update_heating,
    ptx_apply_outputs, ptx_oven_run_log, ptx_compute_temperature, quotient_5000_2694,
    linear_5000_2694, quotient_5000_3029, linear_5000_3029, round_binary32_175,
    round_binary32_185, round_binary32_300,
    ptx_sensor_filter_read_and_update, ptx_sensor_filter_update, ptx_read_door_open, u32_sub,
    u8_incr, FAST_BLINK_MS, SLOW_BLINK_MS]


/-- Claim C21 fails as stated: with `temp_delta_c = 0` (target 300 °C) and a reading at the
sensing ceiling (300 °C, no sensor fault, door closed), one tick takes Heating to Idle because
`300 >= target + delta`, and the next tick with the same reading starts ignition again because
`300 <= target - delta`. The same happens with the positive half-band `temp_delta_c = 2^-20`
at target 176 °C and the reading 5000 mV / 2900 mV: in single precision both thresholds are 176,
and so is the computed temperature. -/
theorem C21_no_chatter_counterexample :
    0 < cfg_thin_band.temp_delta_c ∧
    round_binary32 (cfg_thin_band.temp_target_c - cfg_thin_band.temp_delta_c) =
      round_binary32 (cfg_thin_band.temp_target_c + cfg_thin_band.temp_delta_c) ∧
    (ptx_oven_control_update cfg_thin_band tick_176_5100 oven_heating).pti_status.state =
      PTX_HEATING_STATE_IDLE ∧
    (ptx_oven_control_update cfg_thin_band tick_176_5100 oven_heating).pti_status.door_open
      = false ∧
    (ptx_oven_control_update cfg_thin_band tick_176_5200
      (ptx_oven_control_update cfg_thin_band tick_176_5100 oven_heating)).pti_status.sensor_fault
      = false ∧
    (ptx_oven_control_update cfg_thin_band tick_176_5200
      (ptx_oven_control_update cfg_thin_band tick_176_5100 oven_heating)).pti_status.state
      = PTX_HEATING_STATE_IGNITING ∧
    (ptx_oven_control_update cfg_thin_band tick_176_5200
      (ptx_oven_control_update cfg_thin_band tick_176_5100 oven_heating)).pti_status.gas_on
      = true ∧
    0 ≤ cfg_zero_band.temp_delta_c ∧
    oven_heating.pti_status.state = PTX_HEATING_STATE_HEATING ∧
    ptx_compute_temperature (tick_300_5100.vref_mv : ℚ) (tick_300_5100.signal_mv : ℚ) ≥
      round_binary32 (cfg_zero_band.temp_target_c + cfg_zero_band.temp_delta_c) ∧
    (ptx_oven_control_update cfg_zero_band tick_300_5100 oven_heating).pti_status.state =
      PTX_HEATING_STATE_IDLE ∧
    (ptx_oven_control_update cfg_zero_band tick_300_5100 oven_heating).pti_status.door_open
      = false ∧
    (ptx_oven_control_update cfg_zero_band tick_300_5200
      (ptx_oven_control_update cfg_zero_band tick_300_5100 oven_heating)).pti_status.sensor_fault
      = false ∧
    (ptx_oven_control_update cfg_zero_band tick_300_5200
      (ptx_oven_control_update cfg_zero_band tick_300_5100 oven_heating)).pti_status.state
      = PTX_HEATING_STATE_IGNITING ∧
    (ptx_oven_control_update cfg_zero_band tick_300_5200
      (ptx_oven_control_update cfg_zero_band tick_300_5100 oven_heating)).pti_status.gas_on
      = true := by
  have hthin : 0 < cfg_thin_band.temp_delta_c ∧
      round_binary32 (cfg_thin_band.temp_target_c - cfg_thin_band.temp_delta_c) =
        round_binary32 (cfg_thin_band.temp_target_c + cfg_thin_band.temp_delta_c) := by
    norm_num [cfg_thin_band, ptx_oven_set_temp_target_c, ptx_oven_set_temp_delta_c,
      pti_oven_config, round_binary32_176_below, round_binary32_176_above]
  refine ⟨hthin.1, hthin.2, oven_heating_thin_band_facts.2.2.2.2,
    oven_heating_thin_band_facts.2.1, oven_heating_thin_band_next_facts.1,
    oven_heating_thin_band_next_facts.2.1, oven_heating_thin_band_next_facts.2.2, ?_⟩
  norm_num [oven_heating, oven_igniting, oven_idle, tick_160, tick_160_5000, tick_300_5100,
    tick_300_5200, cfg_zero_band, ptx_oven_set_temp_delta_c, ptx_oven_set_temp_target_c,
    ptx_oven_control_update, ptx_oven_control_init,
    oven_boot, pti_oven_config, ptx_eval_sensor_faults_with_timing, ptx_update_heating,
    ptx_apply_outputs, ptx_oven_run_log, ptx_compute_temperature, quotient_5000_2694,
    linear_5000_2694, quotient_5000_3029, linear_5000_3029, round_binary32_175,
    round_binary32_185, round_binary32_300,
    ptx_sensor_filter_read_and_update, ptx_sensor_filter_update, ptx_read_door_open, u32_sub,
    u8_incr, FAST_BLINK_MS, SLOW_BLINK_MS]

/-- Claim C21 as amended (no chatter when the computed thresholds differ). For every
configuration whose ON threshold as the code computes it (`temp_target_c - temp_delta_c` rounded
to binary32) is below its OFF threshold as the code computes it (`temp_target_c + temp_delta_c`
rounded to binary32): if a tick with the door closed and a valid reading takes Heating to Idle
because the computed temperature is at least the OFF threshold, then the next tick with a valid
reading of the same temperature (the door still closed) does not start ignition: the state stays
Idle and gas and igniter stay off. -/
theorem C21_no_chatter_amended (cfg : ptx_oven_config_t) (inp1 inp2 : TickInput) (s : Oven)
    (hband : round_binary32 (cfg.temp_target_c - cfg.temp_delta_c) <
      round_binary32 (cfg.temp_target_c + cfg.temp_delta_c))
    (hst : s.pti_status.state = PTX_HEATING_STATE_HEATING)
    (hdoor : s.pti_status.door_open = false)
    (hv1 : cfg.vref_min_v ≤ (inp1.vref_mv : ℚ) / 1000)
    (hv2 : (inp1.vref_mv : ℚ) / 1000 ≤ cfg.vref_max_v)
    (hs1 : 0.10 * (inp1.vref_mv : ℚ) ≤ (inp1.signal_mv : ℚ))
    (hs2 : (inp1.signal_mv : ℚ) ≤ 0.90 * (inp1.vref_mv : ℚ))
    (hT : ptx_compute_temperature (inp1.vref_mv : ℚ) (inp1.signal_mv : ℚ) ≥
      round_binary32 (cfg.temp_target_c + cfg.temp_delta_c))
    (hw1 : cfg.vref_min_v ≤ (inp2.vref_mv : ℚ) / 1000)
    (hw2 : (inp2.vref_mv : ℚ) / 1000 ≤ cfg.vref_max_v)
    (hr1 : 0.10 * (inp2.vref_mv : ℚ) ≤ (inp2.signal_mv : ℚ))
    (hr2 : (inp2.signal_mv : ℚ) ≤ 0.90 * (inp2.vref_mv : ℚ))
    (hsame : ptx_compute_temperature (inp2.vref_mv : ℚ) (inp2.signal_mv : ℚ) =
      ptx_compute_temperature (inp1.vref_mv : ℚ) (inp1.signal_mv : ℚ)) :
    (ptx_oven_control_update cfg inp1 s).pti_status.state = PTX_HEATING_STATE_IDLE ∧
    (ptx_oven_control_update cfg inp1 s).pti_status.gas_on = false ∧
    (ptx_oven_control_update cfg inp1 s).pti_status.door_open = false ∧
    (ptx_oven_control_update cfg inp2 (ptx_oven_control_update cfg inp1 s)).pti_status.state =
      PTX_HEATING_STATE_IDLE ∧
    (ptx_oven_control_update cfg inp2 (ptx_oven_control_update cfg inp1 s)).pti_status.gas_on
      = false ∧
    (ptx_oven_control_update cfg inp2 (ptx_oven_control_update cfg inp1 s)).pti_status.igniter_on
      = false := by
  -- first tick: the cut-off branch
  have hd := (sensed_door cfg inp1 s).trans hdoor
  have hf := sensed_fault_of_valid cfg inp1 s hv1 hv2 hs1 hs2
  have hs := (sensed_state cfg inp1 s).trans hst
  have ht : (sensed cfg inp1 s).pti_status.temperature_c ≥
      round_binary32 (cfg.temp_target_c + cfg.temp_delta_c) := by
    rw [sensed_temperature]
    exact hT
  have hstep := heating_heating_off cfg (inp1.millis % 4294967296) _ hd hf hs ht
  obtain ⟨c1s, c1g, c1i, _, _⟩ := update_core cfg inp1 s
  rw [hstep] at c1s c1g c1i
  have e1s : (ptx_oven_control_update cfg inp1 s).pti_status.state = PTX_HEATING_STATE_IDLE :=
    c1s
  have e1g : (ptx_oven_control_update cfg inp1 s).pti_status.gas_on = false := c1g
  have e1i : (ptx_oven_control_update cfg inp1 s).pti_status.igniter_on = false := c1i
  have e1d : (ptx_oven_control_update cfg inp1 s).pti_status.door_open = false :=
    (update_door cfg inp1 s).trans hdoor
  -- second tick: Idle, above the ON threshold
  have hd2 := (sensed_door cfg inp2 (ptx_oven_control_update cfg inp1 s)).trans e1d
  have hf2 := sensed_fault_of_valid cfg inp2 (ptx_oven_control_update cfg inp1 s) hw1 hw2 hr1 hr2
  have hs2 := (sensed_state cfg inp2 (ptx_oven_control_update cfg inp1 s)).trans e1s
  have ht2 : ¬ (sensed cfg inp2 (ptx_oven_control_update cfg inp1 s)).pti_status.temperature_c ≤
      round_binary32 (cfg.temp_target_c - cfg.temp_delta_c) := by
    rw [sensed_temperature, hsame]
    intro hle
    linarith
  have hstep2 := heating_idle_wait cfg (inp2.millis % 4294967296) _ hd2 hf2 hs2 ht2
  obtain ⟨c2s, c2g, c2i, _, _⟩ := update_core cfg inp2 (ptx_oven_control_update cfg inp1 s)
  rw [hstep2] at c2s c2g c2i
  exact ⟨e1s, e1g, e1d, c2s.trans hs2,
    c2g.trans ((sensed_gas cfg inp2 _).trans e1g),
    c2i.trans ((sensed_igniter cfg inp2 _).trans e1i)⟩

/-! ## The claims C21 to C30 at concrete inputs -/

/-- Instance of C21 as amended: with the start-up thresholds 175 °C and 185 °C, 186 °C ends
heating and the next tick at 186 °C leaves the oven idle. -/
theorem C21_no_chatter_amended_witness :
    round_binary32 (pti_oven_config.temp_target_c - pti_oven_config.temp_delta_c) <
      round_binary32 (pti_oven_config.temp_target_c + pti_oven_config.temp_delta_c) ∧
    oven_heating.pti_status.state = PTX_HEATING_STATE_HEATING ∧
    (ptx_oven_control_update pti_oven_config tick_186 oven_heating).pti_status.state =
      PTX_HEATING_STATE_IDLE ∧
    (ptx_oven_control_update pti_oven_config tick_186_5200
      (ptx_oven_control_update pti_oven_config tick_186 oven_heating)).pti_status.state =
      PTX_HEATING_STATE_IDLE ∧
    (ptx_oven_control_update pti_oven_config tick_186_5200
      (ptx_oven_control_update pti_oven_config tick_186 oven_heating)).pti_status.gas_on
      = false := by
  have hpos : round_binary32 (pti_oven_config.temp_target_c - pti_oven_config.temp_delta_c) <
      round_binary32 (pti_oven_config.temp_target_c + pti_oven_config.temp_delta_c) := by
    norm_num [pti_oven_config, round_binary32_175, round_binary32_185]
  obtain ⟨r1, _, _, r4, r5, _⟩ := C21_no_chatter_amended pti_oven_config tick_186 tick_186_5200
    oven_heating hpos oven_heating_facts.1 oven_heating_facts.2.1
    (by norm_num [tick_186, pti_oven_config]) (by norm_num [tick_186, pti_oven_config])
    (by norm_num [tick_186]) (by norm_num [tick_186])
    (by norm_num [tick_186, pti_oven_config, temperature_5000_3029, round_binary32_185])
    (by norm_num [tick_186_5200, pti_oven_config]) (by norm_num [tick_186_5200, pti_oven_config])
    (by norm_num [tick_186_5200]) (by norm_num [tick_186_5200])
    rfl
  exact ⟨hpos, oven_heating_facts.1, r1, r4, r5⟩

/-- Instance of C23: ignition started 296 ms before the clock wraps; 5000 ms later the clock
reads 4704 ms and the tick ends the ignition phase. -/
theorem C23_wraparound_safe_timer_witness :
    tick_160_wrapped.millis < oven_igniting_late.pti_ignition_start_ms ∧
    u32_sub (tick_160_wrapped.millis % 4294967296) oven_igniting_late.pti_ignition_start_ms
      = 5000 ∧
    (ptx_oven_control_update pti_oven_config tick_160_wrapped oven_igniting_late).pti_status.state
      = PTX_HEATING_STATE_HEATING := by
  obtain ⟨h1, _, h3⟩ := C23_wraparound_safe_timer pti_oven_config tick_160_wrapped
    oven_igniting_late 5000 (by decide) (by decide)
  exact ⟨by decide, h1,
    (h3 oven_igniting_facts.1 oven_igniting_facts.2.1
      (by norm_num [tick_160_wrapped, pti_oven_config])
      (by norm_num [tick_160_wrapped, pti_oven_config])
      (by norm_num [tick_160_wrapped]) (by norm_num [tick_160_wrapped])).mpr (by decide)⟩

/-- Instance of C25: at `vref = 5000 mV` a signal of 2000 mV maps below one of 3000 mV. -/
theorem C25_temperature_monotone_witness :
    (0 : ℚ) < 5000 ∧
    ptx_compute_temperature 5000 2000 ≤ ptx_compute_temperature 5000 3000 :=
  ⟨by norm_num,
    (C25_temperature_monotone 5000 (by norm_num)).2.2.2.2 2000 3000 (by norm_num)⟩

/-- Instance of C26: the signal computed by `mv_for_temp` for 160 °C at `vref = 5000 mV` maps
back to within 0.03875 °C of 160 °C. -/
theorem C26_mv_for_temp_inverse_witness :
    |ptx_compute_temperature_exact 5000 (mv_for_temp 5000 160 : ℚ) - 160| ≤ 387.5 / (2 * 5000) ∧
    387.5 / (2 * 5000) < (0.05 : ℚ) :=
  ⟨(C26_mv_for_temp_inverse 5000 160 (by norm_num) (by norm_num) (by norm_num)
      (by norm_num)).2.1,
    (C26_mv_for_temp_inverse 5000 160 (by norm_num) (by norm_num) (by norm_num)
      (by norm_num)).2.2.1⟩

/-- Instance of C27: other values of the two debounce windows, the attempt limit, the attempt
counter and the lockout flag give the same decision at 160 °C. -/
theorem C27_unused_parameters_witness :
    oven_idle_other.pti_ignition_attempt ≠ oven_idle.pti_ignition_attempt ∧
    oven_idle_other.pti_status.ignition_lockout ≠ oven_idle.pti_status.ignition_lockout ∧
    cfg_other_unused.max_ignition_attempts ≠ pti_oven_config.max_ignition_attempts ∧
    (ptx_oven_control_update cfg_other_unused tick_160 oven_idle_other).pti_status.state =
      (ptx_oven_control_update pti_oven_config tick_160 oven_idle).pti_status.state ∧
    (ptx_oven_control_update cfg_other_unused tick_160 oven_idle_other).pti_status.gas_on =
      (ptx_oven_control_update pti_oven_config tick_160 oven_idle).pti_status.gas_on ∧
    (ptx_oven_control_update cfg_other_unused tick_160 oven_idle_other).pti_status.igniter_on =
      (ptx_oven_control_update pti_oven_config tick_160 oven_idle).pti_status.igniter_on := by
  obtain ⟨r1, r2, r3, _⟩ := C27_unused_parameters cfg_other_unused pti_oven_config tick_160
    oven_idle_other oven_idle rfl rfl rfl rfl rfl rfl rfl rfl rfl rfl
  exact ⟨by decide, by decide, by decide, r1, r2, r3⟩

/-- Instance of C30 as amended: the door-open tick 1000 ms after the last toggle inverts the LED
level. -/
theorem C30_led_retimed_amended_witness :
    (ptx_oven_control_update pti_oven_config tick_186_1000
      (ptx_oven_set_door_state true oven_idle)).sys_led_status = true ∧
    (ptx_oven_control_update pti_oven_config tick_186_1000
      (ptx_oven_set_door_state true oven_idle)).sys_led_last_toggle_ms = 1000 := by
  have hd : (ptx_oven_control_update pti_oven_config tick_186_1000
      (ptx_oven_set_door_state true oven_idle)).pti_status.door_open = true :=
    (update_door pti_oven_config tick_186_1000 (ptx_oven_set_door_state true oven_idle)).trans rfl
  obtain ⟨a1, a3⟩ := (C30_led_retimed_amended pti_oven_config tick_186_1000
    (ptx_oven_set_door_state true oven_idle) (by rw [hd]; rfl)).1 (by
      norm_num [tick_186_1000, ptx_oven_set_door_state, oven_idle, ptx_oven_control_init,
        oven_boot])
  exact ⟨a1, a3⟩


/-! ## Claims C31 and C32 -/

/-- A tick that begins with a state value outside the four enumerators, the door closed and a
valid reading leaves the state value as it was and logs the anomaly. -/
theorem update_invalid_state (cfg : ptx_oven_config_t) (inp : TickInput) (s : Oven)
    (h0 : s.pti_status.state ≠ PTX_HEATING_STATE_IDLE)
    (h1 : s.pti_status.state ≠ PTX_HEATING_STATE_IGNITING)
    (h2 : s.pti_status.state ≠ PTX_HEATING_STATE_HEATING)
    (h3 : s.pti_status.state ≠ PTX_HEATING_STATE_LOCKOUT)
    (hdoor : s.pti_status.door_open = false)
    (hv1 : cfg.vref_min_v ≤ (inp.vref_mv : ℚ) / 1000)
    (hv2 : (inp.vref_mv : ℚ) / 1000 ≤ cfg.vref_max_v)
    (hs1 : 0.10 * (inp.vref_mv : ℚ) ≤ (inp.signal_mv : ℚ))
    (hs2 : (inp.signal_mv : ℚ) ≤ 0.90 * (inp.vref_mv : ℚ)) :
    (ptx_oven_control_update cfg inp s).pti_status.state = s.pti_status.state ∧
    (ptx_update_heating cfg (inp.millis % 4294967296) (sensed cfg inp s)).log =
      (sensed cfg inp s).log ++ [LogMsg.invalid_state s.pti_status.state] := by
  have hd := (sensed_door cfg inp s).trans hdoor
  have hf := sensed_fault_of_valid cfg inp s hv1 hv2 hs1 hs2
  have hss := sensed_state cfg inp s
  have hstep := heating_invalid cfg (inp.millis % 4294967296) (sensed cfg inp s) hd hf
    (by rw [hss]; exact h0) (by rw [hss]; exact h1) (by rw [hss]; exact h2)
    (by rw [hss]; exact h3)
  constructor
  · rw [update_status, hstep]
    exact hss
  · rw [hstep, hss]

/-- Claim C31, the code on an invalid state: a tick that begins with the state value 4 (none of
Idle, Igniting, Heating, Lockout), the door closed and a valid reading of 160 °C ends with the
state value still 4, not Idle; the default case only logs "invalid state, reset to IDLE". The
same holds for every state value outside the four enumerators, every valid reading, clock value
and configuration. -/
theorem C31_invalid_state_not_normalized :
    oven_invalid.pti_status.state = 4 ∧
    oven_invalid.pti_status.door_open = false ∧
    (ptx_oven_control_update pti_oven_config tick_160 oven_invalid).pti_status.state = 4 ∧
    (ptx_oven_control_update pti_oven_config tick_160 oven_invalid).pti_status.state ≠
      PTX_HEATING_STATE_IDLE ∧
    (∀ (cfg : ptx_oven_config_t) (inp : TickInput) (s : Oven),
      s.pti_status.state ≠ PTX_HEATING_STATE_IDLE →
      s.pti_status.state ≠ PTX_HEATING_STATE_IGNITING →
      s.pti_status.state ≠ PTX_HEATING_STATE_HEATING →
      s.pti_status.state ≠ PTX_HEATING_STATE_LOCKOUT →
      s.pti_status.door_open = false →
      cfg.vref_min_v ≤ (inp.vref_mv : ℚ) / 1000 → (inp.vref_mv : ℚ) / 1000 ≤ cfg.vref_max_v →
      0.10 * (inp.vref_mv : ℚ) ≤ (inp.signal_mv : ℚ) →
      (inp.signal_mv : ℚ) ≤ 0.90 * (inp.vref_mv : ℚ) →
      (ptx_oven_control_update cfg inp s).pti_status.state = s.pti_status.state ∧
      (ptx_oven_control_update cfg inp s).pti_status.state ≠ PTX_HEATING_STATE_IDLE) := by
  have hgen : ∀ (cfg : ptx_oven_config_t) (inp : TickInput) (s : Oven),
      s.pti_status.state ≠ PTX_HEATING_STATE_IDLE →
      s.pti_status.state ≠ PTX_HEATING_STATE_IGNITING →
      s.pti_status.state ≠ PTX_HEATING_STATE_HEATING →
      s.pti_status.state ≠ PTX_HEATING_STATE_LOCKOUT →
      s.pti_status.door_open = false →
      cfg.vref_min_v ≤ (inp.vref_mv : ℚ) / 1000 → (inp.vref_mv : ℚ) / 1000 ≤ cfg.vref_max_v →
      0.10 * (inp.vref_mv : ℚ) ≤ (inp.signal_mv : ℚ) →
      (inp.signal_mv : ℚ) ≤ 0.90 * (inp.vref_mv : ℚ) →
      (ptx_oven_control_update cfg inp s).pti_status.state = s.pti_status.state ∧
      (ptx_oven_control_update cfg inp s).pti_status.state ≠ PTX_HEATING_STATE_IDLE := by
    intro cfg inp s h0 h1 h2 h3 hdoor hv1 hv2 hs1 hs2
    have hkeep := (update_invalid_state cfg inp s h0 h1 h2 h3 hdoor hv1 hv2 hs1 hs2).1
    exact ⟨hkeep, by rw [hkeep]; exact h0⟩
  have h4 : oven_invalid.pti_status.state = 4 := rfl
  obtain ⟨k1, k2⟩ := hgen pti_oven_config tick_160 oven_invalid
    (by rw [h4]; decide) (by rw [h4]; decide) (by rw [h4]; decide) (by rw [h4]; decide) rfl
    (by norm_num [tick_160, pti_oven_config]) (by norm_num [tick_160, pti_oven_config])
    (by norm_num [tick_160]) (by norm_num [tick_160])
  exact ⟨h4, rfl, k1.trans h4, k2, hgen⟩

/-- Claim C32 (`ptx_oven_set_max_ignition_attempts` rejects out-of-range values atomically). For
every argument `a` and every configuration: if `1 <= a <= 5` the call sets
`max_ignition_attempts = a` and changes no other field; if `a = 0` or `a > 5` the whole
configuration is left unchanged (the value is ignored, not clamped); hence a configuration with
`1 <= max_ignition_attempts <= 5` keeps that property. -/
theorem C32_set_max_ignition_attempts (a : Nat) (c : ptx_oven_config_t) :
    (1 ≤ a ∧ a ≤ 5 →
      ptx_oven_set_max_ignition_attempts a c = { c with max_ignition_attempts := a } ∧
      (ptx_oven_set_max_ignition_attempts a c).max_ignition_attempts = a) ∧
    (a = 0 ∨ a > 5 → ptx_oven_set_max_ignition_attempts a c = c) ∧
    (1 ≤ c.max_ignition_attempts ∧ c.max_ignition_attempts ≤ 5 →
      1 ≤ (ptx_oven_set_max_ignition_attempts a c).max_ignition_attempts ∧
      (ptx_oven_set_max_ignition_attempts a c).max_ignition_attempts ≤ 5) := by
  refine ⟨?_, ?_, ?_⟩
  · intro h
    have hc : a > 0 ∧ a ≤ 5 := ⟨h.1, h.2⟩
    unfold ptx_oven_set_max_ignition_attempts
    rw [if_pos hc]
    exact ⟨rfl, rfl⟩
  · intro h
    have hc : ¬ (a > 0 ∧ a ≤ 5) := by
      rintro ⟨h1, h2⟩
      rcases h with h | h
      · omega
      · omega
    unfold ptx_oven_set_max_ignition_attempts
    rw [if_neg hc]
  · intro h
    unfold ptx_oven_set_max_ignition_attempts
    split_ifs with hc
    · exact ⟨hc.1, hc.2⟩
    · exact h

/-- Instance of C32: 4 is stored, 0 and 9 are ignored, from the start-up configuration. -/
theorem C32_set_max_ignition_attempts_witness :
    (ptx_oven_set_max_ignition_attempts 4 pti_oven_config).max_ignition_attempts = 4 ∧
    ptx_oven_set_max_ignition_attempts 0 pti_oven_config = pti_oven_config ∧
    ptx_oven_set_max_ignition_attempts 9 pti_oven_config = pti_oven_config :=
  ⟨((C32_set_max_ignition_attempts 4 pti_oven_config).1 ⟨by decide, by decide⟩).2,
    (C32_set_max_ignition_attempts 0 pti_oven_config).2.1 (Or.inl rfl),
    (C32_set_max_ignition_attempts 9 pti_oven_config).2.1 (Or.inr (by decide))⟩

end PtxOven
